import Mathlib

/-! Campus event management client: a shallow embedding.

The browser modules `js/auth.js`, `js/events.js`, `js/dashboard.js` and
`js/supabase.js` are embedded as functions over an explicit `World` (the answers
of the hosted backend and of the browser) that return a `Run`: the trace of
observable effects in program order, together with how the call completed.
-/

namespace Campus

/-! ## JavaScript values -/

/-- The JavaScript values the client code can tell apart. -/
inductive JsValue
  | undefined
  | null
  | str (s : String)
  | fn (name : String)
  | obj (name : String)
  deriving DecidableEq, Repr

/-- ECMAScript `ToBoolean`. -/
def JsValue.truthy : JsValue → Bool
  | .undefined => false
  | .null => false
  | .str s => s != ""
  | .fn _ => true
  | .obj _ => true

/-- The operator `a || b`. -/
def jsOr (a b : JsValue) : JsValue :=
  if a.truthy then a else b

/-- ECMAScript `ToString`, which is also `ToPropertyKey` on these values. -/
def jsToString : JsValue → String
  | .undefined => "undefined"
  | .null => "null"
  | .str s => s
  | .fn name => "function " ++ name ++ "() \x7b [native code] \x7d"
  | .obj _ => "[object Object]"

/-- The properties every ordinary object inherits from `Object.prototype`. -/
def objectPrototype : List (String × JsValue) :=
  [ ("constructor", .fn "Object"),
    ("__defineGetter__", .fn "__defineGetter__"),
    ("__defineSetter__", .fn "__defineSetter__"),
    ("hasOwnProperty", .fn "hasOwnProperty"),
    ("__lookupGetter__", .fn "__lookupGetter__"),
    ("__lookupSetter__", .fn "__lookupSetter__"),
    ("isPrototypeOf", .fn "isPrototypeOf"),
    ("propertyIsEnumerable", .fn "propertyIsEnumerable"),
    ("toString", .fn "toString"),
    ("valueOf", .fn "valueOf"),
    ("__proto__", .obj "Object.prototype"),
    ("toLocaleString", .fn "toLocaleString") ]

/-- Lookup of a key among a list of properties. -/
def lookupProp : List (String × JsValue) → String → Option JsValue
  | [], _ => none
  | (k, v) :: rest, key => if k = key then some v else lookupProp rest key

/-- Property read `o[key]` on an object literal with own properties `own`:
own properties first, then the prototype chain, else `undefined`. -/
def getProp (own : List (String × JsValue)) (key : String) : JsValue :=
  match lookupProp own key with
  | some v => v
  | none =>
    match lookupProp objectPrototype key with
    | some v => v
    | none => .undefined

/-! ## auth.js: role to dashboard route -/

/-- The object literal `dashboardMap` of `getDashboardUrl`. -/
def dashboardMap : List (String × JsValue) :=
  [ ("student", .str "student-dashboard.html"),
    ("organizer", .str "organizer-dashboard.html"),
    ("faculty", .str "faculty-dashboard.html") ]

/-- The function `getDashboardUrl(role)`: `dashboardMap[role] || 'index.html'`. -/
def getDashboardUrl (role : JsValue) : JsValue :=
  jsOr (getProp dashboardMap (jsToString role)) (.str "index.html")

/-! ## Errors, completions and effect traces -/

/-- A thrown or returned error object: its constructor name and its `message`
property (`none` when the property is absent). -/
structure JsError where
  name : String
  message : Option String
  deriving DecidableEq, Repr

/-- The value of `new Error(msg)`. -/
def JsError.error (msg : String) : JsError := ⟨"Error", some msg⟩

/-- The `TypeError` raised by reading a property of `null` or `undefined`. -/
def JsError.typeError (msg : String) : JsError := ⟨"TypeError", some msg⟩

/-- A user's profile row, as far as the client reads it. -/
structure Profile where
  role : JsValue
  full_name : String
  deriving DecidableEq, Repr

/-- The user of an auth session. -/
structure User where
  id : String
  deriving DecidableEq, Repr

/-- An auth session. -/
structure Session where
  user : User
  deriving DecidableEq, Repr

/-- A JavaScript Number whose value is not a fraction, which is every Number that
`parseInt` can return: `NaN`, an infinity, or a finite Number of integral value.
`finite negative m` is the Number of value `m`, negated when `negative` holds, so
`finite true 0` is the negative zero. -/
inductive JsNumber
  | nan
  | finite (negative : Bool) (magnitude : Nat)
  | infinity (negative : Bool)
  deriving DecidableEq, Repr

/-- The value found under a numeric key of a row that the client has read: the row
may lack the key (`undefined`), hold `null` under it, or hold an integer. -/
inductive NumberField
  | undefined
  | null
  | number (n : Int)
  deriving DecidableEq, Repr

/-- The record that `createEvent` passes to `insert`. `max_participants` holds the
result of `parseInt`. -/
structure EventInsert where
  title : String
  description : String
  venue : String
  category : String
  max_participants : JsNumber
  event_date : String
  event_time : String
  poster_url : Option String
  organizer_id : String
  status : String
  deriving DecidableEq, Repr

/-- A poster file chosen in the form: its name and its size in bytes. -/
structure File where
  name : String
  size : Nat
  deriving DecidableEq, Repr

/-- A row of the `events` table as the client reads it, with the joined organizer
name. -/
structure EventRow where
  id : String
  title : String
  description : String
  venue : String
  category : String
  event_date : String
  event_time : String
  capacity : NumberField
  max_participants : NumberField
  poster_url : Option String
  status : String
  organizer_id : String
  organizer : Option String
  deriving DecidableEq, Repr

/-- A row of the `registrations` table as the client reads it, with the joined event
and the joined student name. -/
structure RegistrationRow where
  id : String
  event_id : String
  user_id : String
  event : Option EventRow
  student : Option String
  deriving DecidableEq, Repr

/-- One filter of a query: `.eq(column, value)` or `.or(conditions)`. -/
inductive Filter
  | eq (column : String) (value : String)
  | or (conditions : String)
  deriving DecidableEq, Repr

/-- A read built with `supabase.from(table).select(columns)` and the filter, order and
`single` steps chained on it. The filters of a query all have to hold. White space
inside `columns` is not kept. -/
structure Query where
  table : String
  columns : String
  filters : List Filter
  order : Option (String × Bool)
  single : Bool
  deriving DecidableEq, Repr

/-- What a write does to the rows it is filtered to. -/
inductive MutationKind
  | delete
  | update (column : String) (value : String)
  deriving DecidableEq, Repr

/-- A write built with `supabase.from(table).delete()` or `.update({ column: value })`
and the filters chained on it. -/
structure Mutation where
  table : String
  kind : MutationKind
  filters : List Filter
  deriving DecidableEq, Repr

/-- A card element, by the function that builds it and the arguments it is built
from. -/
inductive Card
  | catalog (event : EventRow)
  | student (event : EventRow) (registrationId : String)
  | organizer (event : EventRow)
  | faculty (event : EventRow) (currentFilter : String)
  deriving DecidableEq, Repr

/-- The four footers of the event modal. -/
inductive ModalFooter
  | alreadyRegistered
  | registerNow (eventId : String)
  | onlyStudents
  | loginToRegister
  deriving DecidableEq, Repr

/-- One observable effect of the client code. -/
inductive Effect
  /-- The call `alert(msg)`. -/
  | alert (msg : String)
  /-- The assignment `window.location.href = v`. -/
  | setLocationHref (v : JsValue)
  /-- The call `console.error(label, ...)`. -/
  | consoleError (label : String)
  /-- The assignment `element.prop = value` on the element with the given id. -/
  | setDom (elementId : String) (prop : String) (value : String)
  /-- The request `supabase.auth.getSession()`. -/
  | getSession
  /-- The request `supabase.auth.signInWithPassword({ email, password })`. -/
  | signInWithPassword (email : String) (password : String)
  /-- The request `supabase.from('profiles').select(columns).eq('id', id).single()`. -/
  | selectProfile (columns : String) (id : String)
  /-- The request `supabase.rpc('register_student', { p_event_id, p_user_id })`. -/
  | rpcRegisterStudent (eventId : String) (userId : String)
  /-- The request `supabase.storage.from(bucket).upload(path, file)`. -/
  | storageUpload (bucket : String) (path : String) (file : File)
  /-- The request `supabase.storage.from(bucket).remove([path])`. -/
  | storageRemove (bucket : String) (path : String)
  /-- The request `supabase.from('events').insert([record]).select().single()`. -/
  | insertEvent (record : EventInsert)
  /-- The request `supabase.from('events').delete().eq('id', id)`. -/
  | deleteEventRow (id : String)
  /-- The dialog `confirm(msg)`. -/
  | confirm (msg : String)
  /-- A call of another async function of the client that is not awaited. -/
  | call (fn : String)
  /-- The call `setTimeout(callback, ms)`, the callback named by what it does. -/
  | setTimeout (callback : String) (ms : Nat)
  /-- Any other DOM method call, e.g. `form.reset()`. -/
  | domCall (elementId : String) (method : String)
  /-- The request `supabase.auth.signUp` with the name and the role as metadata. -/
  | signUp (email : String) (password : String) (name : String) (role : String)
  /-- The request `supabase.auth.signOut()`. -/
  | signOut
  /-- A read of a table. -/
  | select (query : Query)
  /-- A delete or an update of a table. -/
  | mutate (mutation : Mutation)
  /-- The call `grid.appendChild(card)` on the element with the given id. -/
  | appendCard (gridId : String) (card : Card)
  /-- The event modal filled by `showEventModal` and made active. -/
  | showEventModal (event : EventRow) (footer : ModalFooter)
  /-- The registrations modal filled by `showRegistrationsModal` and made active. -/
  | showRegistrationsModal (eventTitle : String) (registrations : List RegistrationRow)
  /-- The assignment `element.textContent = n` of a count. -/
  | setNumber (elementId : String) (value : Nat)
  deriving DecidableEq, Repr

/-- How a call completed: normally with a value, or by throwing. -/
inductive Completion (α : Type)
  | normal (a : α)
  | throw (e : JsError)
  deriving DecidableEq, Repr

/-- The outcome of running client code: the effects in program order and the
completion. -/
structure Run (α : Type) where
  trace : List Effect
  result : Completion α
  deriving DecidableEq, Repr

namespace Run

/-- Completes normally with `a`, no effect. -/
def ret {α : Type} (a : α) : Run α := ⟨[], .normal a⟩

/-- The statement `throw e`. -/
def throw {α : Type} (e : JsError) : Run α := ⟨[], .throw e⟩

/-- Performs one effect. -/
def emit (e : Effect) : Run Unit := ⟨[e], .normal ()⟩

/-- Sequencing: a throw in the first part skips the second. -/
def andThen {α β : Type} (r : Run α) (f : α → Run β) : Run β :=
  match r.result with
  | .normal a => ⟨r.trace ++ (f a).trace, (f a).result⟩
  | .throw e => ⟨r.trace, .throw e⟩

/-- The statement `try { body } catch (error) { handler }`. -/
def tryCatch {α : Type} (body : Run α) (handler : JsError → Run α) : Run α :=
  match body.result with
  | .normal a => ⟨body.trace, .normal a⟩
  | .throw e => ⟨body.trace ++ (handler e).trace, (handler e).result⟩

/-- The statement `try { body } finally { fin }` where `fin` completes normally. -/
def tryFinally {α : Type} (body : Run α) (fin : Run Unit) : Run α :=
  match fin.result with
  | .normal _ => ⟨body.trace ++ fin.trace, body.result⟩
  | .throw e => ⟨body.trace ++ fin.trace, .throw e⟩

/-- The messages shown by `alert`, in order. -/
def alerts {α : Type} (r : Run α) : List String :=
  r.trace.filterMap fun e => match e with
    | .alert m => some m
    | _ => none

/-- The values assigned to `window.location.href`, in order. -/
def navigations {α : Type} (r : Run α) : List JsValue :=
  r.trace.filterMap fun e => match e with
    | .setLocationHref v => some v
    | _ => none

/-- Whether the call threw to its caller. -/
def threw {α : Type} (r : Run α) : Bool :=
  match r.result with
  | .normal _ => false
  | .throw _ => true

end Run

instance : Monad Run where
  pure := Run.ret
  bind := Run.andThen

/-! ## The backend and the browser, as seen by the client -/

/-- An awaited remote call either resolves with a response or rejects. -/
inductive Call (α : Type)
  | returns (a : α)
  | raises (e : JsError)
  deriving DecidableEq, Repr

/-- The response `{ data: { session }, error }` of `auth.getSession()`. -/
structure SessionResponse where
  session : Option Session
  error : Option JsError
  deriving DecidableEq, Repr

/-- The response `{ data: { user, .. }, error }` of `auth.signInWithPassword`. -/
structure AuthResponse where
  user : Option User
  error : Option JsError
  deriving DecidableEq, Repr

/-- The response of a query ending in `.single()`: the client library declares it as
the union of a success (one row, `error: null`) and a failure (`data: null`, an
error). -/
inductive SingleResponse (α : Type)
  | success (row : α)
  | failure (err : JsError)
  deriving DecidableEq, Repr

/-- The `data` field of a `.single()` response. -/
def SingleResponse.data {α : Type} : SingleResponse α → Option α
  | .success row => some row
  | .failure _ => none

/-- The `error` field of a `.single()` response. -/
def SingleResponse.error {α : Type} : SingleResponse α → Option JsError
  | .success _ => none
  | .failure err => some err

/-- The response `{ data, error }` of a call whose `data` the client does not read. -/
structure StatusResponse where
  error : Option JsError
  deriving DecidableEq, Repr

/-- Everything outside the client code that its behaviour depends on. -/
structure World where
  getSession : Call SessionResponse
  signInWithPassword : String → String → Call AuthResponse
  selectProfile : String → String → Call (SingleResponse Profile)
  rpcRegisterStudent : String → String → Call StatusResponse
  storageUpload : String → File → Call StatusResponse
  storageRemove : String → Call StatusResponse
  insertEvent : EventInsert → Call (SingleResponse Unit)
  deleteEventRow : String → Call StatusResponse
  /-- The answer of the user to a `confirm` dialog. -/
  confirm : String → Bool
  /-- Whether `document.getElementById(id)` finds an element, for the lookups the
  code guards with `if (el)`. -/
  hasElement : String → Bool
  /-- The value of `window.location.pathname`. -/
  pathname : String
  /-- The value of `Math.random().toString(36).substring(2)`. -/
  randomToken : String
  /-- The value of `Date.now()`, printed in decimal. -/
  now : String
  signUp : String → String → String → String → Call AuthResponse
  signOut : Call StatusResponse
  /-- The answer to a read of `events` that returns a list. -/
  selectEvents : Query → Call (SingleResponse (List EventRow))
  /-- The answer to a read of `events` that ends in `.single()`. -/
  selectEvent : Query → Call (SingleResponse EventRow)
  /-- The answer to a read of `registrations` that returns a list. -/
  selectRegistrations : Query → Call (SingleResponse (List RegistrationRow))
  /-- The answer to a read of `registrations` that ends in `.single()`. -/
  selectRegistration : Query → Call (SingleResponse RegistrationRow)
  /-- The answer to a delete or an update. -/
  mutate : Mutation → Call StatusResponse
  /-- Whether `new Date(eventDate) >= today` holds for an event date. -/
  isUpcoming : String → Bool

/-- Awaiting a remote call: the request is an effect, a rejection is a throw. -/
def await {α : Type} (request : Effect) (c : Call α) : Run α :=
  match c with
  | .returns a => ⟨[request], .normal a⟩
  | .raises e => ⟨[request], .throw e⟩

/-! ## Strings -/

/-- Whether the characters `pat` stand at the start of `cs`. -/
def startsWithChars : List Char → List Char → Bool
  | _, [] => true
  | [], _ :: _ => false
  | c :: cs, p :: ps => c == p && startsWithChars cs ps

/-- Whether `pat` occurs somewhere in `cs`. -/
def includesChars : List Char → List Char → Bool
  | [], pat => pat.isEmpty
  | c :: cs, pat => startsWithChars (c :: cs) pat || includesChars cs pat

/-- The method `s.includes(pat)`. -/
def jsIncludes (s pat : String) : Bool :=
  includesChars s.toList pat.toList

/-- The printed form of an optional `message` inside a template literal. -/
def messageText : Option String → String
  | some m => m
  | none => "undefined"

/-! ## auth.js -/

/-- The function `redirectToDashboard(role)`. -/
def redirectToDashboard (role : JsValue) : Run Unit :=
  Run.emit (.setLocationHref (getDashboardUrl role))

/-- The function `handleLogin(email, password)`. -/
def handleLogin (w : World) (email password : String) : Run Unit := do
  let resp ← await (.signInWithPassword email password) (w.signInWithPassword email password)
  match resp.error with
  | some error => Run.throw error
  | none =>
    match resp.user with
    | none => Run.throw (JsError.error "Login failed. Please check your credentials.")
    | some user => do
      let presp ← await (.selectProfile "role, full_name" user.id)
        (w.selectProfile "role, full_name" user.id)
      match presp.error with
      | some _ => do
        Run.emit (.consoleError "Profile fetch error:")
        Run.throw (JsError.error "Failed to fetch user profile.")
      | none =>
        match presp.data with
        | none => Run.throw (JsError.typeError "Cannot read properties of null (reading role)")
        | some profile => redirectToDashboard profile.role

/-- The function `checkAuthAndRole(requiredRole)`. -/
def checkAuthAndRole (w : World) (requiredRole : JsValue) : Run Unit :=
  Run.tryCatch
    (do
      let resp ← await .getSession w.getSession
      match resp.session with
      | none => do
        Run.emit (.alert "Please login to access this page")
        Run.emit (.setLocationHref (.str "login.html"))
      | some session => do
        let presp ← await (.selectProfile "role, full_name" session.user.id)
          (w.selectProfile "role, full_name" session.user.id)
        match presp.error, presp.data with
        | none, some profile =>
          if profile.role ≠ requiredRole then do
            Run.emit (.alert
              ("Access denied. This page is for " ++ jsToString requiredRole ++ "s only."))
            redirectToDashboard profile.role
          else if w.hasElement "userName" then
            Run.emit (.setDom "userName" "textContent" profile.full_name)
          else
            pure ()
        | _, _ => do
          Run.emit (.alert "Failed to verify user role")
          Run.emit (.setLocationHref (.str "login.html")))
    (fun _ => do
      Run.emit (.consoleError "Auth and role check error:")
      Run.emit (.setLocationHref (.str "login.html")))

/-- The object `{ ...session.user, profile }` that `getCurrentUser` returns. -/
structure CurrentUser where
  id : String
  profile : Option Profile
  deriving DecidableEq, Repr

/-- The function `getCurrentUser()`. -/
def getCurrentUser (w : World) : Run (Option CurrentUser) :=
  Run.tryCatch
    (do
      let resp ← await .getSession w.getSession
      match resp.session with
      | none => pure none
      | some session => do
        let presp ← await (.selectProfile "*" session.user.id)
          (w.selectProfile "*" session.user.id)
        pure (some ⟨session.user.id, presp.data⟩))
    (fun _ => do
      Run.emit (.consoleError "Get current user error:")
      pure none)

/-- The statement `if (el) el.prop = value` for an element looked up by id. -/
def setIfPresent (w : World) (elementId prop value : String) : Run Unit :=
  if w.hasElement elementId then Run.emit (.setDom elementId prop value) else pure ()

/-- The function `handleSignup(name, email, password, role)`. -/
def handleSignup (w : World) (name email password role : String) : Run Unit := do
  let resp ← await (.signUp email password name role) (w.signUp email password name role)
  match resp.error with
  | some authError => Run.throw authError
  | none =>
    match resp.user with
    | none => Run.throw (JsError.error "Signup failed. Please try again.")
    | some _ => do
      Run.emit (.alert "Account created successfully! Please login to continue.")
      Run.emit (.setLocationHref (.str "login.html"))

/-- The function `handleLogout()`. -/
def handleLogout (w : World) : Run Unit :=
  Run.tryCatch
    (do
      let resp ← await .signOut w.signOut
      match resp.error with
      | some error => Run.throw error
      | none => Run.emit (.setLocationHref (.str "index.html")))
    (fun _ => do
      Run.emit (.consoleError "Logout error:")
      Run.emit (.alert "An error occurred during logout"))

/-- The function `checkAuthState()`. -/
def checkAuthState (w : World) : Run Unit :=
  Run.tryCatch
    (do
      let resp ← await .getSession w.getSession
      match resp.session with
      | some session => do
        let presp ← await (.selectProfile "role, full_name" session.user.id)
          (w.selectProfile "role, full_name" session.user.id)
        let profile := presp.data
        setIfPresent w "loginLink" "style.display" "none"
        setIfPresent w "signupLink" "style.display" "none"
        if w.hasElement "logoutBtn" then do
          Run.emit (.setDom "logoutBtn" "style.display" "block")
          Run.emit (.domCall "logoutBtn" "addEventListener(click, handleLogout)")
        else
          pure ()
        match profile with
        | some profile => do
          if w.hasElement "dashboardLink" then do
            Run.emit (.setDom "dashboardLink" "style.display" "block")
            Run.emit (.setDom "dashboardLink" "href" (jsToString (getDashboardUrl profile.role)))
          else
            pure ()
          setIfPresent w "userName" "textContent" profile.full_name
        | none => pure ()
      | none => do
        setIfPresent w "loginLink" "style.display" "block"
        setIfPresent w "signupLink" "style.display" "block"
        setIfPresent w "logoutBtn" "style.display" "none"
        setIfPresent w "dashboardLink" "style.display" "none")
    (fun _ => Run.emit (.consoleError "Auth state check error:"))

/-! ## events.js -/

/-- The test `!currentUser || currentUser.profile.role !== 'student'` of
`registerForEvent`; reading `role` of a null profile throws. -/
def notStudent : Option CurrentUser → Run Bool
  | none => pure true
  | some u =>
    match u.profile with
    | none => Run.throw (JsError.typeError "Cannot read properties of null (reading role)")
    | some profile => pure (decide (profile.role ≠ .str "student"))

/-- The branch `if (error) { ... }` of `registerForEvent`; `includes` on an absent
message throws. -/
def registrationFailed (error : JsError) : Run Unit :=
  match error.message with
  | none => Run.throw (JsError.typeError "Cannot read properties of undefined (reading includes)")
  | some message =>
    if jsIncludes message "event_full" then
      Run.emit (.alert "Sorry, this event is full!")
    else if jsIncludes message "duplicate_registration" then
      Run.emit (.alert "You are already registered for this event")
    else
      Run.throw error

/-- The function `registerForEvent(eventId)`. -/
def registerForEvent (w : World) (eventId : String) : Run Unit :=
  Run.tryCatch
    (do
      let currentUser ← getCurrentUser w
      if (← notStudent currentUser) then
        Run.emit (.alert "Only students can register for events")
      else
        match currentUser with
        | none => pure ()
        | some user => do
          let resp ← await (.rpcRegisterStudent eventId user.id)
            (w.rpcRegisterStudent eventId user.id)
          match resp.error with
          | some error => registrationFailed error
          | none => do
            Run.emit (.alert "Successfully registered for the event!")
            Run.emit (.domCall "eventModal" "classList.remove(active)")
            if jsIncludes w.pathname "index.html" || w.pathname = "/" then
              Run.emit (.call "loadEvents")
            else
              pure ())
    (fun _ => do
      Run.emit (.consoleError "Registration error:")
      Run.emit (.alert "Failed to register for event. Please try again."))

/-- Performs the given effects in order. -/
def Run.emitAll (effects : List Effect) : Run Unit := ⟨effects, .normal ()⟩

/-- The columns that the catalog reads: every event column and the name of the
organizer. -/
def catalogColumns : String := "*, organizer:profiles!events_organizer_id_fkey(full_name)"

/-- The query of `loadEvents`. -/
def loadEventsQuery : Query :=
  { table := "events", columns := catalogColumns, filters := [.eq "status" "approved"],
    order := some ("event_date", true), single := false }

/-- The function `loadEvents()`. -/
def loadEvents (w : World) : Run Unit :=
  Run.tryCatch
    (do
      Run.emit (.setDom "eventsGrid" "innerHTML"
        "<div class=\"loading-spinner\">Loading events...</div>")
      let resp ← await (.select loadEventsQuery) (w.selectEvents loadEventsQuery)
      match resp.error with
      | some error => Run.throw error
      | none =>
        match resp.data with
        | none => Run.throw (JsError.typeError "Cannot read properties of null (reading length)")
        | some events => do
          Run.emit (.setDom "eventsGrid" "innerHTML" "")
          if events.length = 0 then
            Run.emit (.setDom "noEventsMessage" "style.display" "block")
          else do
            Run.emit (.setDom "noEventsMessage" "style.display" "none")
            Run.emitAll (events.map fun event => .appendCard "eventsGrid" (.catalog event)))
    (fun _ => do
      Run.emit (.consoleError "Load events error:")
      Run.emit (.setDom "eventsGrid" "innerHTML"
        "<div class=\"error-message\">Failed to load events. Please try again later.</div>"))

/-- The argument that `searchAndFilterEvents` passes to `.or` for a search term. -/
def searchFilter (searchTerm : String) : String :=
  "title.ilike.%" ++ searchTerm ++ "%,description.ilike.%" ++ searchTerm ++
    "%,venue.ilike.%" ++ searchTerm ++ "%"

/-- The query that `searchAndFilterEvents` builds. -/
def searchQuery (searchTerm category : String) : Query :=
  { table := "events", columns := catalogColumns,
    filters := [.eq "status" "approved"] ++
      (if category ≠ "" then [.eq "category" category] else []) ++
      (if searchTerm ≠ "" then [.or (searchFilter searchTerm)] else []),
    order := some ("event_date", true), single := false }

/-- The function `searchAndFilterEvents(searchTerm, category)`; both arguments default
to the empty string. -/
def searchAndFilterEvents (w : World) (searchTerm category : String) : Run Unit :=
  Run.tryCatch
    (do
      Run.emit (.setDom "eventsGrid" "innerHTML"
        "<div class=\"loading-spinner\">Searching...</div>")
      let query := searchQuery searchTerm category
      let resp ← await (.select query) (w.selectEvents query)
      match resp.error with
      | some error => Run.throw error
      | none =>
        match resp.data with
        | none => Run.throw (JsError.typeError "Cannot read properties of null (reading length)")
        | some events => do
          Run.emit (.setDom "eventsGrid" "innerHTML" "")
          if events.length = 0 then
            Run.emit (.setDom "noEventsMessage" "style.display" "block")
          else do
            Run.emit (.setDom "noEventsMessage" "style.display" "none")
            Run.emitAll (events.map fun event => .appendCard "eventsGrid" (.catalog event)))
    (fun _ => do
      Run.emit (.consoleError "Search and filter error:")
      Run.emit (.setDom "eventsGrid" "innerHTML"
        "<div class=\"error-message\">Search failed. Please try again.</div>"))

/-- The test `currentUser && currentUser.profile.role === 'student'` of
`viewEventDetails` and `showEventModal`; reading `role` of a null profile throws. -/
def isStudent : Option CurrentUser → Run Bool
  | none => pure false
  | some u =>
    match u.profile with
    | none => Run.throw (JsError.typeError "Cannot read properties of null (reading role)")
    | some profile => pure (decide (profile.role = .str "student"))

/-- The function `showEventModal(event, currentUser, isRegistered)`. -/
def showEventModal (event : EventRow) (currentUser : Option CurrentUser)
    (isRegistered : Bool) : Run Unit := do
  let student ← isStudent currentUser
  let footer : ModalFooter :=
    if student then
      (if isRegistered then .alreadyRegistered else .registerNow event.id)
    else
      (if currentUser.isSome then .onlyStudents else .loginToRegister)
  Run.emit (.showEventModal event footer)

/-- The query of `viewEventDetails` for the event. -/
def eventDetailsQuery (eventId : String) : Query :=
  { table := "events", columns := catalogColumns, filters := [.eq "id" eventId],
    order := none, single := true }

/-- The query of `viewEventDetails` for the registration of the current user. -/
def registrationLookupQuery (eventId userId : String) : Query :=
  { table := "registrations", columns := "id",
    filters := [.eq "event_id" eventId, .eq "student_id" userId],
    order := none, single := true }

/-- The part `if (currentUser && ...) { ... }` of `viewEventDetails`: the value of
`isRegistered` after it. -/
def lookupRegistration (w : World) (eventId : String) (currentUser : Option CurrentUser) :
    Run Bool := do
  if (← isStudent currentUser) then
    match currentUser with
    | none => pure false
    | some user => do
      let resp ← await (.select (registrationLookupQuery eventId user.id))
        (w.selectRegistration (registrationLookupQuery eventId user.id))
      pure resp.data.isSome
  else
    pure false

/-- The function `viewEventDetails(eventId)`. -/
def viewEventDetails (w : World) (eventId : String) : Run Unit :=
  Run.tryCatch
    (do
      let resp ← await (.select (eventDetailsQuery eventId))
        (w.selectEvent (eventDetailsQuery eventId))
      match resp.error with
      | some error => Run.throw error
      | none => do
        let currentUser ← getCurrentUser w
        let isRegistered ← lookupRegistration w eventId currentUser
        match resp.data with
        | none =>
          Run.throw (JsError.typeError "Cannot read properties of null (reading event_date)")
        | some event => showEventModal event currentUser isRegistered)
    (fun _ => do
      Run.emit (.consoleError "View event details error:")
      Run.emit (.alert "Failed to load event details"))

/-- The text that a template literal prints for the value of `event.capacity`: the
number in decimal, 'null' for `null`, and 'undefined' when the row has no such key. -/
def capacityText : NumberField → String
  | .number n => toString n
  | .null => "null"
  | .undefined => "undefined"

/-- The seats line of the card built by `createEventCard`:
`${event.capacity} seats available`. -/
def createEventCardSeats (event : EventRow) : String :=
  capacityText event.capacity ++ " seats available"

/-- The seats line of the modal built by `showEventModal`: `${event.capacity} seats`. -/
def showEventModalSeats (event : EventRow) : String :=
  capacityText event.capacity ++ " seats"

/-! ## supabase.js -/

/-- The constant `STORAGE_BUCKET`. -/
def STORAGE_BUCKET : String := "event-images"

/-- The pieces of `cs` between occurrences of `sep`, as `split` gives them. -/
def splitChars (sep : Char) : List Char → List (List Char)
  | [] => [[]]
  | c :: cs =>
    match splitChars sep cs with
    | [] => if c = sep then [[], []] else [[c]]
    | seg :: rest => if c = sep then [] :: seg :: rest else (c :: seg) :: rest

/-- The expression `name.split('.').pop()`. -/
def fileExtension (name : String) : String :=
  String.mk ((splitChars '.' name.toList).getLastD [])

/-- The function `uploadFile(file, folder)`. -/
def uploadFile (w : World) (file : File) (folder : String) : Run String :=
  let fileExt := fileExtension file.name
  let fileName := w.randomToken ++ "_" ++ w.now ++ "." ++ fileExt
  let filePath := folder ++ "/" ++ fileName
  do
    let resp ← await (.storageUpload STORAGE_BUCKET filePath file) (w.storageUpload filePath file)
    match resp.error with
    | some error => Run.throw (JsError.error ("Upload failed: " ++ messageText error.message))
    | none => pure filePath

/-- The function `deleteFile(filePath)`. -/
def deleteFile (w : World) (filePath : String) : Run Unit := do
  let resp ← await (.storageRemove STORAGE_BUCKET filePath) (w.storageRemove filePath)
  match resp.error with
  | some error => Run.throw (JsError.error ("Delete failed: " ++ messageText error.message))
  | none => pure ()

/-! ## dashboard.js -/

/-- The white space and line terminator characters of ECMAScript. -/
def isJsWhitespace (c : Char) : Bool :=
  let n := c.toNat
  n == 0x9 || n == 0xA || n == 0xB || n == 0xC || n == 0xD || n == 0x20 || n == 0xA0 ||
  n == 0x1680 || (0x2000 ≤ n && n ≤ 0x200A) || n == 0x2028 || n == 0x2029 ||
  n == 0x202F || n == 0x205F || n == 0x3000 || n == 0xFEFF

/-- The method `s.trim()`. -/
def jsTrim (s : String) : String :=
  String.mk (((s.toList.dropWhile isJsWhitespace).reverse.dropWhile isJsWhitespace).reverse)

/-- The value of a character as a digit, for radices up to 36. -/
def digitValue (c : Char) : Option Nat :=
  if '0' ≤ c ∧ c ≤ '9' then some (c.toNat - '0'.toNat)
  else if 'a' ≤ c ∧ c ≤ 'z' then some (c.toNat - 'a'.toNat + 10)
  else if 'A' ≤ c ∧ c ≤ 'Z' then some (c.toNat - 'A'.toNat + 10)
  else none

/-- Reads the longest prefix of radix-`radix` digits: the digits read so far are
counted in `seen` and valued `acc`; `none` when there is no digit at all. -/
def parseDigits (radix : Nat) : List Char → Nat → Nat → Option Nat
  | [], seen, acc => if seen = 0 then none else some acc
  | c :: cs, seen, acc =>
    match digitValue c with
    | some d =>
      if d < radix then parseDigits radix cs (seen + 1) (acc * radix + d)
      else if seen = 0 then none else some acc
    | none => if seen = 0 then none else some acc

/-- How many times `n` must be halved to fall below 2^53, that is, how many of its
low binary digits do not fit into the 53 bits of a mantissa. The first argument
bounds the count; `n` itself is enough. -/
def excessBits : Nat → Nat → Nat
  | 0, _ => 0
  | fuel + 1, n => if n < 2 ^ 53 then 0 else excessBits fuel (n / 2) + 1

/-- The magnitude of the Number (a double: 53 bits of mantissa, binary exponents up
to 1023) that is nearest to the natural number `n`, a tie going to the even
mantissa; `none` when that Number is an infinity, which is so from 2^1024 - 2^970
on. -/
def roundToNumber (n : Nat) : Option Nat :=
  if n < 2 ^ 53 then some n
  else
    let shift := excessBits n n
    let mantissa := n >>> shift
    let rest := n - mantissa <<< shift
    let half := 1 <<< (shift - 1)
    let rounded :=
      if rest > half ∨ (rest = half ∧ mantissa % 2 = 1) then mantissa + 1 else mantissa
    if (rounded <<< shift) >>> 1024 = 0 then some (rounded <<< shift) else none

/-- The function `parseInt(s)` with no radix argument: leading white space is skipped, then an
optional sign, then an optional `0x` prefix, then digits are read as far as they go.
Without a digit the result is `NaN`; otherwise it is the Number nearest to the
integer read, with the sign, which is the negative zero for '-0' and an infinity for
an integer too large for a finite Number. (For decimal input of more than 20
significant digits the language standard also allows a less exact result; the
nearest Number is what the common engines return.) -/
def parseInt (s : String) : JsNumber :=
  let body := s.toList.dropWhile isJsWhitespace
  let negative := decide (body.head? = some '-')
  let unsigned := if body.head? = some '-' ∨ body.head? = some '+' then body.tail else body
  let magnitude :=
    match unsigned with
    | '0' :: 'x' :: rest => parseDigits 16 rest 0 0
    | '0' :: 'X' :: rest => parseDigits 16 rest 0 0
    | _ => parseDigits 10 unsigned 0 0
  match magnitude with
  | none => .nan
  | some m =>
    match roundToNumber m with
    | some value => .finite negative value
    | none => .infinity negative

/-- The fields of the event form that `createEvent` reads. -/
structure EventForm where
  title : String
  description : String
  venue : String
  category : String
  capacity : String
  eventDate : String
  eventTime : String
  poster : Option File
  deriving DecidableEq, Repr

/-- The part `if (posterFile) { ... }` of `createEvent`: the value of `posterUrl`
after it. -/
def uploadPoster (w : World) : Option File → Run (Option String)
  | none => pure none
  | some posterFile =>
    if posterFile.size > 5 * 1024 * 1024 then
      Run.throw (JsError.error "Poster image must be less than 5MB")
    else do
      let posterUrl ← uploadFile w posterFile "posters"
      pure (some posterUrl)

/-- The message `error.message || 'Failed to create event'`. -/
def createEventErrorText (error : JsError) : String :=
  match error.message with
  | some m => if m = "" then "Failed to create event" else m
  | none => "Failed to create event"

/-- The function `createEvent(e)`, on a page that holds the event form. -/
def createEvent (w : World) (form : EventForm) : Run Unit := do
  Run.emit (.domCall "event" "preventDefault")
  Run.emit (.setDom "formError" "style.display" "none")
  Run.emit (.setDom "formSuccess" "style.display" "none")
  Run.emit (.setDom "submitEventBtn" "disabled" "true")
  Run.emit (.setDom "submitEventBtn" "textContent" "Creating...")
  Run.tryFinally
    (Run.tryCatch
      (do
        let currentUser ← getCurrentUser w
        match currentUser with
        | none => Run.throw (JsError.error "Not authenticated")
        | some currentUser => do
          let title := jsTrim form.title
          let description := jsTrim form.description
          let venue := jsTrim form.venue
          let category := form.category
          let capacity := parseInt form.capacity
          let eventDate := form.eventDate
          let eventTime := form.eventTime
          let posterUrl ← uploadPoster w form.poster
          let record : EventInsert :=
            { title := title, description := description, venue := venue,
              category := category, max_participants := capacity,
              event_date := eventDate, event_time := eventTime,
              poster_url := posterUrl, organizer_id := currentUser.id,
              status := "approved" }
          let resp ← await (.insertEvent record) (w.insertEvent record)
          match resp.error with
          | some error => Run.throw error
          | none => do
            Run.emit (.setDom "formSuccess" "textContent"
              "Event created successfully! Students can now register.")
            Run.emit (.setDom "formSuccess" "style.display" "block")
            Run.emit (.domCall "eventForm" "reset")
            Run.emit (.setTimeout "hide the form and call loadOrganizerEvents" 2000))
      (fun error => do
        Run.emit (.consoleError "Create event error:")
        Run.emit (.setDom "formError" "textContent" (createEventErrorText error))
        Run.emit (.setDom "formError" "style.display" "block")))
    (do
      Run.emit (.setDom "submitEventBtn" "disabled" "false")
      Run.emit (.setDom "submitEventBtn" "textContent" "Create Event"))

/-- The function `deleteEvent(eventId, posterUrl)`. -/
def deleteEvent (w : World) (eventId posterUrl : String) : Run Unit := do
  Run.emit (.confirm "Are you sure you want to delete this event? This action cannot be undone.")
  if !w.confirm "Are you sure you want to delete this event? This action cannot be undone." then
    pure ()
  else
    Run.tryCatch
      (do
        let resp ← await (.deleteEventRow eventId) (w.deleteEventRow eventId)
        match resp.error with
        | some error => Run.throw error
        | none => do
          if posterUrl ≠ "" then
            Run.tryCatch (deleteFile w posterUrl)
              (fun _ => Run.emit (.consoleError "Failed to delete poster:"))
          else
            pure ()
          Run.emit (.alert "Event deleted successfully")
          Run.emit (.call "loadOrganizerEvents"))
      (fun _ => do
        Run.emit (.consoleError "Delete event error:")
        Run.emit (.alert "Failed to delete event"))

/-- The function `updateStudentStats(total, upcoming)`. -/
def updateStudentStats (w : World) (total upcoming : Nat) : Run Unit := do
  if w.hasElement "totalRegistrations" then Run.emit (.setNumber "totalRegistrations" total)
  else pure ()
  if w.hasElement "upcomingEvents" then Run.emit (.setNumber "upcomingEvents" upcoming)
  else pure ()

/-- The query of `loadStudentRegistrations` for a user id. -/
def studentRegistrationsQuery (userId : String) : Query :=
  { table := "registrations",
    columns := "*, event:events(*, organizer:profiles!events_organizer_id_fkey(full_name))",
    filters := [.eq "user_id" userId], order := some ("registered_at", false),
    single := false }

/-- The joined events of the registrations, each with the id of its registration;
`none` when a registration has no event, where reading `reg.event.event_date`
throws. -/
def registeredEvents : List RegistrationRow → Option (List (EventRow × String))
  | [] => some []
  | reg :: rest =>
    match reg.event, registeredEvents rest with
    | some event, some more => some ((event, reg.id) :: more)
    | _, _ => none

/-- The function `loadStudentRegistrations()`. -/
def loadStudentRegistrations (w : World) : Run Unit :=
  Run.tryCatch
    (do
      let currentUser ← getCurrentUser w
      match currentUser with
      | none => pure ()
      | some currentUser => do
        Run.emit (.setDom "registeredEventsGrid" "innerHTML"
          "<div class=\"loading-spinner\">Loading your registrations...</div>")
        let resp ← await (.select (studentRegistrationsQuery currentUser.id))
          (w.selectRegistrations (studentRegistrationsQuery currentUser.id))
        match resp.error with
        | some error => Run.throw error
        | none =>
          match resp.data with
          | none =>
            Run.throw (JsError.typeError "Cannot read properties of null (reading length)")
          | some registrations => do
            Run.emit (.setDom "registeredEventsGrid" "innerHTML" "")
            if registrations.length = 0 then do
              Run.emit (.setDom "noRegistrations" "style.display" "block")
              updateStudentStats w 0 0
            else do
              Run.emit (.setDom "noRegistrations" "style.display" "none")
              match registeredEvents registrations with
              | none =>
                Run.throw
                  (JsError.typeError "Cannot read properties of null (reading event_date)")
              | some events => do
                let upcomingCount :=
                  (events.filter fun pair => w.isUpcoming pair.1.event_date).length
                updateStudentStats w registrations.length upcomingCount
                Run.emitAll (events.map fun pair =>
                  .appendCard "registeredEventsGrid" (.student pair.1 pair.2)))
    (fun _ => do
      Run.emit (.consoleError "Load registrations error:")
      Run.emit (.setDom "registeredEventsGrid" "innerHTML"
        "<div class=\"error-message\">Failed to load registrations</div>"))

/-- The question that `unregisterFromEvent` asks. -/
def unregisterQuestion : String := "Are you sure you want to cancel your registration?"

/-- The delete that `unregisterFromEvent` requests. -/
def unregisterMutation (registrationId : String) : Mutation :=
  { table := "registrations", kind := .delete, filters := [.eq "id" registrationId] }

/-- The function `unregisterFromEvent(registrationId)`. -/
def unregisterFromEvent (w : World) (registrationId : String) : Run Unit := do
  Run.emit (.confirm unregisterQuestion)
  if !w.confirm unregisterQuestion then
    pure ()
  else
    Run.tryCatch
      (do
        let resp ← await (.mutate (unregisterMutation registrationId))
          (w.mutate (unregisterMutation registrationId))
        match resp.error with
        | some error => Run.throw error
        | none => do
          Run.emit (.alert "Registration cancelled successfully")
          Run.emit (.call "loadStudentRegistrations"))
      (fun _ => do
        Run.emit (.consoleError "Unregister error:")
        Run.emit (.alert "Failed to cancel registration"))

/-- The function `updateOrganizerStats(total, approved)`. -/
def updateOrganizerStats (w : World) (total approved : Nat) : Run Unit := do
  if w.hasElement "totalEvents" then Run.emit (.setNumber "totalEvents" total)
  else pure ()
  if w.hasElement "approvedEvents" then Run.emit (.setNumber "approvedEvents" approved)
  else pure ()

/-- The query of `loadOrganizerEvents` for a user id. -/
def organizerEventsQuery (userId : String) : Query :=
  { table := "events", columns := "*", filters := [.eq "organizer_id" userId],
    order := some ("created_at", false), single := false }

/-- The function `loadOrganizerEvents()`. -/
def loadOrganizerEvents (w : World) : Run Unit :=
  Run.tryCatch
    (do
      let currentUser ← getCurrentUser w
      match currentUser with
      | none => pure ()
      | some currentUser => do
        Run.emit (.setDom "myEventsGrid" "innerHTML"
          "<div class=\"loading-spinner\">Loading your events...</div>")
        let resp ← await (.select (organizerEventsQuery currentUser.id))
          (w.selectEvents (organizerEventsQuery currentUser.id))
        match resp.error with
        | some error => Run.throw error
        | none =>
          match resp.data with
          | none =>
            Run.throw (JsError.typeError "Cannot read properties of null (reading length)")
          | some events => do
            Run.emit (.setDom "myEventsGrid" "innerHTML" "")
            if events.length = 0 then do
              Run.emit (.setDom "noEvents" "style.display" "block")
              updateOrganizerStats w 0 0
            else do
              Run.emit (.setDom "noEvents" "style.display" "none")
              let approved := (events.filter fun e => e.status = "approved").length
              updateOrganizerStats w events.length approved
              Run.emitAll (events.map fun event =>
                .appendCard "myEventsGrid" (.organizer event)))
    (fun _ => do
      Run.emit (.consoleError "Load organizer events error:")
      Run.emit (.setDom "myEventsGrid" "innerHTML"
        "<div class=\"error-message\">Failed to load events</div>"))

/-- The query of `viewEventRegistrations` for the registrations of an event. -/
def eventRegistrationsQuery (eventId : String) : Query :=
  { table := "registrations",
    columns := "*, student:profiles!registrations_user_id_fkey(full_name, role)",
    filters := [.eq "event_id" eventId], order := some ("registered_at", false),
    single := false }

/-- The query of `viewEventRegistrations` for the title of the event. -/
def eventTitleQuery (eventId : String) : Query :=
  { table := "events", columns := "title", filters := [.eq "id" eventId], order := none,
    single := true }

/-- The function `viewEventRegistrations(eventId)`. -/
def viewEventRegistrations (w : World) (eventId : String) : Run Unit :=
  Run.tryCatch
    (do
      let resp ← await (.select (eventRegistrationsQuery eventId))
        (w.selectRegistrations (eventRegistrationsQuery eventId))
      match resp.error with
      | some error => Run.throw error
      | none => do
        let eresp ← await (.select (eventTitleQuery eventId))
          (w.selectEvent (eventTitleQuery eventId))
        match eresp.data, resp.data with
        | some event, some registrations =>
          Run.emit (.showRegistrationsModal event.title registrations)
        | none, _ =>
          Run.throw (JsError.typeError "Cannot read properties of null (reading title)")
        | some _, none =>
          Run.throw (JsError.typeError "Cannot read properties of null (reading length)"))
    (fun _ => do
      Run.emit (.consoleError "View registrations error:")
      Run.emit (.alert "Failed to load registrations"))

/-- The expression `allEvents?.filter(e => e.status === status).length || 0`. -/
def countStatus (status : String) : Option (List EventRow) → Nat
  | some allEvents => (allEvents.filter fun e => e.status = status).length
  | none => 0

/-- The query of `updateFacultyStats`. -/
def facultyStatsQuery : Query :=
  { table := "events", columns := "status", filters := [], order := none, single := false }

/-- The function `updateFacultyStats()`. -/
def updateFacultyStats (w : World) : Run Unit :=
  Run.tryCatch
    (do
      let resp ← await (.select facultyStatsQuery) (w.selectEvents facultyStatsQuery)
      let allEvents := resp.data
      let pending := countStatus "pending" allEvents
      let approved := countStatus "approved" allEvents
      let rejected := countStatus "rejected" allEvents
      Run.emit (.setNumber "pendingCount" pending)
      Run.emit (.setNumber "approvedCount" approved)
      Run.emit (.setNumber "rejectedCount" rejected))
    (fun _ => Run.emit (.consoleError "Update stats error:"))

/-- The query of `loadFacultyEvents` for a status filter. -/
def facultyEventsQuery (filter : String) : Query :=
  { table := "events", columns := catalogColumns, filters := [.eq "status" filter],
    order := some ("created_at", false), single := false }

/-- The function `loadFacultyEvents(filter)`. -/
def loadFacultyEvents (w : World) (filter : String) : Run Unit :=
  Run.tryCatch
    (do
      Run.emit (.setDom "eventsGrid" "innerHTML"
        "<div class=\"loading-spinner\">Loading events...</div>")
      let resp ← await (.select (facultyEventsQuery filter))
        (w.selectEvents (facultyEventsQuery filter))
      match resp.error with
      | some error => Run.throw error
      | none => do
        updateFacultyStats w
        Run.emit (.setDom "eventsGrid" "innerHTML" "")
        match resp.data with
        | none =>
          Run.throw (JsError.typeError "Cannot read properties of null (reading length)")
        | some events =>
          if events.length = 0 then
            Run.emit (.setDom "noEvents" "style.display" "block")
          else do
            Run.emit (.setDom "noEvents" "style.display" "none")
            Run.emitAll (events.map fun event =>
              .appendCard "eventsGrid" (.faculty event filter)))
    (fun _ => do
      Run.emit (.consoleError "Load faculty events error:")
      Run.emit (.setDom "eventsGrid" "innerHTML"
        "<div class=\"error-message\">Failed to load events</div>"))

/-- The call `loadFacultyEvents()` without an argument: the filter defaults to
'pending'. -/
def loadFacultyEventsDefault (w : World) : Run Unit :=
  loadFacultyEvents w "pending"

/-- The update that `approveEvent` and `rejectEvent` request for a new status. -/
def statusMutation (status eventId : String) : Mutation :=
  { table := "events", kind := .update "status" status, filters := [.eq "id" eventId] }

/-- The function `approveEvent(eventId)`. -/
def approveEvent (w : World) (eventId : String) : Run Unit := do
  Run.emit (.confirm "Approve this event?")
  if !w.confirm "Approve this event?" then
    pure ()
  else
    Run.tryCatch
      (do
        let resp ← await (.mutate (statusMutation "approved" eventId))
          (w.mutate (statusMutation "approved" eventId))
        match resp.error with
        | some error => Run.throw error
        | none => do
          Run.emit (.alert "Event approved successfully")
          Run.emit (.call "loadFacultyEvents(pending)"))
      (fun _ => do
        Run.emit (.consoleError "Approve event error:")
        Run.emit (.alert "Failed to approve event"))

/-- The function `rejectEvent(eventId)`. -/
def rejectEvent (w : World) (eventId : String) : Run Unit := do
  Run.emit (.confirm "Reject this event?")
  if !w.confirm "Reject this event?" then
    pure ()
  else
    Run.tryCatch
      (do
        let resp ← await (.mutate (statusMutation "rejected" eventId))
          (w.mutate (statusMutation "rejected" eventId))
        match resp.error with
        | some error => Run.throw error
        | none => do
          Run.emit (.alert "Event rejected")
          Run.emit (.call "loadFacultyEvents(pending)"))
      (fun _ => do
        Run.emit (.consoleError "Reject event error:")
        Run.emit (.alert "Failed to reject event"))

/-! ## Sample worlds -/

/-- A backend on which every call resolves without error for the signed-in user
`u1`, whose profile has the given role. -/
def worldWithRole (role : JsValue) : World where
  getSession := .returns ⟨some ⟨⟨"u1"⟩⟩, none⟩
  signInWithPassword := fun _ _ => .returns ⟨some ⟨"u1"⟩, none⟩
  selectProfile := fun _ _ => .returns (.success ⟨role, "Asha Rao"⟩)
  rpcRegisterStudent := fun _ _ => .returns ⟨none⟩
  storageUpload := fun _ _ => .returns ⟨none⟩
  storageRemove := fun _ => .returns ⟨none⟩
  insertEvent := fun _ => .returns (.success ())
  deleteEventRow := fun _ => .returns ⟨none⟩
  confirm := fun _ => true
  hasElement := fun _ => true
  pathname := "/index.html"
  randomToken := "k3x9q"
  now := "1700000000000"
  signUp := fun _ _ _ _ => .returns ⟨some ⟨"u1"⟩, none⟩
  signOut := .returns ⟨none⟩
  selectEvents := fun _ => .returns (.success [])
  selectEvent := fun _ => .returns (.failure ⟨"PostgrestError", some "no rows"⟩)
  selectRegistrations := fun _ => .returns (.success [])
  selectRegistration := fun _ => .returns (.failure ⟨"PostgrestError", some "no rows"⟩)
  mutate := fun _ => .returns ⟨none⟩
  isUpcoming := fun _ => true

/-- The world `w` with the answer of the `register_student` call replaced. -/
def World.withRegistration (w : World) (c : Call StatusResponse) : World :=
  { w with rpcRegisterStudent := fun _ _ => c }

/-- A backend on which the user `u1` is signed in and the profile lookup finds no
row: the query returns an error and no data. -/
def worldProfileLookupFails : World :=
  { worldWithRole (.str "student") with
    selectProfile := fun _ _ =>
      .returns (.failure ⟨"PostgrestError", some "JSON object requested, multiple (or no) rows returned"⟩) }

/-- The four failure outcomes that the specification names for `register_student`. -/
inductive RegistrationFailure
  | EventNotFound
  | EventNotApproved
  | EventFull
  | DuplicateRegistration
  deriving DecidableEq, Repr, Fintype

/-- Modelled from the spec: the `register_student` procedure is not part of the
repository. Each failure outcome is signalled by an error whose message is the name
of the outcome, written the way the two names that the client tests for are. -/
def signalByName : RegistrationFailure → JsError
  | .EventNotFound => ⟨"PostgrestError", some "event_not_found"⟩
  | .EventNotApproved => ⟨"PostgrestError", some "event_not_approved"⟩
  | .EventFull => ⟨"PostgrestError", some "event_full"⟩
  | .DuplicateRegistration => ⟨"PostgrestError", some "duplicate_registration"⟩

/-- Whether the message of an error contains `token`; an absent message contains
nothing. -/
def JsError.mentions (e : JsError) (token : String) : Bool :=
  match e.message with
  | some m => jsIncludes m token
  | none => false

/-- Whether an effect is the `register_student` call. -/
def Effect.isRegistrationCall : Effect → Bool
  | .rpcRegisterStudent _ _ => true
  | _ => false

/-- The `register_student` calls that a run issued. -/
def Run.registrationCalls {α : Type} (r : Run α) : List Effect :=
  r.trace.filter Effect.isRegistrationCall

/-- The record of an `insert` into `events`, if the effect is one. -/
def Effect.inserted : Effect → Option EventInsert
  | .insertEvent record => some record
  | _ => none

/-- The file of a storage upload, if the effect is one. -/
def Effect.uploaded : Effect → Option File
  | .storageUpload _ _ file => some file
  | _ => none

/-- The path of a storage removal, if the effect is one. -/
def Effect.removed : Effect → Option String
  | .storageRemove _ path => some path
  | _ => none

/-- The text written to the form error element, if the effect writes one. -/
def Effect.formErrorText : Effect → Option String
  | .setDom elementId prop value =>
    if elementId = "formError" ∧ prop = "textContent" then some value else none
  | _ => none

/-- The event records that a run inserted. -/
def Run.inserts {α : Type} (r : Run α) : List EventInsert :=
  r.trace.filterMap Effect.inserted

/-- The files that a run uploaded. -/
def Run.uploads {α : Type} (r : Run α) : List File :=
  r.trace.filterMap Effect.uploaded

/-- The storage paths that a run asked to remove. -/
def Run.removals {α : Type} (r : Run α) : List String :=
  r.trace.filterMap Effect.removed

/-- The texts that a run wrote to the form error element. -/
def Run.formErrors {α : Type} (r : Run α) : List String :=
  r.trace.filterMap Effect.formErrorText

/-- An event form with the given capacity field and poster. -/
def sampleForm (capacity : String) (poster : Option File) : EventForm where
  title := " Robotics Night "
  description := "Line followers and sumo bots"
  venue := "Lab 2"
  category := "Technical"
  capacity := capacity
  eventDate := "2026-03-14"
  eventTime := "18:00"
  poster := poster

/-- A backend on which removing a poster from storage returns an error. -/
def worldPosterRemovalFails : World :=
  { worldWithRole (.str "organizer") with
    storageRemove := fun _ => .returns ⟨some ⟨"StorageError", some "Object not found"⟩⟩ }

/-- A backend without a session. -/
def worldSignedOut : World :=
  { worldWithRole (.str "organizer") with getSession := .returns ⟨none, none⟩ }

/-- A backend on which every storage upload returns an error with the message
'Bucket not found'. -/
def worldUploadFails : World :=
  { worldWithRole (.str "organizer") with
    storageUpload := fun _ _ => .returns ⟨some ⟨"StorageError", some "Bucket not found"⟩⟩ }

/-! ## Definitions used by the statements -/

/-- The branch of `registerForEvent` that an error takes: 0 for a message with
'event_full', 1 for one with 'duplicate_registration', 2 for every other error. -/
def errorBranch (e : JsError) : Fin 3 :=
  if e.mentions "event_full" then 0
  else if e.mentions "duplicate_registration" then 1
  else 2

/-- The effects of `createEvent` before its `try`. -/
def createEventPrologue : List Effect :=
  [.domCall "event" "preventDefault", .setDom "formError" "style.display" "none",
   .setDom "formSuccess" "style.display" "none", .setDom "submitEventBtn" "disabled" "true",
   .setDom "submitEventBtn" "textContent" "Creating..."]

/-- The effects of the `catch` block of `createEvent`. -/
def createEventCatch (error : JsError) : List Effect :=
  [.consoleError "Create event error:",
   .setDom "formError" "textContent" (createEventErrorText error),
   .setDom "formError" "style.display" "block"]

/-- The effects of the `finally` block of `createEvent`. -/
def createEventEpilogue : List Effect :=
  [.setDom "submitEventBtn" "disabled" "false",
   .setDom "submitEventBtn" "textContent" "Create Event"]

/-- The record that `createEvent` builds for a user, a form and a poster path. -/
def eventRecord (userId : String) (form : EventForm) (posterUrl : Option String) :
    EventInsert :=
  { title := jsTrim form.title, description := jsTrim form.description,
    venue := jsTrim form.venue, category := form.category,
    max_participants := parseInt form.capacity, event_date := form.eventDate,
    event_time := form.eventTime, poster_url := posterUrl, organizer_id := userId,
    status := "approved" }

/-- The path that `uploadFile` builds for a file and a folder. -/
def uploadPath (w : World) (file : File) (folder : String) : String :=
  folder ++ "/" ++ (w.randomToken ++ "_" ++ w.now ++ "." ++ fileExtension file.name)

/-- The question that `deleteEvent` asks. -/
def deleteEventQuestion : String :=
  "Are you sure you want to delete this event? This action cannot be undone."

/-- The read of an effect, if it is one. -/
def Effect.selected : Effect → Option Query
  | .select query => some query
  | _ => none

/-- The write of an effect, if it is one. -/
def Effect.mutated : Effect → Option Mutation
  | .mutate mutation => some mutation
  | _ => none

/-- The card that an effect appends, with the id of the grid, if it appends one. -/
def Effect.card : Effect → Option (String × Card)
  | .appendCard gridId card => some (gridId, card)
  | _ => none

/-- The footer of the event modal that an effect shows, if it shows one. -/
def Effect.footer : Effect → Option ModalFooter
  | .showEventModal _ footer => some footer
  | _ => none

/-- The reads that a run issued, in order. -/
def Run.queries {α : Type} (r : Run α) : List Query :=
  r.trace.filterMap Effect.selected

/-- The writes that a run issued, in order. -/
def Run.mutations {α : Type} (r : Run α) : List Mutation :=
  r.trace.filterMap Effect.mutated

/-- The cards that a run appended, in order. -/
def Run.cards {α : Type} (r : Run α) : List (String × Card) :=
  r.trace.filterMap Effect.card

/-- The footers of the event modals that a run showed. -/
def Run.footers {α : Type} (r : Run α) : List ModalFooter :=
  r.trace.filterMap Effect.footer

/-- Whether an effect shows the user a message: an alert, a text in the form error
element, or markup of class `error-message` put into the page. -/
def Effect.isUserMessage : Effect → Bool
  | .alert _ => true
  | .setDom elementId prop value =>
    (elementId == "formError" && prop == "textContent") ||
      (prop == "innerHTML" && jsIncludes value "class=\"error-message\"")
  | _ => false

/-- The messages that a run showed the user. -/
def Run.userMessages {α : Type} (r : Run α) : List Effect :=
  r.trace.filter Effect.isUserMessage

/-- The alternatives of the argument of `.or`, as the data service reads it: the
items between the commas. -/
def orAlternatives (conditions : String) : List String :=
  (splitChars ',' conditions.toList).map String.mk

/-- Whether a read failed: the call rejected, or it returned an error. -/
def Call.failed {α : Type} : Call (SingleResponse α) → Bool
  | .raises _ => true
  | .returns resp => resp.error.isSome

/-- Whether a write or another call without data failed: the call rejected, or it
returned an error. -/
def Call.failedStatus : Call StatusResponse → Bool
  | .raises _ => true
  | .returns resp => resp.error.isSome

/-- Whether a call of the auth service failed: the call rejected, or it returned an
error. -/
def Call.failedAuth : Call AuthResponse → Bool
  | .raises _ => true
  | .returns resp => resp.error.isSome

/-- The value of a column of an event row that a filter can compare, as text. -/
def EventRow.column (e : EventRow) : String → Option String
  | "id" => some e.id
  | "title" => some e.title
  | "description" => some e.description
  | "venue" => some e.venue
  | "category" => some e.category
  | "event_date" => some e.event_date
  | "event_time" => some e.event_time
  | "status" => some e.status
  | "organizer_id" => some e.organizer_id
  | _ => none

/-- Modelled from the spec: the remote data service is not part of the repository.
It returns a row for a read only if the row satisfies every filter of the read: an
`eq` filter holds when the column has the value, and what an `or` filter means for a
row is left to the service (`orHolds`). -/
def Query.admits (orHolds : String → EventRow → Bool) (q : Query) (e : EventRow) : Bool :=
  q.filters.all fun f =>
    match f with
    | .eq column value => e.column column == some value
    | .or conditions => orHolds conditions e

/-- An approved event of the organizer `u1`. -/
def sampleEvent : EventRow where
  id := "e1"
  title := "Robotics Night"
  description := "Line followers and sumo bots"
  venue := "Lab 2"
  category := "Technical"
  event_date := "2026-03-14"
  event_time := "18:00"
  capacity := .undefined
  max_participants := .number 40
  poster_url := none
  status := "approved"
  organizer_id := "u1"
  organizer := some "Asha Rao"

/-- A backend that answers every list read of `events` with the given rows. -/
def worldWithEvents (role : JsValue) (rows : List EventRow) : World :=
  { worldWithRole role with selectEvents := fun _ => .returns (.success rows) }

/-- A backend for a faculty member on which the event `e1` has the given status:
every read of `events` returns that one event, and every write returns without
error. -/
def worldWithStatus (status : String) : World :=
  { worldWithRole (.str "faculty") with
    selectEvents := fun _ => .returns (.success [{ sampleEvent with status := status }])
    selectEvent := fun _ => .returns (.success { sampleEvent with status := status }) }

/-- The value of a column of a registration row that a filter can compare; the table
has the columns that `loadStudentRegistrations`, `viewEventRegistrations` and
`register_student` name, and no column `student_id`. -/
def RegistrationRow.column (r : RegistrationRow) : String → Option String
  | "id" => some r.id
  | "event_id" => some r.event_id
  | "user_id" => some r.user_id
  | _ => none

/-- Whether a filter holds for a registration row. -/
def Filter.holdsRegistration (r : RegistrationRow) : Filter → Bool
  | .eq column value => r.column column == some value
  | .or _ => false

/-- Modelled from the spec: the remote data service is not part of the repository.
A read of `registrations` that ends in `.single()` returns the one row that satisfies
every filter, and an error when no row or more than one row does. -/
def lookupSingle (table : List RegistrationRow) (q : Query) : SingleResponse RegistrationRow :=
  match table.filter fun r => q.filters.all (Filter.holdsRegistration r) with
  | [r] => .success r
  | _ => .failure ⟨"PostgrestError", some "JSON object requested, multiple (or no) rows returned"⟩

/-- The status that an effect asks the data service to write: the value of an update
of the column `status`, and the status of an inserted event record. -/
def Effect.statusWritten : Effect → Option String
  | .mutate m =>
    match m.kind with
    | .update column value => if column = "status" then some value else none
    | .delete => none
  | .insertEvent record => some record.status
  | _ => none

/-- The statuses that a run asked the data service to write. -/
def Run.statusesWritten {α : Type} (r : Run α) : List String :=
  r.trace.filterMap Effect.statusWritten

/-- Modelled from the spec: the remote data service is not part of the repository.
A delete on `registrations` removes the rows that satisfy every filter of the
delete. -/
def Mutation.applyToRegistrations (m : Mutation) (rows : List RegistrationRow) :
    List RegistrationRow :=
  match m.kind with
  | .delete => rows.filter fun r => !(m.filters.all (Filter.holdsRegistration r))
  | .update _ _ => rows

/-- The registration of the student `u1` for the event `e1`. -/
def sampleRegistration : RegistrationRow where
  id := "r1"
  event_id := "e1"
  user_id := "u1"
  event := some sampleEvent
  student := some "Asha Rao"

/-- A backend with the signed-in student `u1`, on which the event lookup finds
`sampleEvent` and the registration lookup is answered from the given table. -/
def worldWithRegistrations (table : List RegistrationRow) : World :=
  { worldWithRole (.str "student") with
    selectEvent := fun _ => .returns (.success sampleEvent)
    selectRegistration := fun q => .returns (lookupSingle table q)
    selectRegistrations := fun q =>
      .returns (.success (table.filter fun r => q.filters.all (Filter.holdsRegistration r))) }

/-- A backend on which `getSession` rejects. -/
def worldSessionRaises : World :=
  { worldWithRole (.str "student") with
    getSession := .raises ⟨"TypeError", some "Failed to fetch"⟩ }

/-- A backend on which the read of `updateFacultyStats` rejects and every other list
read of `events` returns no rows. -/
def worldStatsFails : World :=
  { worldWithRole (.str "faculty") with
    selectEvents := fun q =>
      if q = facultyStatsQuery then .raises ⟨"TypeError", some "Failed to fetch"⟩
      else .returns (.success []) }

/-- A backend on which `signOut` returns an error. -/
def worldSignOutFails : World :=
  { worldWithRole (.str "student") with
    signOut := .returns ⟨some ⟨"AuthError", some "network"⟩⟩ }

/-- The effects of `updateStudentStats` and `updateOrganizerStats`: counts only. -/
def statsEffects (w : World) (first second : String) (a b : Nat) : List Effect :=
  (if w.hasElement first then [.setNumber first a] else []) ++
    (if w.hasElement second then [.setNumber second b] else [])

/-- Modelled from the spec: the transport of a record to the remote data service is
not part of the repository. A Number travels as JSON text, in which `NaN` and the
infinities are written `null` and the negative zero is written 0. -/
def storedNumber : JsNumber → NumberField
  | .nan => .null
  | .infinity _ => .null
  | .finite negative magnitude => .number (if negative then - (magnitude : Int) else magnitude)

/-- Modelled from the spec: the remote data service is not part of the repository.
The row that it keeps for an inserted record has an id of its own and the columns of
the record under the names the record gives them; it has no value for a column that
the record does not name, such as `capacity`. -/
def storedRow (id : String) (record : EventInsert) : EventRow where
  id := id
  title := record.title
  description := record.description
  venue := record.venue
  category := record.category
  event_date := record.event_date
  event_time := record.event_time
  capacity := .undefined
  max_participants := storedNumber record.max_participants
  poster_url := record.poster_url
  status := record.status
  organizer_id := record.organizer_id
  organizer := none

/-- A backend on which the user declines every confirmation dialog. -/
def worldDeclines : World :=
  { worldWithRole (.str "organizer") with confirm := fun _ => false }

/-! ## Theorems -/

/-- C3. `getDashboardUrl` does not return 'index.html' for the role 'constructor':
the lookup `dashboardMap[role]` finds the inherited property and the result is the
function `Object`, which is none of the four route strings; likewise for
'toString'. -/
theorem getDashboardUrl_inherited_key :
    getDashboardUrl (.str "constructor") = .fn "Object" ∧
    getDashboardUrl (.str "constructor") ≠ .str "index.html" ∧
    getDashboardUrl (.str "constructor") ∉
      [JsValue.str "student-dashboard.html", .str "organizer-dashboard.html",
       .str "faculty-dashboard.html", .str "index.html"] ∧
    getDashboardUrl (.str "toString") = .fn "toString" := by
  decide

/-- For a role string that is none of the three role names and none of the names
inherited from `Object.prototype`, `getDashboardUrl` returns 'index.html'. -/
theorem getDashboardUrl_fallback (s : String)
    (hown : s ∉ dashboardMap.map Prod.fst) (hinh : s ∉ objectPrototype.map Prod.fst) :
    getDashboardUrl (.str s) = .str "index.html" := by
  simp only [dashboardMap, objectPrototype, List.map, List.mem_cons, List.mem_nil_iff, or_false,
    not_or] at hown hinh
  obtain ⟨h1, h2, h3⟩ := hown
  obtain ⟨i1, i2, i3, i4, i5, i6, i7, i8, i9, i10, i11, i12⟩ := hinh
  simp [getDashboardUrl, getProp, lookupProp, dashboardMap, objectPrototype, jsToString, jsOr,
    JsValue.truthy, Ne.symm h1, Ne.symm h2, Ne.symm h3, Ne.symm i1, Ne.symm i2, Ne.symm i3,
    Ne.symm i4, Ne.symm i5, Ne.symm i6, Ne.symm i7, Ne.symm i8, Ne.symm i9, Ne.symm i10,
    Ne.symm i11, Ne.symm i12]

/-! ### checkAuthAndRole, case by case -/

theorem checkAuthAndRole_session_raises (w : World) (requiredRole : JsValue) (e : JsError)
    (hs : w.getSession = .raises e) :
    checkAuthAndRole w requiredRole =
      ⟨[.getSession, .consoleError "Auth and role check error:",
        .setLocationHref (.str "login.html")], .normal ()⟩ := by
  simp [checkAuthAndRole, hs, await, Run.tryCatch, Run.andThen, Run.emit, bind]

theorem checkAuthAndRole_no_session (w : World) (requiredRole : JsValue)
    (resp : SessionResponse) (hs : w.getSession = .returns resp) (hn : resp.session = none) :
    checkAuthAndRole w requiredRole =
      ⟨[.getSession, .alert "Please login to access this page",
        .setLocationHref (.str "login.html")], .normal ()⟩ := by
  simp [checkAuthAndRole, hs, hn, await, Run.tryCatch, Run.andThen, Run.emit, bind]

theorem checkAuthAndRole_profile_raises (w : World) (requiredRole : JsValue)
    (resp : SessionResponse) (session : Session) (e : JsError)
    (hs : w.getSession = .returns resp) (hn : resp.session = some session)
    (hp : w.selectProfile "role, full_name" session.user.id = .raises e) :
    checkAuthAndRole w requiredRole =
      ⟨[.getSession, .selectProfile "role, full_name" session.user.id,
        .consoleError "Auth and role check error:",
        .setLocationHref (.str "login.html")], .normal ()⟩ := by
  simp [checkAuthAndRole, hs, hn, hp, await, Run.tryCatch, Run.andThen, Run.emit, bind]

theorem checkAuthAndRole_profile_failure (w : World) (requiredRole : JsValue)
    (resp : SessionResponse) (session : Session) (err : JsError)
    (hs : w.getSession = .returns resp) (hn : resp.session = some session)
    (hp : w.selectProfile "role, full_name" session.user.id = .returns (.failure err)) :
    checkAuthAndRole w requiredRole =
      ⟨[.getSession, .selectProfile "role, full_name" session.user.id,
        .alert "Failed to verify user role",
        .setLocationHref (.str "login.html")], .normal ()⟩ := by
  simp [checkAuthAndRole, hs, hn, hp, await, Run.tryCatch, Run.andThen, Run.emit, bind,
    SingleResponse.error, SingleResponse.data]

theorem checkAuthAndRole_wrong_role (w : World) (requiredRole : JsValue)
    (resp : SessionResponse) (session : Session) (profile : Profile)
    (hs : w.getSession = .returns resp) (hn : resp.session = some session)
    (hp : w.selectProfile "role, full_name" session.user.id = .returns (.success profile))
    (hr : profile.role ≠ requiredRole) :
    checkAuthAndRole w requiredRole =
      ⟨[.getSession, .selectProfile "role, full_name" session.user.id,
        .alert ("Access denied. This page is for " ++ jsToString requiredRole ++ "s only."),
        .setLocationHref (getDashboardUrl profile.role)], .normal ()⟩ := by
  simp [checkAuthAndRole, hs, hn, hp, hr, await, Run.tryCatch, Run.andThen, Run.emit, bind,
    SingleResponse.error, SingleResponse.data, redirectToDashboard]

theorem checkAuthAndRole_right_role (w : World) (requiredRole : JsValue)
    (resp : SessionResponse) (session : Session) (profile : Profile)
    (hs : w.getSession = .returns resp) (hn : resp.session = some session)
    (hp : w.selectProfile "role, full_name" session.user.id = .returns (.success profile))
    (hr : profile.role = requiredRole) :
    checkAuthAndRole w requiredRole =
      ⟨[.getSession, .selectProfile "role, full_name" session.user.id] ++
        (if w.hasElement "userName" then [.setDom "userName" "textContent" profile.full_name]
          else []), .normal ()⟩ := by
  by_cases he : w.hasElement "userName" = true <;>
  simp [checkAuthAndRole, hs, hn, hp, hr, he, await, Run.tryCatch, Run.andThen, Run.emit, bind,
    SingleResponse.error, SingleResponse.data, pure, Run.ret]

/-- C4. `checkAuthAndRole` assigns no page location exactly when a session exists,
the profile lookup returns a profile without error and its role equals
`requiredRole`; it navigates to 'login.html' when the session call raises, when there
is no session, when the profile lookup raises and when it returns an error; and it
navigates to `getDashboardUrl` of the profile's role when that role differs from
`requiredRole`. It never throws. -/
theorem checkAuthAndRole_navigation (w : World) (requiredRole : JsValue) :
    ((checkAuthAndRole w requiredRole).navigations = [] ↔
      ∃ resp session profile, w.getSession = .returns resp ∧ resp.session = some session ∧
        w.selectProfile "role, full_name" session.user.id = .returns (.success profile) ∧
        profile.role = requiredRole) ∧
    ((∃ e, w.getSession = .raises e) →
      (checkAuthAndRole w requiredRole).navigations = [.str "login.html"]) ∧
    ((∃ resp, w.getSession = .returns resp ∧ resp.session = none) →
      (checkAuthAndRole w requiredRole).navigations = [.str "login.html"]) ∧
    (∀ resp session, w.getSession = .returns resp → resp.session = some session →
      ((∃ e, w.selectProfile "role, full_name" session.user.id = .raises e) ∨
        (∃ err, w.selectProfile "role, full_name" session.user.id = .returns (.failure err))) →
      (checkAuthAndRole w requiredRole).navigations = [.str "login.html"]) ∧
    (∀ resp session profile, w.getSession = .returns resp → resp.session = some session →
      w.selectProfile "role, full_name" session.user.id = .returns (.success profile) →
      profile.role ≠ requiredRole →
      (checkAuthAndRole w requiredRole).navigations = [getDashboardUrl profile.role]) ∧
    (checkAuthAndRole w requiredRole).threw = false := by
  refine ⟨?_, ?_, ?_, ?_, ?_, ?_⟩
  · constructor
    · intro h
      cases hs : w.getSession with
      | raises e =>
        rw [checkAuthAndRole_session_raises w requiredRole e hs] at h
        simp [Run.navigations] at h
      | returns resp =>
        cases hn : resp.session with
        | none =>
          rw [checkAuthAndRole_no_session w requiredRole resp hs hn] at h
          simp [Run.navigations] at h
        | some session =>
          cases hp : w.selectProfile "role, full_name" session.user.id with
          | raises e =>
            rw [checkAuthAndRole_profile_raises w requiredRole resp session e hs hn hp] at h
            simp [Run.navigations] at h
          | returns presp =>
            cases presp with
            | failure err =>
              rw [checkAuthAndRole_profile_failure w requiredRole resp session err hs hn hp] at h
              simp [Run.navigations] at h
            | success profile =>
              by_cases hr : profile.role = requiredRole
              · exact ⟨resp, session, profile, rfl, hn, hp, hr⟩
              · rw [checkAuthAndRole_wrong_role w requiredRole resp session profile hs hn hp hr]
                  at h
                simp [Run.navigations] at h
    · rintro ⟨resp, session, profile, hs, hn, hp, hr⟩
      rw [checkAuthAndRole_right_role w requiredRole resp session profile hs hn hp hr]
      by_cases he : w.hasElement "userName" = true <;> simp [Run.navigations, he]
  · rintro ⟨e, hs⟩
    rw [checkAuthAndRole_session_raises w requiredRole e hs]
    simp [Run.navigations]
  · rintro ⟨resp, hs, hn⟩
    rw [checkAuthAndRole_no_session w requiredRole resp hs hn]
    simp [Run.navigations]
  · rintro resp session hs hn (⟨e, hp⟩ | ⟨err, hp⟩)
    · rw [checkAuthAndRole_profile_raises w requiredRole resp session e hs hn hp]
      simp [Run.navigations]
    · rw [checkAuthAndRole_profile_failure w requiredRole resp session err hs hn hp]
      simp [Run.navigations]
  · intro resp session profile hs hn hp hr
    rw [checkAuthAndRole_wrong_role w requiredRole resp session profile hs hn hp hr]
    simp [Run.navigations]
  · cases hs : w.getSession with
    | raises e => rw [checkAuthAndRole_session_raises w requiredRole e hs]; rfl
    | returns resp =>
      cases hn : resp.session with
      | none => rw [checkAuthAndRole_no_session w requiredRole resp hs hn]; rfl
      | some session =>
        cases hp : w.selectProfile "role, full_name" session.user.id with
        | raises e =>
          rw [checkAuthAndRole_profile_raises w requiredRole resp session e hs hn hp]; rfl
        | returns presp =>
          cases presp with
          | failure err =>
            rw [checkAuthAndRole_profile_failure w requiredRole resp session err hs hn hp]; rfl
          | success profile =>
            by_cases hr : profile.role = requiredRole
            · rw [checkAuthAndRole_right_role w requiredRole resp session profile hs hn hp hr]; rfl
            · rw [checkAuthAndRole_wrong_role w requiredRole resp session profile hs hn hp hr]; rfl

/-- C4, at a signed-in organizer opening the student page. -/
theorem checkAuthAndRole_navigation_witness :
    (checkAuthAndRole (worldWithRole (.str "organizer")) (.str "student")).navigations =
      [.str "organizer-dashboard.html"] :=
  (checkAuthAndRole_navigation (worldWithRole (.str "organizer")) (.str "student")).2.2.2.2.1
    ⟨some ⟨⟨"u1"⟩⟩, none⟩ ⟨⟨"u1"⟩⟩ ⟨.str "organizer", "Asha Rao"⟩ rfl rfl rfl (by decide)

/-! ### handleLogin, case by case -/

theorem handleLogin_signIn_raises (w : World) (email password : String) (e : JsError)
    (hs : w.signInWithPassword email password = .raises e) :
    handleLogin w email password = ⟨[.signInWithPassword email password], .throw e⟩ := by
  simp [handleLogin, hs, await, Run.andThen, bind]

theorem handleLogin_auth_error (w : World) (email password : String) (resp : AuthResponse)
    (e : JsError) (hs : w.signInWithPassword email password = .returns resp)
    (he : resp.error = some e) :
    handleLogin w email password = ⟨[.signInWithPassword email password], .throw e⟩ := by
  simp [handleLogin, hs, he, await, Run.andThen, Run.throw, bind]

theorem handleLogin_no_user (w : World) (email password : String) (resp : AuthResponse)
    (hs : w.signInWithPassword email password = .returns resp)
    (he : resp.error = none) (hu : resp.user = none) :
    handleLogin w email password =
      ⟨[.signInWithPassword email password],
        .throw (JsError.error "Login failed. Please check your credentials.")⟩ := by
  simp [handleLogin, hs, he, hu, await, Run.andThen, Run.throw, bind]

theorem handleLogin_profile_raises (w : World) (email password : String) (resp : AuthResponse)
    (user : User) (e : JsError) (hs : w.signInWithPassword email password = .returns resp)
    (he : resp.error = none) (hu : resp.user = some user)
    (hp : w.selectProfile "role, full_name" user.id = .raises e) :
    handleLogin w email password =
      ⟨[.signInWithPassword email password, .selectProfile "role, full_name" user.id],
        .throw e⟩ := by
  simp [handleLogin, hs, he, hu, hp, await, Run.andThen, Run.throw, bind]

theorem handleLogin_profile_error (w : World) (email password : String) (resp : AuthResponse)
    (user : User) (presp : SingleResponse Profile) (err : JsError)
    (hs : w.signInWithPassword email password = .returns resp)
    (he : resp.error = none) (hu : resp.user = some user)
    (hp : w.selectProfile "role, full_name" user.id = .returns presp)
    (hpe : presp.error = some err) :
    handleLogin w email password =
      ⟨[.signInWithPassword email password, .selectProfile "role, full_name" user.id,
        .consoleError "Profile fetch error:"],
        .throw (JsError.error "Failed to fetch user profile.")⟩ := by
  simp [handleLogin, hs, he, hu, hp, hpe, await, Run.andThen, Run.throw, Run.emit, bind]

theorem handleLogin_profile_ok (w : World) (email password : String) (resp : AuthResponse)
    (user : User) (presp : SingleResponse Profile)
    (hs : w.signInWithPassword email password = .returns resp)
    (he : resp.error = none) (hu : resp.user = some user)
    (hp : w.selectProfile "role, full_name" user.id = .returns presp)
    (hpe : presp.error = none) :
    ∃ profile, presp.data = some profile ∧
      handleLogin w email password =
        ⟨[.signInWithPassword email password, .selectProfile "role, full_name" user.id,
          .setLocationHref (getDashboardUrl profile.role)], .normal ()⟩ := by
  cases presp with
  | failure err => simp [SingleResponse.error] at hpe
  | success profile =>
    refine ⟨profile, rfl, ?_⟩
    simp [handleLogin, hs, he, hu, hp, await, Run.andThen, Run.emit, bind,
      SingleResponse.error, SingleResponse.data, redirectToDashboard]

/-- C5. `handleLogin` assigns the page location exactly when sign-in returns no
error and a user and the profile lookup returns no error, and the location assigned
is then `getDashboardUrl` of the profile's role. In every other case it throws and
assigns no location; when the calls it made returned a response, the value thrown is
the auth error, 'Login failed. Please check your credentials.' or 'Failed to fetch
user profile.' (a call that itself rejects makes `handleLogin` reject with that same
exception). -/
theorem handleLogin_navigation (w : World) (email password : String) :
    ((handleLogin w email password).navigations ≠ [] ↔
      ∃ resp user presp, w.signInWithPassword email password = .returns resp ∧
        resp.error = none ∧ resp.user = some user ∧
        w.selectProfile "role, full_name" user.id = .returns presp ∧ presp.error = none) ∧
    (∀ resp user presp, w.signInWithPassword email password = .returns resp →
      resp.error = none → resp.user = some user →
      w.selectProfile "role, full_name" user.id = .returns presp → presp.error = none →
      ∃ profile, presp.data = some profile ∧
        (handleLogin w email password).navigations = [getDashboardUrl profile.role] ∧
        (handleLogin w email password).result = .normal ()) ∧
    ((handleLogin w email password).navigations = [] →
      ∃ e, (handleLogin w email password).result = .throw e ∧
        ((∃ resp, w.signInWithPassword email password = .returns resp ∧ resp.error = some e) ∨
          e = JsError.error "Login failed. Please check your credentials." ∨
          e = JsError.error "Failed to fetch user profile." ∨
          w.signInWithPassword email password = .raises e ∨
          ∃ resp user, w.signInWithPassword email password = .returns resp ∧
            resp.user = some user ∧ w.selectProfile "role, full_name" user.id = .raises e)) := by
  have key : ∀ resp user presp, w.signInWithPassword email password = .returns resp →
      resp.error = none → resp.user = some user →
      w.selectProfile "role, full_name" user.id = .returns presp → presp.error = none →
      ∃ profile, presp.data = some profile ∧
        (handleLogin w email password).navigations = [getDashboardUrl profile.role] ∧
        (handleLogin w email password).result = .normal () := by
    intro resp user presp hs he hu hp hpe
    obtain ⟨profile, hd, hrun⟩ := handleLogin_profile_ok w email password resp user presp
      hs he hu hp hpe
    exact ⟨profile, hd, by rw [hrun]; simp [Run.navigations], by rw [hrun]⟩
  have other : (¬ ∃ resp user presp, w.signInWithPassword email password = .returns resp ∧
        resp.error = none ∧ resp.user = some user ∧
        w.selectProfile "role, full_name" user.id = .returns presp ∧ presp.error = none) →
      (handleLogin w email password).navigations = [] ∧
      ∃ e, (handleLogin w email password).result = .throw e ∧
        ((∃ resp, w.signInWithPassword email password = .returns resp ∧ resp.error = some e) ∨
          e = JsError.error "Login failed. Please check your credentials." ∨
          e = JsError.error "Failed to fetch user profile." ∨
          w.signInWithPassword email password = .raises e ∨
          ∃ resp user, w.signInWithPassword email password = .returns resp ∧
            resp.user = some user ∧ w.selectProfile "role, full_name" user.id = .raises e) := by
    intro hc
    cases hs : w.signInWithPassword email password with
    | raises e =>
      rw [handleLogin_signIn_raises w email password e hs]
      exact ⟨by simp [Run.navigations], e, rfl, Or.inr (Or.inr (Or.inr (Or.inl rfl)))⟩
    | returns resp =>
      cases he : resp.error with
      | some e =>
        rw [handleLogin_auth_error w email password resp e hs he]
        exact ⟨by simp [Run.navigations], e, rfl, Or.inl ⟨resp, rfl, he⟩⟩
      | none =>
        cases hu : resp.user with
        | none =>
          rw [handleLogin_no_user w email password resp hs he hu]
          exact ⟨by simp [Run.navigations], _, rfl, Or.inr (Or.inl rfl)⟩
        | some user =>
          cases hp : w.selectProfile "role, full_name" user.id with
          | raises e =>
            rw [handleLogin_profile_raises w email password resp user e hs he hu hp]
            exact ⟨by simp [Run.navigations], e, rfl,
              Or.inr (Or.inr (Or.inr (Or.inr ⟨resp, user, rfl, hu, hp⟩)))⟩
          | returns presp =>
            cases hpe : presp.error with
            | some err =>
              rw [handleLogin_profile_error w email password resp user presp err hs he hu hp hpe]
              exact ⟨by simp [Run.navigations], _, rfl, Or.inr (Or.inr (Or.inl rfl))⟩
            | none => exact absurd ⟨resp, user, presp, hs, he, hu, hp, hpe⟩ hc
  refine ⟨?_, key, ?_⟩
  · constructor
    · intro hnav
      by_contra hc
      exact hnav (other hc).1
    · rintro ⟨resp, user, presp, hs, he, hu, hp, hpe⟩
      obtain ⟨profile, _, hnav, _⟩ := key resp user presp hs he hu hp hpe
      rw [hnav]
      simp
  · intro hnav
    by_cases hc : ∃ resp user presp, w.signInWithPassword email password = .returns resp ∧
        resp.error = none ∧ resp.user = some user ∧
        w.selectProfile "role, full_name" user.id = .returns presp ∧ presp.error = none
    · obtain ⟨resp, user, presp, hs, he, hu, hp, hpe⟩ := hc
      obtain ⟨profile, _, hnav2, _⟩ := key resp user presp hs he hu hp hpe
      rw [hnav2] at hnav
      simp at hnav
    · exact (other hc).2

/-- C5, at a faculty member signing in. -/
theorem handleLogin_navigation_witness :
    ∃ profile, (SingleResponse.success (⟨.str "faculty", "Asha Rao"⟩ : Profile)).data
        = some profile ∧
      (handleLogin (worldWithRole (.str "faculty")) "asha@campus.edu" "pw").navigations =
        [getDashboardUrl profile.role] ∧
      (handleLogin (worldWithRole (.str "faculty")) "asha@campus.edu" "pw").result
        = .normal () :=
  (handleLogin_navigation (worldWithRole (.str "faculty")) "asha@campus.edu" "pw").2.1
    ⟨some ⟨"u1"⟩, none⟩ ⟨"u1"⟩ (.success ⟨.str "faculty", "Asha Rao"⟩) rfl rfl rfl rfl rfl

/-! ### getCurrentUser, case by case -/

theorem getCurrentUser_session_raises (w : World) (e : JsError)
    (hs : w.getSession = .raises e) :
    getCurrentUser w =
      ⟨[.getSession, .consoleError "Get current user error:"], .normal none⟩ := by
  simp [getCurrentUser, hs, await, Run.tryCatch, Run.andThen, Run.emit, bind, pure, Run.ret]

theorem getCurrentUser_no_session (w : World) (resp : SessionResponse)
    (hs : w.getSession = .returns resp) (hn : resp.session = none) :
    getCurrentUser w = ⟨[.getSession], .normal none⟩ := by
  simp [getCurrentUser, hs, hn, await, Run.tryCatch, Run.andThen, bind, pure, Run.ret]

theorem getCurrentUser_profile_raises (w : World) (resp : SessionResponse) (session : Session)
    (e : JsError) (hs : w.getSession = .returns resp) (hn : resp.session = some session)
    (hp : w.selectProfile "*" session.user.id = .raises e) :
    getCurrentUser w =
      ⟨[.getSession, .selectProfile "*" session.user.id,
        .consoleError "Get current user error:"], .normal none⟩ := by
  simp [getCurrentUser, hs, hn, hp, await, Run.tryCatch, Run.andThen, Run.emit, bind, pure,
    Run.ret]

theorem getCurrentUser_profile_returns (w : World) (resp : SessionResponse) (session : Session)
    (presp : SingleResponse Profile) (hs : w.getSession = .returns resp)
    (hn : resp.session = some session)
    (hp : w.selectProfile "*" session.user.id = .returns presp) :
    getCurrentUser w =
      ⟨[.getSession, .selectProfile "*" session.user.id],
        .normal (some ⟨session.user.id, presp.data⟩)⟩ := by
  simp [getCurrentUser, hs, hn, hp, await, Run.tryCatch, Run.andThen, bind, pure, Run.ret]

/-- The four shapes of a run of `getCurrentUser`. -/
theorem getCurrentUser_cases (w : World) :
    getCurrentUser w = ⟨[.getSession, .consoleError "Get current user error:"], .normal none⟩ ∨
    getCurrentUser w = ⟨[.getSession], .normal none⟩ ∨
    (∃ id, getCurrentUser w =
      ⟨[.getSession, .selectProfile "*" id, .consoleError "Get current user error:"],
        .normal none⟩) ∨
    (∃ id profile, getCurrentUser w =
      ⟨[.getSession, .selectProfile "*" id], .normal (some ⟨id, profile⟩)⟩) := by
  cases hs : w.getSession with
  | raises e => exact Or.inl (getCurrentUser_session_raises w e hs)
  | returns resp =>
    cases hn : resp.session with
    | none => exact Or.inr (Or.inl (getCurrentUser_no_session w resp hs hn))
    | some session =>
      cases hp : w.selectProfile "*" session.user.id with
      | raises e =>
        exact Or.inr (Or.inr (Or.inl ⟨_, getCurrentUser_profile_raises w resp session e hs hn hp⟩))
      | returns presp =>
        exact Or.inr (Or.inr (Or.inr
          ⟨_, _, getCurrentUser_profile_returns w resp session presp hs hn hp⟩))

/-- The function `getCurrentUser` never throws. -/
theorem getCurrentUser_never_throws (w : World) : (getCurrentUser w).threw = false := by
  rcases getCurrentUser_cases w with h | h | ⟨id, h⟩ | ⟨id, profile, h⟩ <;> rw [h] <;> rfl

/-- C6. With a session whose profile lookup returns an error, `getCurrentUser`
returns a user object that is not null and whose `profile` field is null. -/
theorem getCurrentUser_null_profile :
    getCurrentUser worldProfileLookupFails =
      ⟨[.getSession, .selectProfile "*" "u1"], .normal (some ⟨"u1", none⟩)⟩ := by
  decide

/-! ### registerForEvent, by what getCurrentUser returned -/

theorem registerForEvent_no_user (w : World) (eventId : String) (t : List Effect)
    (hcu : getCurrentUser w = ⟨t, .normal none⟩) :
    registerForEvent w eventId =
      ⟨t ++ [.alert "Only students can register for events"], .normal ()⟩ := by
  simp [registerForEvent, hcu, notStudent, Run.tryCatch, Run.andThen, Run.emit, bind, pure,
    Run.ret]

theorem registerForEvent_no_profile (w : World) (eventId : String) (t : List Effect)
    (id : String) (hcu : getCurrentUser w = ⟨t, .normal (some ⟨id, none⟩)⟩) :
    registerForEvent w eventId =
      ⟨t ++ [.consoleError "Registration error:",
        .alert "Failed to register for event. Please try again."], .normal ()⟩ := by
  simp [registerForEvent, hcu, notStudent, Run.tryCatch, Run.andThen, Run.emit, Run.throw, bind]

theorem registerForEvent_other_role (w : World) (eventId : String) (t : List Effect)
    (id : String) (profile : Profile)
    (hcu : getCurrentUser w = ⟨t, .normal (some ⟨id, some profile⟩)⟩)
    (hr : profile.role ≠ .str "student") :
    registerForEvent w eventId =
      ⟨t ++ [.alert "Only students can register for events"], .normal ()⟩ := by
  simp [registerForEvent, hcu, notStudent, hr, Run.tryCatch, Run.andThen, Run.emit, bind, pure,
    Run.ret]

theorem registerForEvent_rpc_raises (w : World) (eventId : String) (t : List Effect)
    (id : String) (profile : Profile) (e : JsError)
    (hcu : getCurrentUser w = ⟨t, .normal (some ⟨id, some profile⟩)⟩)
    (hr : profile.role = .str "student")
    (hc : w.rpcRegisterStudent eventId id = .raises e) :
    registerForEvent w eventId =
      ⟨t ++ [.rpcRegisterStudent eventId id, .consoleError "Registration error:",
        .alert "Failed to register for event. Please try again."], .normal ()⟩ := by
  simp [registerForEvent, hcu, notStudent, hr, hc, await, Run.tryCatch, Run.andThen, Run.emit,
    bind, pure, Run.ret]

theorem registerForEvent_rpc_error (w : World) (eventId : String) (t : List Effect)
    (id : String) (profile : Profile) (resp : StatusResponse) (error : JsError)
    (hcu : getCurrentUser w = ⟨t, .normal (some ⟨id, some profile⟩)⟩)
    (hr : profile.role = .str "student")
    (hc : w.rpcRegisterStudent eventId id = .returns resp) (he : resp.error = some error) :
    registerForEvent w eventId =
      ⟨t ++ [.rpcRegisterStudent eventId id] ++
        (if error.mentions "event_full" then [.alert "Sorry, this event is full!"]
         else if error.mentions "duplicate_registration" then
           [.alert "You are already registered for this event"]
         else [.consoleError "Registration error:",
           .alert "Failed to register for event. Please try again."]), .normal ()⟩ := by
  obtain ⟨name, message⟩ := error
  cases message with
  | none =>
    simp [registerForEvent, hcu, notStudent, hr, hc, he, registrationFailed, JsError.mentions,
      await, Run.tryCatch, Run.andThen, Run.emit, Run.throw, bind, pure, Run.ret]
  | some m =>
    by_cases h1 : jsIncludes m "event_full" = true
    · simp [registerForEvent, hcu, notStudent, hr, hc, he, registrationFailed, JsError.mentions,
        h1, await, Run.tryCatch, Run.andThen, Run.emit, Run.throw, bind, pure, Run.ret]
    · by_cases h2 : jsIncludes m "duplicate_registration" = true
      · simp [registerForEvent, hcu, notStudent, hr, hc, he, registrationFailed,
          JsError.mentions, h1, h2, await, Run.tryCatch, Run.andThen, Run.emit, Run.throw, bind,
          pure, Run.ret]
      · simp [registerForEvent, hcu, notStudent, hr, hc, he, registrationFailed,
          JsError.mentions, h1, h2, await, Run.tryCatch, Run.andThen, Run.emit, Run.throw, bind,
          pure, Run.ret]

theorem registerForEvent_rpc_ok (w : World) (eventId : String) (t : List Effect)
    (id : String) (profile : Profile) (resp : StatusResponse)
    (hcu : getCurrentUser w = ⟨t, .normal (some ⟨id, some profile⟩)⟩)
    (hr : profile.role = .str "student")
    (hc : w.rpcRegisterStudent eventId id = .returns resp) (he : resp.error = none) :
    registerForEvent w eventId =
      ⟨t ++ [.rpcRegisterStudent eventId id, .alert "Successfully registered for the event!",
        .domCall "eventModal" "classList.remove(active)"] ++
        (if jsIncludes w.pathname "index.html" || w.pathname = "/" then [.call "loadEvents"]
         else []), .normal ()⟩ := by
  by_cases hpath : (jsIncludes w.pathname "index.html" || decide (w.pathname = "/")) = true
  · simp [registerForEvent, hcu, notStudent, hr, hc, he, hpath, await, Run.tryCatch,
      Run.andThen, Run.emit, bind, pure, Run.ret]
  · simp [registerForEvent, hcu, notStudent, hr, hc, he, hpath, await, Run.tryCatch,
      Run.andThen, Run.emit, bind, pure, Run.ret]

/-- A student's `registerForEvent` issues exactly one `register_student` call. -/
theorem registerForEvent_student_calls (w : World) (eventId : String) (t : List Effect)
    (id : String) (profile : Profile)
    (hcu : getCurrentUser w = ⟨t, .normal (some ⟨id, some profile⟩)⟩)
    (hr : profile.role = .str "student") :
    (registerForEvent w eventId).trace.filter Effect.isRegistrationCall =
      t.filter Effect.isRegistrationCall ++ [.rpcRegisterStudent eventId id] := by
  cases hc : w.rpcRegisterStudent eventId id with
  | raises e =>
    rw [registerForEvent_rpc_raises w eventId t id profile e hcu hr hc]
    simp [Effect.isRegistrationCall, List.filter]
  | returns resp =>
    cases he : resp.error with
    | some error =>
      rw [registerForEvent_rpc_error w eventId t id profile resp error hcu hr hc he]
      split_ifs <;> simp [Effect.isRegistrationCall, List.filter]
    | none =>
      rw [registerForEvent_rpc_ok w eventId t id profile resp hcu hr hc he]
      split_ifs <;> simp [Effect.isRegistrationCall, List.filter]

/-- The role gate of `registerForEvent`, for every backend: a `register_student`
call is issued exactly when `getCurrentUser` returns a user whose profile role is
'student'. When it returns no user, or a user whose profile has another role, the
only alert is 'Only students can register for events'; for a user object whose
profile is null the only alert is the generic failure message. -/
theorem registerForEvent_role_gate (w : World) (eventId : String) :
    ((registerForEvent w eventId).registrationCalls ≠ [] ↔
      ∃ user profile, (getCurrentUser w).result = .normal (some user) ∧
        user.profile = some profile ∧ profile.role = .str "student") ∧
    (((getCurrentUser w).result = .normal none ∨
      ∃ user profile, (getCurrentUser w).result = .normal (some user) ∧
        user.profile = some profile ∧ profile.role ≠ .str "student") →
      (registerForEvent w eventId).alerts = ["Only students can register for events"] ∧
      (registerForEvent w eventId).registrationCalls = []) ∧
    ((∃ user, (getCurrentUser w).result = .normal (some user) ∧ user.profile = none) →
      (registerForEvent w eventId).alerts =
        ["Failed to register for event. Please try again."] ∧
      (registerForEvent w eventId).registrationCalls = []) := by
  rcases getCurrentUser_cases w with h | h | ⟨id, h⟩ | ⟨id, profile, h⟩
  · rw [registerForEvent_no_user w eventId _ h, h]
    simp [Run.registrationCalls, Run.alerts, Effect.isRegistrationCall, List.filter]
  · rw [registerForEvent_no_user w eventId _ h, h]
    simp [Run.registrationCalls, Run.alerts, Effect.isRegistrationCall, List.filter]
  · rw [registerForEvent_no_user w eventId _ h, h]
    simp [Run.registrationCalls, Run.alerts, Effect.isRegistrationCall, List.filter]
  · cases profile with
    | none =>
      rw [registerForEvent_no_profile w eventId _ id h, h]
      simp [Run.registrationCalls, Run.alerts, Effect.isRegistrationCall, List.filter]
    | some profile =>
      by_cases hr : profile.role = .str "student"
      · have hcalls := registerForEvent_student_calls w eventId _ id profile h hr
        simp only [Run.registrationCalls, hcalls, h]
        simp [Effect.isRegistrationCall, List.filter, hr]
      · rw [registerForEvent_other_role w eventId _ id profile h hr, h]
        simp [Run.registrationCalls, Run.alerts, Effect.isRegistrationCall, List.filter, hr]

/-- The role gate at a signed-in organizer. -/
theorem registerForEvent_role_gate_witness :
    (registerForEvent (worldWithRole (.str "organizer")) "e1").alerts =
      ["Only students can register for events"] ∧
    (registerForEvent (worldWithRole (.str "organizer")) "e1").registrationCalls = [] :=
  (registerForEvent_role_gate (worldWithRole (.str "organizer")) "e1").2.1
    (Or.inr ⟨⟨"u1", some ⟨.str "organizer", "Asha Rao"⟩⟩, ⟨.str "organizer", "Asha Rao"⟩,
      by decide, rfl, by decide⟩)

/-- C2. For the signed-in user u1 whose profile lookup returns an error,
`getCurrentUser` returns a user object whose profile is null, so the user has no
role 'student'; `registerForEvent` then issues no `register_student` call, and the
one alert it shows is 'Failed to register for event. Please try again.', not 'Only
students can register for events': reading the role of the null profile raises a
TypeError that the catch block reports as a failed registration. -/
theorem registerForEvent_null_profile_alert :
    (getCurrentUser worldProfileLookupFails).result = .normal (some ⟨"u1", none⟩) ∧
    registerForEvent worldProfileLookupFails "e1" =
      ⟨[.getSession, .selectProfile "*" "u1", .consoleError "Registration error:",
        .alert "Failed to register for event. Please try again."], .normal ()⟩ ∧
    (registerForEvent worldProfileLookupFails "e1").alerts =
      ["Failed to register for event. Please try again."] ∧
    (registerForEvent worldProfileLookupFails "e1").alerts ≠
      ["Only students can register for events"] ∧
    (registerForEvent worldProfileLookupFails "e1").registrationCalls = [] := by
  decide

/-- The alerts of `registerForEvent` for a student whose `register_student` call
returned `error`. -/
theorem registerForEvent_error_alerts (w : World) (eventId : String) (error : JsError)
    (t : List Effect) (id : String) (profile : Profile)
    (hcu : getCurrentUser w = ⟨t, .normal (some ⟨id, some profile⟩)⟩)
    (hr : profile.role = .str "student") :
    (registerForEvent (w.withRegistration (.returns ⟨some error⟩)) eventId).alerts =
      t.filterMap (fun e => match e with
        | .alert m => some m
        | _ => none) ++
      [if error.mentions "event_full" then "Sorry, this event is full!"
       else if error.mentions "duplicate_registration" then
         "You are already registered for this event"
       else "Failed to register for event. Please try again."] := by
  have hcu2 : getCurrentUser (w.withRegistration (.returns ⟨some error⟩)) =
      ⟨t, .normal (some ⟨id, some profile⟩)⟩ := hcu
  rw [registerForEvent_rpc_error (w.withRegistration (.returns ⟨some error⟩)) eventId t id
    profile ⟨some error⟩ error hcu2 hr rfl rfl]
  split_ifs <;> simp [Run.alerts]

/-- C1 fails: when `register_student` signals each outcome by its name, a student is
shown the same message for EventNotFound and for EventNotApproved, namely the generic
'Failed to register for event. Please try again.'. -/
theorem registerForEvent_same_message_counterexample :
    (registerForEvent ((worldWithRole (.str "student")).withRegistration
        (.returns ⟨some (signalByName .EventNotFound)⟩)) "e1").alerts =
      (registerForEvent ((worldWithRole (.str "student")).withRegistration
        (.returns ⟨some (signalByName .EventNotApproved)⟩)) "e1").alerts ∧
    (registerForEvent ((worldWithRole (.str "student")).withRegistration
        (.returns ⟨some (signalByName .EventNotFound)⟩)) "e1").alerts =
      ["Failed to register for event. Please try again."] ∧
    RegistrationFailure.EventNotFound ≠ RegistrationFailure.EventNotApproved := by
  decide

/-- C1 as amended. For a signed-in student and any way `signal` of signalling the
four outcomes in which the EventFull error mentions 'event_full', the
DuplicateRegistration error mentions 'duplicate_registration' and not 'event_full',
and the other two errors mention neither: EventFull shows 'Sorry, this event is
full!', DuplicateRegistration shows 'You are already registered for this event', and
EventNotFound and EventNotApproved both show the same generic 'Failed to register
for event. Please try again.'. -/
theorem registerForEvent_failure_messages (w : World) (eventId : String)
    (signal : RegistrationFailure → JsError) (user : CurrentUser) (profile : Profile)
    (hcu : (getCurrentUser w).result = .normal (some user))
    (hp : user.profile = some profile) (hr : profile.role = .str "student")
    (hfull : (signal .EventFull).mentions "event_full" = true)
    (hdup : (signal .DuplicateRegistration).mentions "duplicate_registration" = true ∧
      (signal .DuplicateRegistration).mentions "event_full" = false)
    (hnf : (signal .EventNotFound).mentions "event_full" = false ∧
      (signal .EventNotFound).mentions "duplicate_registration" = false)
    (hna : (signal .EventNotApproved).mentions "event_full" = false ∧
      (signal .EventNotApproved).mentions "duplicate_registration" = false) :
    (registerForEvent (w.withRegistration (.returns ⟨some (signal .EventFull)⟩)) eventId).alerts
      = ["Sorry, this event is full!"] ∧
    (registerForEvent (w.withRegistration (.returns ⟨some (signal .DuplicateRegistration)⟩))
      eventId).alerts = ["You are already registered for this event"] ∧
    (registerForEvent (w.withRegistration (.returns ⟨some (signal .EventNotFound)⟩))
      eventId).alerts = ["Failed to register for event. Please try again."] ∧
    (registerForEvent (w.withRegistration (.returns ⟨some (signal .EventNotApproved)⟩))
      eventId).alerts = ["Failed to register for event. Please try again."] := by
  obtain ⟨uid, uprofile⟩ := user
  simp only at hp
  subst hp
  rcases getCurrentUser_cases w with h | h | ⟨id, h⟩ | ⟨id, profile2, h⟩
  · rw [h] at hcu; simp at hcu
  · rw [h] at hcu; simp at hcu
  · rw [h] at hcu; simp at hcu
  · rw [h] at hcu
    simp only [Completion.normal.injEq, Option.some.injEq, CurrentUser.mk.injEq] at hcu
    obtain ⟨rfl, rfl⟩ := hcu
    refine ⟨?_, ?_, ?_, ?_⟩
    · rw [registerForEvent_error_alerts w eventId _ _ _ profile h hr]
      simp [hfull]
    · rw [registerForEvent_error_alerts w eventId _ _ _ profile h hr]
      simp [hdup.1, hdup.2]
    · rw [registerForEvent_error_alerts w eventId _ _ _ profile h hr]
      simp [hnf.1, hnf.2]
    · rw [registerForEvent_error_alerts w eventId _ _ _ profile h hr]
      simp [hna.1, hna.2]

/-- C1 as amended, at the signalling by name. -/
theorem registerForEvent_failure_messages_witness :
    (registerForEvent ((worldWithRole (.str "student")).withRegistration
        (.returns ⟨some (signalByName .EventFull)⟩)) "e1").alerts
      = ["Sorry, this event is full!"] ∧
    (registerForEvent ((worldWithRole (.str "student")).withRegistration
        (.returns ⟨some (signalByName .DuplicateRegistration)⟩)) "e1").alerts
      = ["You are already registered for this event"] ∧
    (registerForEvent ((worldWithRole (.str "student")).withRegistration
        (.returns ⟨some (signalByName .EventNotFound)⟩)) "e1").alerts
      = ["Failed to register for event. Please try again."] ∧
    (registerForEvent ((worldWithRole (.str "student")).withRegistration
        (.returns ⟨some (signalByName .EventNotApproved)⟩)) "e1").alerts
      = ["Failed to register for event. Please try again."] :=
  registerForEvent_failure_messages (worldWithRole (.str "student")) "e1" signalByName
    ⟨"u1", some ⟨.str "student", "Asha Rao"⟩⟩ ⟨.str "student", "Asha Rao"⟩
    (by decide) rfl rfl (by decide) (by decide) (by decide) (by decide)

/-- Two errors that take the same branch lead to the same alerts. -/
theorem registerForEvent_alerts_of_branch (w : World) (eventId : String) (e₁ e₂ : JsError)
    (hb : errorBranch e₁ = errorBranch e₂) :
    (registerForEvent (w.withRegistration (.returns ⟨some e₁⟩)) eventId).alerts =
      (registerForEvent (w.withRegistration (.returns ⟨some e₂⟩)) eventId).alerts := by
  have hsame : ∀ c, getCurrentUser (w.withRegistration c) = getCurrentUser w := fun _ => rfl
  rcases getCurrentUser_cases w with h | h | ⟨id, h⟩ | ⟨id, profile, h⟩
  · rw [registerForEvent_no_user _ eventId _ ((hsame _).trans h),
      registerForEvent_no_user _ eventId _ ((hsame _).trans h)]
  · rw [registerForEvent_no_user _ eventId _ ((hsame _).trans h),
      registerForEvent_no_user _ eventId _ ((hsame _).trans h)]
  · rw [registerForEvent_no_user _ eventId _ ((hsame _).trans h),
      registerForEvent_no_user _ eventId _ ((hsame _).trans h)]
  · cases profile with
    | none =>
      rw [registerForEvent_no_profile _ eventId _ id ((hsame _).trans h),
        registerForEvent_no_profile _ eventId _ id ((hsame _).trans h)]
    | some profile =>
      by_cases hr : profile.role = .str "student"
      · rw [registerForEvent_error_alerts w eventId e₁ _ id profile h hr,
          registerForEvent_error_alerts w eventId e₂ _ id profile h hr]
        unfold errorBranch at hb
        split_ifs at hb ⊢ <;> first | rfl | (exact absurd hb (by decide))
      · rw [registerForEvent_other_role _ eventId _ id profile ((hsame _).trans h) hr,
          registerForEvent_other_role _ eventId _ id profile ((hsame _).trans h) hr]

/-- However `register_student` signals its four failure outcomes, two different
outcomes lead `registerForEvent` to the same alerts: an error takes one of three
branches only. -/
theorem registerForEvent_outcomes_share_message (w : World) (eventId : String)
    (signal : RegistrationFailure → JsError) :
    ∃ o₁ o₂, o₁ ≠ o₂ ∧
      (registerForEvent (w.withRegistration (.returns ⟨some (signal o₁)⟩)) eventId).alerts =
        (registerForEvent (w.withRegistration (.returns ⟨some (signal o₂)⟩)) eventId).alerts := by
  obtain ⟨o₁, o₂, hne, hb⟩ :=
    Fintype.exists_ne_map_eq_of_card_lt (fun o => errorBranch (signal o)) (by decide)
  exact ⟨o₁, o₂, hne, registerForEvent_alerts_of_branch w eventId _ _ hb⟩

/-! ### createEvent, case by case -/

theorem createEvent_no_user (w : World) (form : EventForm) (t : List Effect)
    (hcu : getCurrentUser w = ⟨t, .normal none⟩) :
    createEvent w form =
      ⟨createEventPrologue ++ (t ++ createEventCatch (JsError.error "Not authenticated") ++
        createEventEpilogue), .normal ()⟩ := by
  simp [createEvent, hcu, createEventPrologue, createEventCatch, createEventEpilogue,
    Run.tryFinally, Run.tryCatch, Run.andThen, Run.emit, Run.throw, bind]

theorem createEvent_poster_throws (w : World) (form : EventForm) (t tu : List Effect)
    (user : CurrentUser) (e : JsError)
    (hcu : getCurrentUser w = ⟨t, .normal (some user)⟩)
    (hup : uploadPoster w form.poster = ⟨tu, .throw e⟩) :
    createEvent w form =
      ⟨createEventPrologue ++ (t ++ tu ++ createEventCatch e ++ createEventEpilogue),
        .normal ()⟩ := by
  simp [createEvent, hcu, hup, createEventPrologue, createEventCatch, createEventEpilogue,
    Run.tryFinally, Run.tryCatch, Run.andThen, Run.emit, Run.throw, bind]

theorem createEvent_insert_raises (w : World) (form : EventForm) (t tu : List Effect)
    (user : CurrentUser) (posterUrl : Option String) (e : JsError)
    (hcu : getCurrentUser w = ⟨t, .normal (some user)⟩)
    (hup : uploadPoster w form.poster = ⟨tu, .normal posterUrl⟩)
    (hi : w.insertEvent (eventRecord user.id form posterUrl) = .raises e) :
    createEvent w form =
      ⟨createEventPrologue ++ (t ++ tu ++ [.insertEvent (eventRecord user.id form posterUrl)] ++
        createEventCatch e ++ createEventEpilogue), .normal ()⟩ := by
  unfold eventRecord at hi
  simp [createEvent, hcu, hup, hi, eventRecord, createEventPrologue, createEventCatch,
    createEventEpilogue, await, Run.tryFinally, Run.tryCatch, Run.andThen, Run.emit, Run.throw,
    bind]

theorem createEvent_insert_error (w : World) (form : EventForm) (t tu : List Effect)
    (user : CurrentUser) (posterUrl : Option String) (resp : SingleResponse Unit) (e : JsError)
    (hcu : getCurrentUser w = ⟨t, .normal (some user)⟩)
    (hup : uploadPoster w form.poster = ⟨tu, .normal posterUrl⟩)
    (hi : w.insertEvent (eventRecord user.id form posterUrl) = .returns resp)
    (he : resp.error = some e) :
    createEvent w form =
      ⟨createEventPrologue ++ (t ++ tu ++ [.insertEvent (eventRecord user.id form posterUrl)] ++
        createEventCatch e ++ createEventEpilogue), .normal ()⟩ := by
  unfold eventRecord at hi
  simp [createEvent, hcu, hup, hi, he, eventRecord, createEventPrologue, createEventCatch,
    createEventEpilogue, await, Run.tryFinally, Run.tryCatch, Run.andThen, Run.emit, Run.throw,
    bind]

theorem createEvent_insert_ok (w : World) (form : EventForm) (t tu : List Effect)
    (user : CurrentUser) (posterUrl : Option String) (resp : SingleResponse Unit)
    (hcu : getCurrentUser w = ⟨t, .normal (some user)⟩)
    (hup : uploadPoster w form.poster = ⟨tu, .normal posterUrl⟩)
    (hi : w.insertEvent (eventRecord user.id form posterUrl) = .returns resp)
    (he : resp.error = none) :
    createEvent w form =
      ⟨createEventPrologue ++ (t ++ tu ++ [.insertEvent (eventRecord user.id form posterUrl),
        .setDom "formSuccess" "textContent"
          "Event created successfully! Students can now register.",
        .setDom "formSuccess" "style.display" "block", .domCall "eventForm" "reset",
        .setTimeout "hide the form and call loadOrganizerEvents" 2000] ++
        createEventEpilogue), .normal ()⟩ := by
  unfold eventRecord at hi
  simp [createEvent, hcu, hup, hi, he, eventRecord, createEventPrologue, createEventEpilogue,
    await, Run.tryFinally, Run.tryCatch, Run.andThen, Run.emit, Run.throw, bind]

/-! ### uploadFile and uploadPoster -/

/-- The one effect of `uploadFile` is the upload to the path it built, and a normal
completion returns that path. -/
theorem uploadFile_run (w : World) (file : File) (folder : String) :
    (uploadFile w file folder).trace =
      [.storageUpload STORAGE_BUCKET (uploadPath w file folder) file] ∧
    ∀ path, (uploadFile w file folder).result = .normal path →
      path = uploadPath w file folder := by
  unfold uploadFile uploadPath
  cases hu : w.storageUpload
      (folder ++ "/" ++ (w.randomToken ++ "_" ++ w.now ++ "." ++ fileExtension file.name))
      file with
  | raises err => simp only [hu, await, Run.andThen, bind]; simp
  | returns resp =>
    cases hr : resp.error with
    | some err => simp only [hu, hr, await, Run.andThen, Run.throw, bind]; simp
    | none => simp only [hu, hr, await, Run.andThen, bind, pure, Run.ret]; simp

/-- A poster of more than 5 * 1024 * 1024 bytes is rejected before any upload. -/
theorem uploadPoster_too_large (w : World) (file : File) (h : file.size > 5 * 1024 * 1024) :
    uploadPoster w (some file) =
      ⟨[], .throw (JsError.error "Poster image must be less than 5MB")⟩ := by
  simp [uploadPoster, h, Run.throw]

/-- A poster of at most 5 * 1024 * 1024 bytes is uploaded. -/
theorem uploadPoster_within_limit (w : World) (file : File)
    (h : file.size ≤ 5 * 1024 * 1024) :
    (uploadPoster w (some file)).trace =
      [.storageUpload STORAGE_BUCKET (uploadPath w file "posters") file] := by
  have hnot : ¬ file.size > 5 * 1024 * 1024 := Nat.not_lt.mpr h
  have htrace := (uploadFile_run w file "posters").1
  unfold uploadPoster
  simp only [hnot, if_false, bind, Run.andThen]
  cases hres : (uploadFile w file "posters").result with
  | normal path => simp only [htrace, pure, Run.ret, List.append_nil]
  | throw e => simp only [htrace]

/-- Every effect of `uploadPoster` is the upload of the chosen file, whose size is
then at most 5 * 1024 * 1024 bytes. -/
theorem uploadPoster_trace (w : World) (poster : Option File) :
    ∀ e ∈ (uploadPoster w poster).trace,
      ∃ path file, e = .storageUpload STORAGE_BUCKET path file ∧ poster = some file ∧
        file.size ≤ 5 * 1024 * 1024 := by
  intro e he
  cases poster with
  | none => simp [uploadPoster, pure, Run.ret] at he
  | some file =>
    by_cases hsize : file.size > 5 * 1024 * 1024
    · rw [uploadPoster_too_large w file hsize] at he
      simp at he
    · have hle : file.size ≤ 5 * 1024 * 1024 := Nat.le_of_not_gt hsize
      rw [uploadPoster_within_limit w file hle] at he
      simp only [List.mem_singleton] at he
      exact ⟨_, _, he, rfl, hle⟩

/-- When `uploadPoster` completes normally for a chosen file, the file is at most
5 * 1024 * 1024 bytes and has been uploaded. -/
theorem uploadPoster_normal (w : World) (file : File) (posterUrl : Option String)
    (h : (uploadPoster w (some file)).result = .normal posterUrl) :
    file.size ≤ 5 * 1024 * 1024 ∧
      (uploadPoster w (some file)).trace.filterMap Effect.uploaded = [file] := by
  by_cases hsize : file.size > 5 * 1024 * 1024
  · rw [uploadPoster_too_large w file hsize] at h
    simp at h
  · have hle : file.size ≤ 5 * 1024 * 1024 := Nat.le_of_not_gt hsize
    rw [uploadPoster_within_limit w file hle]
    exact ⟨hle, by simp [Effect.uploaded]⟩

/-- The effects of `getCurrentUser` are session and profile lookups and a log. -/
theorem getCurrentUser_trace (w : World) :
    ∀ e ∈ (getCurrentUser w).trace,
      e = .getSession ∨ (∃ id, e = .selectProfile "*" id) ∨
        e = .consoleError "Get current user error:" := by
  rcases getCurrentUser_cases w with h | h | ⟨id, h⟩ | ⟨id, profile, h⟩ <;> rw [h] <;> simp

theorem getCurrentUser_inserts (w : World) :
    (getCurrentUser w).trace.filterMap Effect.inserted = [] := by
  rw [List.filterMap_eq_nil_iff]
  intro e he
  rcases getCurrentUser_trace w e he with rfl | ⟨id, rfl⟩ | rfl <;> rfl

theorem getCurrentUser_uploads (w : World) :
    (getCurrentUser w).trace.filterMap Effect.uploaded = [] := by
  rw [List.filterMap_eq_nil_iff]
  intro e he
  rcases getCurrentUser_trace w e he with rfl | ⟨id, rfl⟩ | rfl <;> rfl

theorem getCurrentUser_formErrors (w : World) :
    (getCurrentUser w).trace.filterMap Effect.formErrorText = [] := by
  rw [List.filterMap_eq_nil_iff]
  intro e he
  rcases getCurrentUser_trace w e he with rfl | ⟨id, rfl⟩ | rfl <;> rfl

theorem uploadPoster_inserts (w : World) (poster : Option File) :
    (uploadPoster w poster).trace.filterMap Effect.inserted = [] := by
  rw [List.filterMap_eq_nil_iff]
  intro e he
  obtain ⟨path, file, rfl, _, _⟩ := uploadPoster_trace w poster e he
  rfl

theorem uploadPoster_formErrors (w : World) (poster : Option File) :
    (uploadPoster w poster).trace.filterMap Effect.formErrorText = [] := by
  rw [List.filterMap_eq_nil_iff]
  intro e he
  obtain ⟨path, file, rfl, _, _⟩ := uploadPoster_trace w poster e he
  rfl

/-- What `createEvent` inserts: one record, built from the current user, the form
and the uploaded poster path, when there is a user and the poster step did not throw;
nothing otherwise. -/
theorem createEvent_inserts (w : World) (form : EventForm) :
    (createEvent w form).inserts =
      match (getCurrentUser w).result, (uploadPoster w form.poster).result with
      | .normal (some user), .normal posterUrl => [eventRecord user.id form posterUrl]
      | _, _ => [] := by
  have hti := getCurrentUser_inserts w
  have hui := uploadPoster_inserts w form.poster
  cases hcu : getCurrentUser w with
  | mk t res =>
    have hthrew := getCurrentUser_never_throws w
    rw [hcu] at hti hthrew
    cases res with
    | throw e => simp [Run.threw] at hthrew
    | normal cu =>
      cases cu with
      | none =>
        rw [createEvent_no_user w form t hcu]
        simp only [Run.inserts, List.filterMap_append]
        simp only at hti
        rw [hti]
        rfl
      | some user =>
        cases hup : uploadPoster w form.poster with
        | mk tu ures =>
          rw [hup] at hui
          simp only at hui hti
          cases ures with
          | throw e =>
            rw [createEvent_poster_throws w form t tu user e hcu hup]
            simp only [Run.inserts, List.filterMap_append, hti, hui]
            rfl
          | normal posterUrl =>
            cases hi : w.insertEvent (eventRecord user.id form posterUrl) with
            | raises e =>
              rw [createEvent_insert_raises w form t tu user posterUrl e hcu hup hi]
              simp only [Run.inserts, List.filterMap_append, hti, hui]
              rfl
            | returns resp =>
              cases he : resp.error with
              | some e =>
                rw [createEvent_insert_error w form t tu user posterUrl resp e hcu hup hi he]
                simp only [Run.inserts, List.filterMap_append, hti, hui]
                rfl
              | none =>
                rw [createEvent_insert_ok w form t tu user posterUrl resp hcu hup hi he]
                simp only [Run.inserts, List.filterMap_append, hti, hui]
                rfl

/-- What `createEvent` uploads: what its poster step uploads when there is a user,
nothing otherwise. -/
theorem createEvent_uploads (w : World) (form : EventForm) :
    (createEvent w form).uploads =
      match (getCurrentUser w).result with
      | .normal (some _) => (uploadPoster w form.poster).trace.filterMap Effect.uploaded
      | _ => [] := by
  have hti := getCurrentUser_uploads w
  cases hcu : getCurrentUser w with
  | mk t res =>
    have hthrew := getCurrentUser_never_throws w
    rw [hcu] at hti hthrew
    cases res with
    | throw e => simp [Run.threw] at hthrew
    | normal cu =>
      cases cu with
      | none =>
        rw [createEvent_no_user w form t hcu]
        simp only [Run.uploads, List.filterMap_append]
        simp only at hti
        rw [hti]
        rfl
      | some user =>
        cases hup : uploadPoster w form.poster with
        | mk tu ures =>
          simp only at hti
          cases ures with
          | throw e =>
            rw [createEvent_poster_throws w form t tu user e hcu hup]
            simp only [Run.uploads, List.filterMap_append, hti]
            simp [createEventPrologue, createEventCatch, createEventEpilogue, Effect.uploaded]
          | normal posterUrl =>
            cases hi : w.insertEvent (eventRecord user.id form posterUrl) with
            | raises e =>
              rw [createEvent_insert_raises w form t tu user posterUrl e hcu hup hi]
              simp only [Run.uploads, List.filterMap_append, hti]
              simp [createEventPrologue, createEventCatch, createEventEpilogue, Effect.uploaded]
            | returns resp =>
              cases he : resp.error with
              | some e =>
                rw [createEvent_insert_error w form t tu user posterUrl resp e hcu hup hi he]
                simp only [Run.uploads, List.filterMap_append, hti]
                simp [createEventPrologue, createEventCatch, createEventEpilogue,
                  Effect.uploaded]
              | none =>
                rw [createEvent_insert_ok w form t tu user posterUrl resp hcu hup hi he]
                simp only [Run.uploads, List.filterMap_append, hti]
                simp [createEventPrologue, createEventEpilogue, Effect.uploaded]

/-- The form error that `createEvent` shows when there is no user, and when the
poster step throws. -/
theorem createEvent_formErrors (w : World) (form : EventForm) :
    ((getCurrentUser w).result = .normal none →
      (createEvent w form).formErrors = ["Not authenticated"]) ∧
    (∀ user e, (getCurrentUser w).result = .normal (some user) →
      (uploadPoster w form.poster).result = .throw e →
      (createEvent w form).formErrors = [createEventErrorText e]) := by
  have hti := getCurrentUser_formErrors w
  have hui := uploadPoster_formErrors w form.poster
  cases hcu : getCurrentUser w with
  | mk t res =>
    rw [hcu] at hti
    simp only at hti
    constructor
    · intro hres
      simp only at hres
      subst hres
      rw [createEvent_no_user w form t hcu]
      simp only [Run.formErrors, List.filterMap_append, hti]
      decide
    · intro user e hres hthrow
      simp only at hres
      subst hres
      cases hup : uploadPoster w form.poster with
      | mk tu ures =>
        rw [hup] at hui hthrow
        simp only at hui hthrow
        subst hthrow
        rw [createEvent_poster_throws w form t tu user e hcu hup]
        simp only [Run.formErrors, List.filterMap_append, hti, hui]
        simp [createEventPrologue, createEventCatch, createEventEpilogue, Effect.formErrorText]

/-- C7. Every event record that `createEvent` inserts has status 'approved' and
the id of the current user as `organizer_id`; when `getCurrentUser` returns no user,
nothing is uploaded, nothing is inserted and the form error shows 'Not
authenticated'. -/
theorem createEvent_record_owner_status (w : World) (form : EventForm) :
    (∀ record ∈ (createEvent w form).inserts, record.status = "approved" ∧
      ∃ user, (getCurrentUser w).result = .normal (some user) ∧
        record.organizer_id = user.id) ∧
    ((getCurrentUser w).result = .normal none →
      (createEvent w form).uploads = [] ∧ (createEvent w form).inserts = [] ∧
      (createEvent w form).formErrors = ["Not authenticated"]) := by
  constructor
  · intro record hrec
    rw [createEvent_inserts] at hrec
    split at hrec
    · next user posterUrl hu _ =>
      simp only [List.mem_singleton] at hrec
      subst hrec
      exact ⟨rfl, user, hu, rfl⟩
    · simp at hrec
  · intro hnone
    refine ⟨?_, ?_, (createEvent_formErrors w form).1 hnone⟩
    · rw [createEvent_uploads, hnone]
    · rw [createEvent_inserts, hnone]

/-- C7, at an organizer who submits a form without a poster. -/
theorem createEvent_record_owner_status_witness :
    (eventRecord "u1" (sampleForm "40" none) none).status = "approved" ∧
    ∃ user, (getCurrentUser (worldWithRole (.str "organizer"))).result = .normal (some user) ∧
      (eventRecord "u1" (sampleForm "40" none) none).organizer_id = user.id :=
  (createEvent_record_owner_status (worldWithRole (.str "organizer")) (sampleForm "40" none)).1
    (eventRecord "u1" (sampleForm "40" none) none) (by decide)

/-- C8 fails: for the capacity fields '0', '-5', '' and 'abc' an organizer's
`createEvent` does insert an event record, with `max_participants` 0, -5, NaN and
NaN. -/
theorem createEvent_capacity_counterexample :
    ((createEvent (worldWithRole (.str "organizer")) (sampleForm "0" none)).inserts.map
      EventInsert.max_participants = [.finite false 0]) ∧
    ((createEvent (worldWithRole (.str "organizer")) (sampleForm "-5" none)).inserts.map
      EventInsert.max_participants = [.finite true 5]) ∧
    ((createEvent (worldWithRole (.str "organizer")) (sampleForm "" none)).inserts.map
      EventInsert.max_participants = [.nan]) ∧
    ((createEvent (worldWithRole (.str "organizer")) (sampleForm "abc" none)).inserts.map
      EventInsert.max_participants = [.nan]) := by
  decide

/-- C8 as amended. `createEvent` does not check the capacity field: every record it
inserts carries `parseInt` of the field as `max_participants`, and whether it inserts
a record does not depend on the field. So the value need not be an integer greater
than 0: for the fields '0', '-5', '' and 'abc' every inserted record carries 0, -5,
NaN and NaN. -/
theorem createEvent_capacity_unchecked (w : World) (form : EventForm) :
    (∀ record ∈ (createEvent w form).inserts,
      record.max_participants = parseInt form.capacity) ∧
    (∀ capacity : String,
      (createEvent w { form with capacity := capacity }).inserts = [] ↔
        (createEvent w form).inserts = []) ∧
    (∀ record ∈ (createEvent w { form with capacity := "0" }).inserts,
      record.max_participants = .finite false 0) ∧
    (∀ record ∈ (createEvent w { form with capacity := "-5" }).inserts,
      record.max_participants = .finite true 5) ∧
    (∀ record ∈ (createEvent w { form with capacity := "" }).inserts,
      record.max_participants = .nan) ∧
    (∀ record ∈ (createEvent w { form with capacity := "abc" }).inserts,
      record.max_participants = .nan) := by
  have hvalue : ∀ (f : EventForm), ∀ record ∈ (createEvent w f).inserts,
      record.max_participants = parseInt f.capacity := by
    intro f record hrec
    rw [createEvent_inserts] at hrec
    split at hrec
    · simp only [List.mem_singleton] at hrec
      subst hrec
      rfl
    · simp at hrec
  refine ⟨hvalue form, ?_, ?_, ?_, ?_, ?_⟩
  rotate_left
  · intro record hrec
    rw [hvalue _ record hrec]
    show parseInt "0" = .finite false 0
    decide
  · intro record hrec
    rw [hvalue _ record hrec]
    show parseInt "-5" = .finite true 5
    decide
  · intro record hrec
    rw [hvalue _ record hrec]
    show parseInt "" = .nan
    decide
  · intro record hrec
    rw [hvalue _ record hrec]
    show parseInt "abc" = .nan
    decide
  · intro capacity
    rw [createEvent_inserts, createEvent_inserts]
    show (match (getCurrentUser w).result, (uploadPoster w form.poster).result with
        | .normal (some user), .normal posterUrl =>
          [eventRecord user.id { form with capacity := capacity } posterUrl]
        | _, _ => []) = [] ↔ _
    split <;> simp

/-- C8 as amended, at an organizer who submits the capacity field '-5': the record
inserted carries -5. -/
theorem createEvent_capacity_unchecked_witness :
    (eventRecord "u1" (sampleForm "-5" none) none).max_participants = .finite true 5 :=
  (createEvent_capacity_unchecked (worldWithRole (.str "organizer"))
    (sampleForm "40" none)).2.2.2.1
    (eventRecord "u1" (sampleForm "-5" none) none) (by decide)

/-- C9 fails: a poster of exactly 5 * 1024 * 1024 bytes is uploaded and the event is
inserted, with no form error; and with no user signed in a larger poster leads to
the form error 'Not authenticated'. -/
theorem createEvent_poster_limit_counterexample :
    (createEvent (worldWithRole (.str "organizer"))
      (sampleForm "40" (some ⟨"poster.png", 5 * 1024 * 1024⟩))).uploads =
        [⟨"poster.png", 5 * 1024 * 1024⟩] ∧
    (createEvent (worldWithRole (.str "organizer"))
      (sampleForm "40" (some ⟨"poster.png", 5 * 1024 * 1024⟩))).inserts =
        [eventRecord "u1" (sampleForm "40" (some ⟨"poster.png", 5 * 1024 * 1024⟩))
          (some "posters/k3x9q_1700000000000.png")] ∧
    (createEvent (worldWithRole (.str "organizer"))
      (sampleForm "40" (some ⟨"poster.png", 5 * 1024 * 1024⟩))).formErrors = [] ∧
    (createEvent worldSignedOut
      (sampleForm "40" (some ⟨"poster.png", 6 * 1024 * 1024⟩))).formErrors =
        ["Not authenticated"] := by
  decide

/-- C9 as amended. With a poster chosen, `createEvent` uploads it or inserts the
event only if the poster is at most 5 * 1024 * 1024 bytes; for every poster of more
than 5 * 1024 * 1024 bytes it neither uploads the file nor inserts the event, and
when a user is signed in it shows 'Poster image must be less than 5MB'. -/
theorem createEvent_poster_limit (w : World) (form : EventForm) (file : File)
    (hposter : form.poster = some file) :
    ((createEvent w form).uploads ≠ [] → file.size ≤ 5 * 1024 * 1024) ∧
    ((createEvent w form).inserts ≠ [] → file.size ≤ 5 * 1024 * 1024) ∧
    (file.size > 5 * 1024 * 1024 →
      (createEvent w form).uploads = [] ∧ (createEvent w form).inserts = [] ∧
      ∀ user, (getCurrentUser w).result = .normal (some user) →
        (createEvent w form).formErrors = ["Poster image must be less than 5MB"]) := by
  have hlarge : file.size > 5 * 1024 * 1024 →
      (createEvent w form).uploads = [] ∧ (createEvent w form).inserts = [] ∧
      ∀ user, (getCurrentUser w).result = .normal (some user) →
        (createEvent w form).formErrors = ["Poster image must be less than 5MB"] := by
    intro hsize
    have hup := uploadPoster_too_large w file hsize
    refine ⟨?_, ?_, ?_⟩
    · rw [createEvent_uploads, hposter, hup]
      split <;> rfl
    · rw [createEvent_inserts, hposter, hup]
      split
      · next h1 h2 => simp at h2
      · rfl
    · intro user hu
      have h := (createEvent_formErrors w form).2 user _ hu (by rw [hposter, hup])
      rw [h]
      decide
  refine ⟨?_, ?_, hlarge⟩
  · intro hne
    by_contra hsize
    exact hne (hlarge (Nat.lt_of_not_le hsize)).1
  · intro hne
    by_contra hsize
    exact hne (hlarge (Nat.lt_of_not_le hsize)).2.1

/-- C9 as amended, at an organizer who chooses a poster of 6 * 1024 * 1024 bytes. -/
theorem createEvent_poster_limit_witness :
    (createEvent (worldWithRole (.str "organizer"))
      (sampleForm "40" (some ⟨"big.png", 6 * 1024 * 1024⟩))).uploads = [] ∧
    (createEvent (worldWithRole (.str "organizer"))
      (sampleForm "40" (some ⟨"big.png", 6 * 1024 * 1024⟩))).inserts = [] ∧
    ∀ user, (getCurrentUser (worldWithRole (.str "organizer"))).result = .normal (some user) →
      (createEvent (worldWithRole (.str "organizer"))
        (sampleForm "40" (some ⟨"big.png", 6 * 1024 * 1024⟩))).formErrors =
          ["Poster image must be less than 5MB"] :=
  (createEvent_poster_limit (worldWithRole (.str "organizer"))
    (sampleForm "40" (some ⟨"big.png", 6 * 1024 * 1024⟩)) ⟨"big.png", 6 * 1024 * 1024⟩ rfl).2.2
    (by decide)

/-! ### deleteEvent, case by case -/

theorem deleteEvent_declined (w : World) (eventId posterUrl : String)
    (hc : w.confirm deleteEventQuestion = false) :
    deleteEvent w eventId posterUrl = ⟨[.confirm deleteEventQuestion], .normal ()⟩ := by
  unfold deleteEventQuestion at hc
  simp [deleteEvent, deleteEventQuestion, hc, Run.andThen, Run.emit, bind, pure, Run.ret]

theorem deleteEvent_row_raises (w : World) (eventId posterUrl : String) (e : JsError)
    (hc : w.confirm deleteEventQuestion = true) (hd : w.deleteEventRow eventId = .raises e) :
    deleteEvent w eventId posterUrl =
      ⟨[.confirm deleteEventQuestion, .deleteEventRow eventId,
        .consoleError "Delete event error:", .alert "Failed to delete event"], .normal ()⟩ := by
  unfold deleteEventQuestion at hc
  simp [deleteEvent, deleteEventQuestion, hc, hd, await, Run.tryCatch, Run.andThen, Run.emit,
    bind]

theorem deleteEvent_row_error (w : World) (eventId posterUrl : String) (resp : StatusResponse)
    (e : JsError) (hc : w.confirm deleteEventQuestion = true)
    (hd : w.deleteEventRow eventId = .returns resp) (he : resp.error = some e) :
    deleteEvent w eventId posterUrl =
      ⟨[.confirm deleteEventQuestion, .deleteEventRow eventId,
        .consoleError "Delete event error:", .alert "Failed to delete event"], .normal ()⟩ := by
  unfold deleteEventQuestion at hc
  simp [deleteEvent, deleteEventQuestion, hc, hd, he, await, Run.tryCatch, Run.andThen,
    Run.emit, Run.throw, bind]

theorem deleteEvent_no_poster (w : World) (eventId : String) (resp : StatusResponse)
    (hc : w.confirm deleteEventQuestion = true)
    (hd : w.deleteEventRow eventId = .returns resp) (he : resp.error = none) :
    deleteEvent w eventId "" =
      ⟨[.confirm deleteEventQuestion, .deleteEventRow eventId,
        .alert "Event deleted successfully", .call "loadOrganizerEvents"], .normal ()⟩ := by
  unfold deleteEventQuestion at hc
  simp [deleteEvent, deleteEventQuestion, hc, hd, he, await, Run.tryCatch, Run.andThen,
    Run.emit, bind, pure, Run.ret]

theorem deleteEvent_poster_removed (w : World) (eventId posterUrl : String)
    (resp rresp : StatusResponse) (hc : w.confirm deleteEventQuestion = true)
    (hd : w.deleteEventRow eventId = .returns resp) (he : resp.error = none)
    (hp : posterUrl ≠ "") (hr : w.storageRemove posterUrl = .returns rresp)
    (hre : rresp.error = none) :
    deleteEvent w eventId posterUrl =
      ⟨[.confirm deleteEventQuestion, .deleteEventRow eventId,
        .storageRemove STORAGE_BUCKET posterUrl,
        .alert "Event deleted successfully", .call "loadOrganizerEvents"], .normal ()⟩ := by
  unfold deleteEventQuestion at hc
  simp [deleteEvent, deleteEventQuestion, deleteFile, hc, hd, he, hp, hr, hre, await,
    Run.tryCatch, Run.andThen, Run.emit, bind, pure, Run.ret]

theorem deleteEvent_poster_removal_fails (w : World) (eventId posterUrl : String)
    (resp : StatusResponse) (hc : w.confirm deleteEventQuestion = true)
    (hd : w.deleteEventRow eventId = .returns resp) (he : resp.error = none)
    (hp : posterUrl ≠ "")
    (hr : (∃ e, w.storageRemove posterUrl = .raises e) ∨
      ∃ rresp e, w.storageRemove posterUrl = .returns rresp ∧ rresp.error = some e) :
    deleteEvent w eventId posterUrl =
      ⟨[.confirm deleteEventQuestion, .deleteEventRow eventId,
        .storageRemove STORAGE_BUCKET posterUrl, .consoleError "Failed to delete poster:",
        .alert "Event deleted successfully", .call "loadOrganizerEvents"], .normal ()⟩ := by
  unfold deleteEventQuestion at hc
  rcases hr with ⟨e, hr⟩ | ⟨rresp, e, hr, hre⟩
  · simp [deleteEvent, deleteEventQuestion, deleteFile, hc, hd, he, hp, hr, await,
      Run.tryCatch, Run.andThen, Run.emit, bind, pure, Run.ret]
  · simp [deleteEvent, deleteEventQuestion, deleteFile, hc, hd, he, hp, hr, hre, await,
      Run.tryCatch, Run.andThen, Run.emit, Run.throw, bind, pure, Run.ret]

/-- The row deletion is requested exactly when the user confirms. -/
theorem deleteEvent_requested_iff (w : World) (eventId posterUrl : String) :
    Effect.deleteEventRow eventId ∈ (deleteEvent w eventId posterUrl).trace ↔
      w.confirm deleteEventQuestion = true := by
  cases hc : w.confirm deleteEventQuestion with
  | false => rw [deleteEvent_declined w eventId posterUrl hc]; simp
  | true =>
    simp only [iff_true]
    cases hd : w.deleteEventRow eventId with
    | raises e => rw [deleteEvent_row_raises w eventId posterUrl e hc hd]; simp
    | returns resp =>
      cases he : resp.error with
      | some e => rw [deleteEvent_row_error w eventId posterUrl resp e hc hd he]; simp
      | none =>
        by_cases hp : posterUrl = ""
        · subst hp
          rw [deleteEvent_no_poster w eventId resp hc hd he]; simp
        · cases hr : w.storageRemove posterUrl with
          | raises e =>
            rw [deleteEvent_poster_removal_fails w eventId posterUrl resp hc hd he hp
              (Or.inl ⟨e, hr⟩)]
            simp
          | returns rresp =>
            cases hre : rresp.error with
            | some e =>
              rw [deleteEvent_poster_removal_fails w eventId posterUrl resp hc hd he hp
                (Or.inr ⟨rresp, e, hr, hre⟩)]
              simp
            | none =>
              rw [deleteEvent_poster_removed w eventId posterUrl resp rresp hc hd he hp hr hre]
              simp

/-- C10. Whenever `deleteEvent` requests the row deletion and it returns without
error, the only alert is 'Event deleted successfully' and `loadOrganizerEvents` is
called, whether or not the removal of the poster fails; a failed removal is logged
with `console.error` only. When the requested row deletion raises or returns an
error, no poster removal is attempted and the only alert is 'Failed to delete
event'. -/
theorem deleteEvent_reporting (w : World) (eventId posterUrl : String)
    (hreq : Effect.deleteEventRow eventId ∈ (deleteEvent w eventId posterUrl).trace) :
    (∀ resp, w.deleteEventRow eventId = .returns resp → resp.error = none →
      (deleteEvent w eventId posterUrl).alerts = ["Event deleted successfully"] ∧
      Effect.call "loadOrganizerEvents" ∈ (deleteEvent w eventId posterUrl).trace ∧
      (deleteEvent w eventId posterUrl).result = .normal () ∧
      (posterUrl ≠ "" →
        ((∃ e, w.storageRemove posterUrl = .raises e) ∨
          ∃ rresp e, w.storageRemove posterUrl = .returns rresp ∧ rresp.error = some e) →
        (deleteEvent w eventId posterUrl).removals = [posterUrl] ∧
        Effect.consoleError "Failed to delete poster:" ∈
          (deleteEvent w eventId posterUrl).trace)) ∧
    (((∃ e, w.deleteEventRow eventId = .raises e) ∨
        ∃ resp e, w.deleteEventRow eventId = .returns resp ∧ resp.error = some e) →
      (deleteEvent w eventId posterUrl).removals = [] ∧
      (deleteEvent w eventId posterUrl).alerts = ["Failed to delete event"]) := by
  have hc := (deleteEvent_requested_iff w eventId posterUrl).mp hreq
  constructor
  · intro resp hd he
    by_cases hp : posterUrl = ""
    · subst hp
      rw [deleteEvent_no_poster w eventId resp hc hd he]
      simp [Run.alerts]
    · cases hr : w.storageRemove posterUrl with
      | raises e =>
        rw [deleteEvent_poster_removal_fails w eventId posterUrl resp hc hd he hp
          (Or.inl ⟨e, hr⟩)]
        simp [Run.alerts, Run.removals, Effect.removed]
      | returns rresp =>
        cases hre : rresp.error with
        | some e =>
          rw [deleteEvent_poster_removal_fails w eventId posterUrl resp hc hd he hp
            (Or.inr ⟨rresp, e, hr, hre⟩)]
          simp [Run.alerts, Run.removals, Effect.removed]
        | none =>
          rw [deleteEvent_poster_removed w eventId posterUrl resp rresp hc hd he hp hr hre]
          simp [Run.alerts, hp, hre]
  · rintro (⟨e, hd⟩ | ⟨resp, e, hd, he⟩)
    · rw [deleteEvent_row_raises w eventId posterUrl e hc hd]
      simp [Run.alerts, Run.removals, Effect.removed]
    · rw [deleteEvent_row_error w eventId posterUrl resp e hc hd he]
      simp [Run.alerts, Run.removals, Effect.removed]

/-- C10, at an organizer whose poster removal returns an error. -/
theorem deleteEvent_reporting_witness :
    (deleteEvent worldPosterRemovalFails "e1" "posters/a.png").alerts =
      ["Event deleted successfully"] ∧
    Effect.call "loadOrganizerEvents" ∈
      (deleteEvent worldPosterRemovalFails "e1" "posters/a.png").trace ∧
    (deleteEvent worldPosterRemovalFails "e1" "posters/a.png").result = .normal () ∧
    ("posters/a.png" ≠ "" →
      ((∃ e, worldPosterRemovalFails.storageRemove "posters/a.png" = .raises e) ∨
        ∃ rresp e, worldPosterRemovalFails.storageRemove "posters/a.png" = .returns rresp ∧
          rresp.error = some e) →
      (deleteEvent worldPosterRemovalFails "e1" "posters/a.png").removals = ["posters/a.png"] ∧
      Effect.consoleError "Failed to delete poster:" ∈
        (deleteEvent worldPosterRemovalFails "e1" "posters/a.png").trace) :=
  (deleteEvent_reporting worldPosterRemovalFails "e1" "posters/a.png" (by decide)).1
    ⟨none⟩ rfl rfl

/-! ### Splitting at a separator -/

theorem splitChars_of_not_mem (sep : Char) (cs : List Char) (h : sep ∉ cs) :
    splitChars sep cs = [cs] := by
  induction cs with
  | nil => rfl
  | cons c cs ih =>
    have hc : c ≠ sep := fun hc => h (by simp [hc])
    have hcs : sep ∉ cs := fun hm => h (List.mem_cons_of_mem _ hm)
    simp [splitChars, ih hcs, hc]

theorem splitChars_sep_cons (sep : Char) (cs : List Char) :
    splitChars sep (sep :: cs) = [] :: splitChars sep cs := by
  cases h : splitChars sep cs with
  | nil =>
    exfalso
    cases cs with
    | nil => simp [splitChars] at h
    | cons c cs =>
      simp only [splitChars] at h
      split at h <;> split at h <;> simp at h
  | cons seg rest => simp [splitChars, h]

theorem splitChars_append_sep (sep : Char) (pre rest : List Char) (h : sep ∉ pre) :
    splitChars sep (pre ++ sep :: rest) = pre :: splitChars sep rest := by
  induction pre with
  | nil => simpa using splitChars_sep_cons sep rest
  | cons c pre ih =>
    have hc : c ≠ sep := fun hc => h (by simp [hc])
    have hpre : sep ∉ pre := fun hm => h (List.mem_cons_of_mem _ hm)
    simp [splitChars, ih hpre, hc]

theorem splitChars_ne_nil (sep : Char) (cs : List Char) : splitChars sep cs ≠ [] := by
  cases cs with
  | nil => simp [splitChars]
  | cons c cs =>
    simp only [splitChars]
    split <;> split <;> simp

theorem splitChars_cons (sep c : Char) (cs seg : List Char) (rest : List (List Char))
    (h : splitChars sep cs = seg :: rest) :
    splitChars sep (c :: cs) =
      if c = sep then [] :: seg :: rest else (c :: seg) :: rest := by
  simp [splitChars, h]

theorem splitChars_ends_with (sep : Char) (pre ext : List Char) (h : sep ∉ ext) :
    ∃ seg rest, splitChars sep (pre ++ sep :: ext) = seg :: (rest ++ [ext]) := by
  induction pre with
  | nil =>
    refine ⟨[], [], ?_⟩
    rw [List.nil_append, splitChars_sep_cons, splitChars_of_not_mem sep ext h]
    rfl
  | cons c pre ih =>
    obtain ⟨seg, rest, hs⟩ := ih
    rw [List.cons_append, splitChars_cons sep c _ seg _ hs]
    by_cases hc : c = sep
    · exact ⟨[], seg :: rest, by simp [hc]⟩
    · exact ⟨c :: seg, rest, by simp [hc]⟩

theorem getLastD_append_singleton {α : Type} (l : List α) (a d : α) :
    (l ++ [a]).getLastD d = a := by
  induction l generalizing d with
  | nil => rfl
  | cons x xs ih => rw [List.cons_append, List.getLastD_cons]; exact ih x

/-- The last piece of a split is what follows the last separator. -/
theorem splitChars_getLastD (sep : Char) (pre ext : List Char) (h : sep ∉ ext) :
    (splitChars sep (pre ++ sep :: ext)).getLastD [] = ext := by
  obtain ⟨seg, rest, hs⟩ := splitChars_ends_with sep pre ext h
  rw [hs, List.getLastD_cons]
  exact getLastD_append_singleton rest ext seg

/-! ### uploadFile -/

/-- C14. When the storage upload reports no error, `uploadFile` returns exactly the
path it uploaded the file to; the path is folder + '/' + token + '_' + timestamp +
'.' + ext, where ext is the whole file name when the name has no '.', and the part
after the last '.' otherwise; when the upload reports an error whose message is m,
`uploadFile` returns no path and throws an Error whose message is 'Upload failed: '
followed by m (by 'undefined' for an error object that has no message). -/
theorem uploadFile_returns_path (w : World) (file : File) (folder : String) :
    (∀ resp, w.storageUpload (uploadPath w file folder) file = .returns resp →
      resp.error = none →
      uploadFile w file folder =
        ⟨[.storageUpload STORAGE_BUCKET (uploadPath w file folder) file],
          .normal (uploadPath w file folder)⟩) ∧
    uploadPath w file folder =
      folder ++ "/" ++ w.randomToken ++ "_" ++ w.now ++ "." ++ fileExtension file.name ∧
    ('.' ∉ file.name.toList → fileExtension file.name = file.name) ∧
    (∀ pre ext : List Char, file.name.toList = pre ++ '.' :: ext → '.' ∉ ext →
      fileExtension file.name = String.mk ext) ∧
    (∀ resp error m, w.storageUpload (uploadPath w file folder) file = .returns resp →
      resp.error = some error → error.message = some m →
      uploadFile w file folder =
        ⟨[.storageUpload STORAGE_BUCKET (uploadPath w file folder) file],
          .throw ⟨"Error", some ("Upload failed: " ++ m)⟩⟩) ∧
    (∀ resp error, w.storageUpload (uploadPath w file folder) file = .returns resp →
      resp.error = some error → error.message = none →
      uploadFile w file folder =
        ⟨[.storageUpload STORAGE_BUCKET (uploadPath w file folder) file],
          .throw ⟨"Error", some "Upload failed: undefined"⟩⟩) := by
  have hfail : ∀ resp error,
      w.storageUpload (uploadPath w file folder) file = .returns resp →
      resp.error = some error →
      uploadFile w file folder =
        ⟨[.storageUpload STORAGE_BUCKET (uploadPath w file folder) file],
          .throw (JsError.error ("Upload failed: " ++ messageText error.message))⟩ := by
    intro resp error hu he
    unfold uploadPath at hu
    unfold uploadFile uploadPath
    simp only [hu, he, await, Run.andThen, Run.throw, bind, List.append_nil]
  refine ⟨?_, ?_, ?_, ?_, ?_, ?_⟩
  · intro resp hu he
    unfold uploadPath at hu
    unfold uploadFile uploadPath
    simp only [hu, he, await, Run.andThen, bind, pure, Run.ret, List.append_nil]
  · unfold uploadPath
    simp only [String.append_assoc]
  · intro hdot
    unfold fileExtension
    rw [splitChars_of_not_mem '.' _ hdot]
    rfl
  · intro pre ext hname hdot
    unfold fileExtension
    rw [hname, splitChars_getLastD '.' pre ext hdot]
  · intro resp error m hu he hm
    rw [hfail resp error hu he, hm]
    rfl
  · intro resp error hu he hm
    rw [hfail resp error hu he, hm]
    rfl

/-- C14, at the file name 'poster.final.png' on a backend whose upload fails with
the message 'Bucket not found': the extension is 'png', the upload goes to
'posters/k3x9q_1700000000000.png' and the value thrown is the Error 'Upload failed:
Bucket not found'. -/
theorem uploadFile_returns_path_witness :
    fileExtension (⟨"poster.final.png", 1024⟩ : File).name = String.mk "png".toList ∧
    uploadFile worldUploadFails ⟨"poster.final.png", 1024⟩ "posters" =
      ⟨[.storageUpload "event-images" "posters/k3x9q_1700000000000.png"
          ⟨"poster.final.png", 1024⟩],
        .throw ⟨"Error", some "Upload failed: Bucket not found"⟩⟩ :=
  ⟨(uploadFile_returns_path worldUploadFails ⟨"poster.final.png", 1024⟩
      "posters").2.2.2.1 "poster.final".toList "png".toList (by decide) (by decide),
    (uploadFile_returns_path worldUploadFails ⟨"poster.final.png", 1024⟩
      "posters").2.2.2.2.1 ⟨some ⟨"StorageError", some "Bucket not found"⟩⟩
      ⟨"StorageError", some "Bucket not found"⟩ "Bucket not found" rfl rfl rfl⟩

/-! ### The search filter -/

/-- For a search term without a comma, the argument of `.or` has exactly the three
alternatives on title, description and venue. -/
theorem searchFilter_alternatives (t : String) (h : ',' ∉ t.toList) :
    orAlternatives (searchFilter t) =
      ["title.ilike.%" ++ t ++ "%", "description.ilike.%" ++ t ++ "%",
        "venue.ilike.%" ++ t ++ "%"] := by
  have h1 : ',' ∉ ("title.ilike.%" ++ t ++ "%").toList := by
    simp only [String.toList, String.data_append, List.mem_append, not_or]
    exact ⟨⟨by decide, h⟩, by decide⟩
  have h2 : ',' ∉ ("description.ilike.%" ++ t ++ "%").toList := by
    simp only [String.toList, String.data_append, List.mem_append, not_or]
    exact ⟨⟨by decide, h⟩, by decide⟩
  have h3 : ',' ∉ ("venue.ilike.%" ++ t ++ "%").toList := by
    simp only [String.toList, String.data_append, List.mem_append, not_or]
    exact ⟨⟨by decide, h⟩, by decide⟩
  have hform : (searchFilter t).toList =
      ("title.ilike.%" ++ t ++ "%").toList ++ ',' ::
        (("description.ilike.%" ++ t ++ "%").toList ++ ',' ::
          ("venue.ilike.%" ++ t ++ "%").toList) := by
    simp only [searchFilter, String.toList, String.data_append]
    simp
  unfold orAlternatives
  rw [hform, splitChars_append_sep ',' _ _ h1, splitChars_append_sep ',' _ _ h2,
    splitChars_of_not_mem ',' _ h3]
  rfl

set_option maxRecDepth 20000 in
/-- C19. For the search term 'a%,status.neq.approved,title.ilike.%a', the argument
that `searchAndFilterEvents` passes to `.or` has nine alternatives, not three, and
one of them is a condition on the column `status`. -/
theorem searchFilter_injected_alternatives :
    orAlternatives (searchFilter "a%,status.neq.approved,title.ilike.%a") =
      ["title.ilike.%a%", "status.neq.approved", "title.ilike.%a%",
       "description.ilike.%a%", "status.neq.approved", "title.ilike.%a%",
       "venue.ilike.%a%", "status.neq.approved", "title.ilike.%a%"] ∧
    (searchAndFilterEvents (worldWithRole (.str "student"))
      "a%,status.neq.approved,title.ilike.%a" "").queries.map Query.filters =
      [[.eq "status" "approved",
        .or (searchFilter "a%,status.neq.approved,title.ilike.%a")]] := by
  decide

/-! ### registerForEvent, errors of the register_student call -/

/-- The function `registerForEvent` never throws to its caller. -/
theorem registerForEvent_never_throws (w : World) (eventId : String) :
    (registerForEvent w eventId).threw = false := by
  rcases getCurrentUser_cases w with h | h | ⟨id, h⟩ | ⟨id, profile, h⟩
  · rw [registerForEvent_no_user w eventId _ h]; rfl
  · rw [registerForEvent_no_user w eventId _ h]; rfl
  · rw [registerForEvent_no_user w eventId _ h]; rfl
  · cases profile with
    | none => rw [registerForEvent_no_profile w eventId _ id h]; rfl
    | some profile =>
      by_cases hr : profile.role = .str "student"
      · cases hc : w.rpcRegisterStudent eventId id with
        | raises e => rw [registerForEvent_rpc_raises w eventId _ id profile e h hr hc]; rfl
        | returns resp =>
          cases he : resp.error with
          | some error =>
            rw [registerForEvent_rpc_error w eventId _ id profile resp error h hr hc he]; rfl
          | none => rw [registerForEvent_rpc_ok w eventId _ id profile resp h hr hc he]; rfl
      · rw [registerForEvent_other_role w eventId _ id profile h hr]; rfl

/-- The alerts of `registerForEvent` when the `register_student` call of a student
returned an error. -/
theorem registerForEvent_returned_error_alerts (w : World) (eventId : String)
    (user : CurrentUser) (profile : Profile) (resp : StatusResponse) (error : JsError)
    (hcu : (getCurrentUser w).result = .normal (some user))
    (hp : user.profile = some profile) (hr : profile.role = .str "student")
    (hc : w.rpcRegisterStudent eventId user.id = .returns resp)
    (he : resp.error = some error) :
    (registerForEvent w eventId).alerts =
      [if error.mentions "event_full" then "Sorry, this event is full!"
       else if error.mentions "duplicate_registration" then
         "You are already registered for this event"
       else "Failed to register for event. Please try again."] := by
  obtain ⟨uid, uprofile⟩ := user
  simp only at hp hc
  subst hp
  rcases getCurrentUser_cases w with h | h | ⟨id, h⟩ | ⟨id, profile2, h⟩
  · rw [h] at hcu; simp at hcu
  · rw [h] at hcu; simp at hcu
  · rw [h] at hcu; simp at hcu
  · rw [h] at hcu
    simp only [Completion.normal.injEq, Option.some.injEq, CurrentUser.mk.injEq] at hcu
    obtain ⟨rfl, rfl⟩ := hcu
    rw [registerForEvent_rpc_error w eventId _ _ profile resp error h hr hc he]
    split_ifs <;> simp [Run.alerts]

/-- C20. For every error returned by the `register_student` call of a student,
`registerForEvent` shows exactly one alert, which is never the success message:
'Sorry, this event is full!' if the message contains 'event_full'; otherwise 'You are
already registered for this event' if it contains 'duplicate_registration';
otherwise, also for an error without a message, 'Failed to register for event.
Please try again.'. In every world `registerForEvent` completes without throwing. -/
theorem registerForEvent_error_reporting (w : World) (eventId : String) :
    (∀ user profile resp error, (getCurrentUser w).result = .normal (some user) →
      user.profile = some profile → profile.role = .str "student" →
      w.rpcRegisterStudent eventId user.id = .returns resp → resp.error = some error →
      (∀ m, error.message = some m → jsIncludes m "event_full" = true →
        (registerForEvent w eventId).alerts = ["Sorry, this event is full!"]) ∧
      (∀ m, error.message = some m → jsIncludes m "event_full" = false →
        jsIncludes m "duplicate_registration" = true →
        (registerForEvent w eventId).alerts = ["You are already registered for this event"]) ∧
      (∀ m, error.message = some m → jsIncludes m "event_full" = false →
        jsIncludes m "duplicate_registration" = false →
        (registerForEvent w eventId).alerts =
          ["Failed to register for event. Please try again."]) ∧
      (error.message = none →
        (registerForEvent w eventId).alerts =
          ["Failed to register for event. Please try again."]) ∧
      (registerForEvent w eventId).alerts.length = 1 ∧
      "Successfully registered for the event!" ∉ (registerForEvent w eventId).alerts) ∧
    (registerForEvent w eventId).threw = false := by
  refine ⟨?_, registerForEvent_never_throws w eventId⟩
  intro user profile resp error hcu hp hr hc he
  have hal := registerForEvent_returned_error_alerts w eventId user profile resp error
    hcu hp hr hc he
  refine ⟨?_, ?_, ?_, ?_, ?_, ?_⟩
  · intro m hm h1
    rw [hal]; simp [JsError.mentions, hm, h1]
  · intro m hm h1 h2
    rw [hal]; simp [JsError.mentions, hm, h1, h2]
  · intro m hm h1 h2
    rw [hal]; simp [JsError.mentions, hm, h1, h2]
  · intro hm
    rw [hal]; simp [JsError.mentions, hm]
  · rw [hal]; rfl
  · rw [hal]
    split_ifs <;> decide

/-- C20, at a student whose `register_student` call returns an error without a
message. -/
theorem registerForEvent_error_reporting_witness :
    (registerForEvent ((worldWithRole (.str "student")).withRegistration
      (.returns ⟨some ⟨"PostgrestError", none⟩⟩)) "e1").alerts =
        ["Failed to register for event. Please try again."] :=
  ((registerForEvent_error_reporting ((worldWithRole (.str "student")).withRegistration
    (.returns ⟨some ⟨"PostgrestError", none⟩⟩)) "e1").1
    ⟨"u1", some ⟨.str "student", "Asha Rao"⟩⟩ ⟨.str "student", "Asha Rao"⟩
    ⟨some ⟨"PostgrestError", none⟩⟩ ⟨"PostgrestError", none⟩
    (by decide) rfl rfl rfl rfl).2.2.2.1 rfl

/-! ### The catalog: loadEvents and searchAndFilterEvents -/

theorem filterMap_selected_cards (gridId : String) (cards : List Card) :
    (cards.map (Effect.appendCard gridId)).filterMap Effect.selected = [] := by
  induction cards with
  | nil => rfl
  | cons c cs ih => simp [Effect.selected, ih]

theorem filterMap_card_cards (gridId : String) (cards : List Card) :
    (cards.map (Effect.appendCard gridId)).filterMap Effect.card =
      cards.map fun c => (gridId, c) := by
  induction cards with
  | nil => rfl
  | cons c cs ih => simpa [Effect.card] using ih

theorem filterMap_card_map {α : Type} (gridId : String) (f : α → Card) (l : List α) :
    (l.map (Effect.appendCard gridId ∘ f)).filterMap Effect.card =
      l.map fun x => (gridId, f x) := by
  induction l with
  | nil => rfl
  | cons x xs ih => simp [Effect.card, ih]

theorem filterMap_userMessage_cards (gridId : String) (cards : List Card) :
    (cards.map (Effect.appendCard gridId)).filter Effect.isUserMessage = [] := by
  induction cards with
  | nil => rfl
  | cons c cs ih => simp [Effect.isUserMessage, ih]

theorem loadEvents_fails (w : World) (h : (w.selectEvents loadEventsQuery).failed = true) :
    loadEvents w =
      ⟨[.setDom "eventsGrid" "innerHTML"
          "<div class=\"loading-spinner\">Loading events...</div>",
        .select loadEventsQuery, .consoleError "Load events error:",
        .setDom "eventsGrid" "innerHTML"
          "<div class=\"error-message\">Failed to load events. Please try again later.</div>"],
        .normal ()⟩ := by
  cases hq : w.selectEvents loadEventsQuery with
  | raises e => simp [loadEvents, hq, await, Run.tryCatch, Run.andThen, Run.emit, bind]
  | returns resp =>
    cases resp with
    | success rows => simp [hq, Call.failed, SingleResponse.error] at h
    | failure err =>
      simp [loadEvents, hq, SingleResponse.error, await, Run.tryCatch, Run.andThen, Run.emit,
        Run.throw, bind]

theorem loadEvents_rows (w : World) (rows : List EventRow)
    (h : w.selectEvents loadEventsQuery = .returns (.success rows)) :
    loadEvents w =
      ⟨[.setDom "eventsGrid" "innerHTML"
          "<div class=\"loading-spinner\">Loading events...</div>",
        .select loadEventsQuery, .setDom "eventsGrid" "innerHTML" ""] ++
        (if rows.length = 0 then [.setDom "noEventsMessage" "style.display" "block"]
         else .setDom "noEventsMessage" "style.display" "none" ::
           (rows.map Card.catalog).map (Effect.appendCard "eventsGrid")), .normal ()⟩ := by
  by_cases hlen : rows.length = 0
  · simp [loadEvents, h, hlen, SingleResponse.error, SingleResponse.data, await, Run.tryCatch,
      Run.andThen, Run.emit, bind]
  · simp [loadEvents, h, hlen, SingleResponse.error, SingleResponse.data, await, Run.tryCatch,
      Run.andThen, Run.emit, Run.emitAll, bind, Function.comp_def]

theorem searchAndFilterEvents_fails (w : World) (searchTerm category : String)
    (h : (w.selectEvents (searchQuery searchTerm category)).failed = true) :
    searchAndFilterEvents w searchTerm category =
      ⟨[.setDom "eventsGrid" "innerHTML" "<div class=\"loading-spinner\">Searching...</div>",
        .select (searchQuery searchTerm category), .consoleError "Search and filter error:",
        .setDom "eventsGrid" "innerHTML"
          "<div class=\"error-message\">Search failed. Please try again.</div>"],
        .normal ()⟩ := by
  cases hq : w.selectEvents (searchQuery searchTerm category) with
  | raises e =>
    simp [searchAndFilterEvents, hq, await, Run.tryCatch, Run.andThen, Run.emit, bind]
  | returns resp =>
    cases resp with
    | success rows => simp [hq, Call.failed, SingleResponse.error] at h
    | failure err =>
      simp [searchAndFilterEvents, hq, SingleResponse.error, await, Run.tryCatch, Run.andThen,
        Run.emit, Run.throw, bind]

theorem searchAndFilterEvents_rows (w : World) (searchTerm category : String)
    (rows : List EventRow)
    (h : w.selectEvents (searchQuery searchTerm category) = .returns (.success rows)) :
    searchAndFilterEvents w searchTerm category =
      ⟨[.setDom "eventsGrid" "innerHTML" "<div class=\"loading-spinner\">Searching...</div>",
        .select (searchQuery searchTerm category), .setDom "eventsGrid" "innerHTML" ""] ++
        (if rows.length = 0 then [.setDom "noEventsMessage" "style.display" "block"]
         else .setDom "noEventsMessage" "style.display" "none" ::
           (rows.map Card.catalog).map (Effect.appendCard "eventsGrid")), .normal ()⟩ := by
  by_cases hlen : rows.length = 0
  · simp [searchAndFilterEvents, h, hlen, SingleResponse.error, SingleResponse.data, await,
      Run.tryCatch, Run.andThen, Run.emit, bind]
  · simp [searchAndFilterEvents, h, hlen, SingleResponse.error, SingleResponse.data, await,
      Run.tryCatch, Run.andThen, Run.emit, Run.emitAll, bind, Function.comp_def]

/-- A call either failed or returned rows. -/
theorem Call.failed_or_rows {α : Type} (c : Call (SingleResponse α)) :
    c.failed = true ∨ ∃ rows, c = .returns (.success rows) := by
  cases c with
  | raises e => exact Or.inl rfl
  | returns resp =>
    cases resp with
    | success rows => exact Or.inr ⟨rows, rfl⟩
    | failure err => exact Or.inl rfl

/-- The one read of `loadEvents`, and its cards: one for each row returned. -/
theorem loadEvents_queries_cards (w : World) :
    (loadEvents w).queries = [loadEventsQuery] ∧
    ∀ card ∈ (loadEvents w).cards, ∃ rows event,
      w.selectEvents loadEventsQuery = .returns (.success rows) ∧ event ∈ rows ∧
      card = ("eventsGrid", .catalog event) := by
  rcases Call.failed_or_rows (w.selectEvents loadEventsQuery) with h | ⟨rows, h⟩
  · rw [loadEvents_fails w h]
    exact ⟨rfl, by simp [Run.cards, Effect.card]⟩
  · rw [loadEvents_rows w rows h]
    constructor
    · by_cases hlen : rows.length = 0
      · simp [Run.queries, hlen, Effect.selected]
      · simp only [Run.queries, hlen, if_false, List.filterMap_append, List.filterMap_cons,
          filterMap_selected_cards]
        rfl
    · intro card hcard
      by_cases hlen : rows.length = 0
      · simp [Run.cards, hlen, Effect.card] at hcard
      · simp only [Run.cards, hlen, if_false, List.filterMap_append, List.filterMap_cons,
          filterMap_card_cards] at hcard
        simp only [Effect.card, List.filterMap_nil, List.nil_append, List.map_map,
          List.mem_map, Function.comp] at hcard
        obtain ⟨event, hmem, rfl⟩ := hcard
        exact ⟨rows, event, h, hmem, rfl⟩

/-- The one read of `searchAndFilterEvents`, and its cards: one for each row
returned. -/
theorem searchAndFilterEvents_queries_cards (w : World) (searchTerm category : String) :
    (searchAndFilterEvents w searchTerm category).queries = [searchQuery searchTerm category] ∧
    ∀ card ∈ (searchAndFilterEvents w searchTerm category).cards, ∃ rows event,
      w.selectEvents (searchQuery searchTerm category) = .returns (.success rows) ∧
      event ∈ rows ∧ card = ("eventsGrid", .catalog event) := by
  rcases Call.failed_or_rows (w.selectEvents (searchQuery searchTerm category)) with
    h | ⟨rows, h⟩
  · rw [searchAndFilterEvents_fails w searchTerm category h]
    exact ⟨rfl, by simp [Run.cards, Effect.card]⟩
  · rw [searchAndFilterEvents_rows w searchTerm category rows h]
    constructor
    · by_cases hlen : rows.length = 0
      · simp [Run.queries, hlen, Effect.selected]
      · simp only [Run.queries, hlen, if_false, List.filterMap_append, List.filterMap_cons,
          filterMap_selected_cards]
        rfl
    · intro card hcard
      by_cases hlen : rows.length = 0
      · simp [Run.cards, hlen, Effect.card] at hcard
      · simp only [Run.cards, hlen, if_false, List.filterMap_append, List.filterMap_cons,
          filterMap_card_cards] at hcard
        simp only [Effect.card, List.filterMap_nil, List.nil_append, List.map_map,
          List.mem_map, Function.comp] at hcard
        obtain ⟨event, hmem, rfl⟩ := hcard
        exact ⟨rows, event, h, hmem, rfl⟩

/-- A row that a query with the filter `status = approved` admits is approved. -/
theorem Query.admits_status (orHolds : String → EventRow → Bool) (q : Query) (e : EventRow)
    (value : String) (hf : Filter.eq "status" value ∈ q.filters)
    (h : q.admits orHolds e = true) : e.status = value := by
  unfold Query.admits at h
  rw [List.all_eq_true] at h
  have := h _ hf
  simpa [EventRow.column] using this

/-- C12. For every search term and every category, the one query that `loadEvents`
sends and the one query that `searchAndFilterEvents` sends have `status = approved`
among their filters, which all have to hold; every card put into the catalog grid is
the card of a row that the query returned, so when the data service returns only
rows that satisfy the filters of the query, every card is for an approved event. -/
theorem catalog_only_approved (w : World) (searchTerm category : String) :
    (loadEvents w).queries = [loadEventsQuery] ∧
    Filter.eq "status" "approved" ∈ loadEventsQuery.filters ∧
    (searchAndFilterEvents w searchTerm category).queries =
      [searchQuery searchTerm category] ∧
    Filter.eq "status" "approved" ∈ (searchQuery searchTerm category).filters ∧
    (∀ orHolds : String → EventRow → Bool,
      (∀ q ∈ [loadEventsQuery, searchQuery searchTerm category], ∀ rows,
        w.selectEvents q = .returns (.success rows) →
        ∀ row ∈ rows, q.admits orHolds row = true) →
      ∀ card, card ∈ (loadEvents w).cards ∨
          card ∈ (searchAndFilterEvents w searchTerm category).cards →
        ∃ event, card = ("eventsGrid", .catalog event) ∧ event.status = "approved") := by
  have hf1 : Filter.eq "status" "approved" ∈ loadEventsQuery.filters := by
    simp [loadEventsQuery]
  have hf2 : Filter.eq "status" "approved" ∈ (searchQuery searchTerm category).filters := by
    simp [searchQuery]
  refine ⟨(loadEvents_queries_cards w).1, hf1,
    (searchAndFilterEvents_queries_cards w searchTerm category).1, hf2, ?_⟩
  intro orHolds hhonest card hcard
  rcases hcard with hcard | hcard
  · obtain ⟨rows, event, hq, hmem, rfl⟩ := (loadEvents_queries_cards w).2 card hcard
    exact ⟨event, rfl, Query.admits_status orHolds _ event _ hf1
      (hhonest _ (by simp) rows hq event hmem)⟩
  · obtain ⟨rows, event, hq, hmem, rfl⟩ :=
      (searchAndFilterEvents_queries_cards w searchTerm category).2 card hcard
    exact ⟨event, rfl, Query.admits_status orHolds _ event _ hf2
      (hhonest _ (by simp) rows hq event hmem)⟩

/-- C12, at a data service that returns one approved event. -/
theorem catalog_only_approved_witness :
    ∃ event, (("eventsGrid", Card.catalog sampleEvent) : String × Card) =
      ("eventsGrid", .catalog event) ∧ event.status = "approved" :=
  (catalog_only_approved (worldWithEvents (.str "student") [sampleEvent]) "robot" "").2.2.2.2
    (fun _ _ => true)
    (by
      intro q hq rows hrows row hrow
      have hrows2 : rows = [sampleEvent] := by
        simp only [worldWithEvents, Call.returns.injEq, SingleResponse.success.injEq] at hrows
        exact hrows.symm
      subst hrows2
      simp only [List.mem_singleton] at hrow
      subst hrow
      simp only [List.mem_cons, List.mem_singleton, List.mem_nil_iff, or_false] at hq
      rcases hq with rfl | rfl <;> decide)
    ("eventsGrid", .catalog sampleEvent) (Or.inl (by decide))

/-! ### loadStudentRegistrations and loadOrganizerEvents -/

theorem getCurrentUser_queries (w : World) :
    (getCurrentUser w).trace.filterMap Effect.selected = [] := by
  rw [List.filterMap_eq_nil_iff]
  intro e he
  rcases getCurrentUser_trace w e he with rfl | ⟨id, rfl⟩ | rfl <;> rfl

theorem getCurrentUser_cards (w : World) :
    (getCurrentUser w).trace.filterMap Effect.card = [] := by
  rw [List.filterMap_eq_nil_iff]
  intro e he
  rcases getCurrentUser_trace w e he with rfl | ⟨id, rfl⟩ | rfl <;> rfl

/-- The function `getCurrentUser` shows the user no message. -/
theorem getCurrentUser_userMessages (w : World) :
    (getCurrentUser w).trace.filter Effect.isUserMessage = [] := by
  rw [List.filter_eq_nil_iff]
  intro e he
  rcases getCurrentUser_trace w e he with rfl | ⟨id, rfl⟩ | rfl <;> simp [Effect.isUserMessage]

theorem updateStudentStats_run (w : World) (total upcoming : Nat) :
    updateStudentStats w total upcoming =
      ⟨(if w.hasElement "totalRegistrations" then [.setNumber "totalRegistrations" total]
          else []) ++
        (if w.hasElement "upcomingEvents" then [.setNumber "upcomingEvents" upcoming]
          else []), .normal ()⟩ := by
  by_cases h1 : w.hasElement "totalRegistrations" = true <;>
  by_cases h2 : w.hasElement "upcomingEvents" = true <;>
  simp [updateStudentStats, h1, h2, Run.andThen, Run.emit, bind, pure, Run.ret]

theorem updateOrganizerStats_run (w : World) (total approved : Nat) :
    updateOrganizerStats w total approved =
      ⟨(if w.hasElement "totalEvents" then [.setNumber "totalEvents" total] else []) ++
        (if w.hasElement "approvedEvents" then [.setNumber "approvedEvents" approved]
          else []), .normal ()⟩ := by
  by_cases h1 : w.hasElement "totalEvents" = true <;>
  by_cases h2 : w.hasElement "approvedEvents" = true <;>
  simp [updateOrganizerStats, h1, h2, Run.andThen, Run.emit, bind, pure, Run.ret]

theorem statsEffects_selected (w : World) (first second : String) (a b : Nat) :
    (statsEffects w first second a b).filterMap Effect.selected = [] := by
  unfold statsEffects
  split_ifs <;> rfl

theorem statsEffects_card (w : World) (first second : String) (a b : Nat) :
    (statsEffects w first second a b).filterMap Effect.card = [] := by
  unfold statsEffects
  split_ifs <;> rfl

theorem loadStudentRegistrations_no_user (w : World) (t : List Effect)
    (hcu : getCurrentUser w = ⟨t, .normal none⟩) :
    loadStudentRegistrations w = ⟨t, .normal ()⟩ := by
  simp [loadStudentRegistrations, hcu, Run.tryCatch, Run.andThen, bind, pure, Run.ret]

theorem loadStudentRegistrations_fails (w : World) (t : List Effect) (user : CurrentUser)
    (hcu : getCurrentUser w = ⟨t, .normal (some user)⟩)
    (h : (w.selectRegistrations (studentRegistrationsQuery user.id)).failed = true) :
    loadStudentRegistrations w =
      ⟨t ++ [.setDom "registeredEventsGrid" "innerHTML"
          "<div class=\"loading-spinner\">Loading your registrations...</div>",
        .select (studentRegistrationsQuery user.id),
        .consoleError "Load registrations error:",
        .setDom "registeredEventsGrid" "innerHTML"
          "<div class=\"error-message\">Failed to load registrations</div>"], .normal ()⟩ := by
  cases hq : w.selectRegistrations (studentRegistrationsQuery user.id) with
  | raises e =>
    simp [loadStudentRegistrations, hcu, hq, await, Run.tryCatch, Run.andThen, Run.emit, bind]
  | returns resp =>
    cases resp with
    | success rows => simp [hq, Call.failed, SingleResponse.error] at h
    | failure err =>
      simp [loadStudentRegistrations, hcu, hq, SingleResponse.error, await, Run.tryCatch,
        Run.andThen, Run.emit, Run.throw, bind]

theorem loadStudentRegistrations_rows (w : World) (t : List Effect) (user : CurrentUser)
    (rows : List RegistrationRow)
    (hcu : getCurrentUser w = ⟨t, .normal (some user)⟩)
    (h : w.selectRegistrations (studentRegistrationsQuery user.id) =
      .returns (.success rows)) :
    loadStudentRegistrations w =
      ⟨t ++ [.setDom "registeredEventsGrid" "innerHTML"
          "<div class=\"loading-spinner\">Loading your registrations...</div>",
        .select (studentRegistrationsQuery user.id),
        .setDom "registeredEventsGrid" "innerHTML" ""] ++
        (if rows.length = 0 then
          .setDom "noRegistrations" "style.display" "block" ::
            statsEffects w "totalRegistrations" "upcomingEvents" 0 0
         else
          match registeredEvents rows with
          | none =>
            [.setDom "noRegistrations" "style.display" "none",
              .consoleError "Load registrations error:",
              .setDom "registeredEventsGrid" "innerHTML"
                "<div class=\"error-message\">Failed to load registrations</div>"]
          | some events =>
            .setDom "noRegistrations" "style.display" "none" ::
              (statsEffects w "totalRegistrations" "upcomingEvents" rows.length
                (events.filter fun pair => w.isUpcoming pair.1.event_date).length ++
              (events.map fun pair => Card.student pair.1 pair.2).map
                (Effect.appendCard "registeredEventsGrid"))), .normal ()⟩ := by
  by_cases hlen : rows.length = 0
  · simp [loadStudentRegistrations, hcu, h, hlen, updateStudentStats_run, statsEffects,
      SingleResponse.error, SingleResponse.data, await, Run.tryCatch, Run.andThen, Run.emit,
      bind]
  · cases hre : registeredEvents rows with
    | none =>
      simp [loadStudentRegistrations, hcu, h, hlen, hre, SingleResponse.error,
        SingleResponse.data, await, Run.tryCatch, Run.andThen, Run.emit, Run.throw, bind]
    | some events =>
      simp [loadStudentRegistrations, hcu, h, hlen, hre, updateStudentStats_run, statsEffects,
        SingleResponse.error, SingleResponse.data, await, Run.tryCatch, Run.andThen, Run.emit,
        Run.emitAll, bind, Function.comp_def]

theorem loadOrganizerEvents_no_user (w : World) (t : List Effect)
    (hcu : getCurrentUser w = ⟨t, .normal none⟩) :
    loadOrganizerEvents w = ⟨t, .normal ()⟩ := by
  simp [loadOrganizerEvents, hcu, Run.tryCatch, Run.andThen, bind, pure, Run.ret]

theorem loadOrganizerEvents_fails (w : World) (t : List Effect) (user : CurrentUser)
    (hcu : getCurrentUser w = ⟨t, .normal (some user)⟩)
    (h : (w.selectEvents (organizerEventsQuery user.id)).failed = true) :
    loadOrganizerEvents w =
      ⟨t ++ [.setDom "myEventsGrid" "innerHTML"
          "<div class=\"loading-spinner\">Loading your events...</div>",
        .select (organizerEventsQuery user.id),
        .consoleError "Load organizer events error:",
        .setDom "myEventsGrid" "innerHTML"
          "<div class=\"error-message\">Failed to load events</div>"], .normal ()⟩ := by
  cases hq : w.selectEvents (organizerEventsQuery user.id) with
  | raises e =>
    simp [loadOrganizerEvents, hcu, hq, await, Run.tryCatch, Run.andThen, Run.emit, bind]
  | returns resp =>
    cases resp with
    | success rows => simp [hq, Call.failed, SingleResponse.error] at h
    | failure err =>
      simp [loadOrganizerEvents, hcu, hq, SingleResponse.error, await, Run.tryCatch,
        Run.andThen, Run.emit, Run.throw, bind]

theorem loadOrganizerEvents_rows (w : World) (t : List Effect) (user : CurrentUser)
    (rows : List EventRow)
    (hcu : getCurrentUser w = ⟨t, .normal (some user)⟩)
    (h : w.selectEvents (organizerEventsQuery user.id) = .returns (.success rows)) :
    loadOrganizerEvents w =
      ⟨t ++ [.setDom "myEventsGrid" "innerHTML"
          "<div class=\"loading-spinner\">Loading your events...</div>",
        .select (organizerEventsQuery user.id),
        .setDom "myEventsGrid" "innerHTML" ""] ++
        (if rows.length = 0 then
          .setDom "noEvents" "style.display" "block" ::
            statsEffects w "totalEvents" "approvedEvents" 0 0
         else
          .setDom "noEvents" "style.display" "none" ::
            (statsEffects w "totalEvents" "approvedEvents" rows.length
              (rows.filter fun e => e.status = "approved").length ++
            (rows.map Card.organizer).map (Effect.appendCard "myEventsGrid"))),
        .normal ()⟩ := by
  by_cases hlen : rows.length = 0
  · simp [loadOrganizerEvents, hcu, h, hlen, updateOrganizerStats_run, statsEffects,
      SingleResponse.error, SingleResponse.data, await, Run.tryCatch, Run.andThen, Run.emit,
      bind]
  · simp [loadOrganizerEvents, hcu, h, hlen, updateOrganizerStats_run, statsEffects,
      SingleResponse.error, SingleResponse.data, await, Run.tryCatch, Run.andThen, Run.emit,
      Run.emitAll, bind, Function.comp_def]

/-! ### loadFacultyEvents -/

theorem updateFacultyStats_raises (w : World) (e : JsError)
    (h : w.selectEvents facultyStatsQuery = .raises e) :
    updateFacultyStats w =
      ⟨[.select facultyStatsQuery, .consoleError "Update stats error:"], .normal ()⟩ := by
  simp [updateFacultyStats, h, await, Run.tryCatch, Run.andThen, Run.emit, bind]

theorem updateFacultyStats_returns (w : World) (resp : SingleResponse (List EventRow))
    (h : w.selectEvents facultyStatsQuery = .returns resp) :
    updateFacultyStats w =
      ⟨[.select facultyStatsQuery, .setNumber "pendingCount" (countStatus "pending" resp.data),
        .setNumber "approvedCount" (countStatus "approved" resp.data),
        .setNumber "rejectedCount" (countStatus "rejected" resp.data)], .normal ()⟩ := by
  simp [updateFacultyStats, h, await, Run.tryCatch, Run.andThen, Run.emit, bind]

/-- The function `updateFacultyStats` never throws, issues one read and shows the
user no message. -/
theorem updateFacultyStats_quiet (w : World) :
    (updateFacultyStats w).result = .normal () ∧
    (updateFacultyStats w).trace.filterMap Effect.selected = [facultyStatsQuery] ∧
    (updateFacultyStats w).trace.filterMap Effect.card = [] ∧
    (updateFacultyStats w).trace.filter Effect.isUserMessage = [] := by
  cases h : w.selectEvents facultyStatsQuery with
  | raises e =>
    rw [updateFacultyStats_raises w e h]
    exact ⟨rfl, rfl, rfl, by simp [Effect.isUserMessage]⟩
  | returns resp =>
    rw [updateFacultyStats_returns w resp h]
    exact ⟨rfl, rfl, rfl, by simp [Effect.isUserMessage]⟩

theorem loadFacultyEvents_fails (w : World) (filter : String)
    (h : (w.selectEvents (facultyEventsQuery filter)).failed = true) :
    loadFacultyEvents w filter =
      ⟨[.setDom "eventsGrid" "innerHTML"
          "<div class=\"loading-spinner\">Loading events...</div>",
        .select (facultyEventsQuery filter), .consoleError "Load faculty events error:",
        .setDom "eventsGrid" "innerHTML"
          "<div class=\"error-message\">Failed to load events</div>"], .normal ()⟩ := by
  cases hq : w.selectEvents (facultyEventsQuery filter) with
  | raises e => simp [loadFacultyEvents, hq, await, Run.tryCatch, Run.andThen, Run.emit, bind]
  | returns resp =>
    cases resp with
    | success rows => simp [hq, Call.failed, SingleResponse.error] at h
    | failure err =>
      simp [loadFacultyEvents, hq, SingleResponse.error, await, Run.tryCatch, Run.andThen,
        Run.emit, Run.throw, bind]

theorem loadFacultyEvents_rows (w : World) (filter : String) (rows : List EventRow)
    (h : w.selectEvents (facultyEventsQuery filter) = .returns (.success rows)) :
    loadFacultyEvents w filter =
      ⟨[.setDom "eventsGrid" "innerHTML"
          "<div class=\"loading-spinner\">Loading events...</div>",
        .select (facultyEventsQuery filter)] ++ (updateFacultyStats w).trace ++
        (.setDom "eventsGrid" "innerHTML" "" ::
          (if rows.length = 0 then [.setDom "noEvents" "style.display" "block"]
           else .setDom "noEvents" "style.display" "none" ::
             (rows.map fun event => Card.faculty event filter).map
               (Effect.appendCard "eventsGrid"))), .normal ()⟩ := by
  have hres := (updateFacultyStats_quiet w).1
  by_cases hlen : rows.length = 0
  · simp [loadFacultyEvents, h, hlen, hres, SingleResponse.error, SingleResponse.data, await,
      Run.tryCatch, Run.andThen, Run.emit, bind]
  · simp [loadFacultyEvents, h, hlen, hres, SingleResponse.error, SingleResponse.data, await,
      Run.tryCatch, Run.andThen, Run.emit, Run.emitAll, bind, Function.comp_def]

/-- The reads of `loadFacultyEvents`: the read of the events with the status of the
filter, and after it returned rows the read of `updateFacultyStats`. -/
theorem loadFacultyEvents_queries (w : World) (filter : String) :
    ((w.selectEvents (facultyEventsQuery filter)).failed = true →
      (loadFacultyEvents w filter).queries = [facultyEventsQuery filter]) ∧
    (∀ rows, w.selectEvents (facultyEventsQuery filter) = .returns (.success rows) →
      (loadFacultyEvents w filter).queries = [facultyEventsQuery filter, facultyStatsQuery] ∧
      (loadFacultyEvents w filter).cards =
        rows.map fun event => ("eventsGrid", Card.faculty event filter)) := by
  constructor
  · intro h
    rw [loadFacultyEvents_fails w filter h]
    rfl
  · intro rows h
    have hq := (updateFacultyStats_quiet w).2.1
    have hc := (updateFacultyStats_quiet w).2.2.1
    rw [loadFacultyEvents_rows w filter rows h]
    constructor
    · simp only [Run.queries, List.filterMap_append, List.filterMap_cons, hq]
      by_cases hlen : rows.length = 0
      · simp [hlen, Effect.selected]
      · simp [hlen, Effect.selected, filterMap_selected_cards]
    · simp only [Run.cards, List.filterMap_append, List.filterMap_cons, hc]
      by_cases hlen : rows.length = 0
      · have hnil : rows = [] := List.length_eq_zero.mp hlen
        simp [hnil, Effect.card]
      · simp only [hlen, if_false, List.filterMap_cons, Effect.card, List.map_map]
        exact filterMap_card_map _ _ _

/-! ### The reads of the dashboards -/

/-- The reads of `loadStudentRegistrations` for a signed-in user. -/
theorem loadStudentRegistrations_queries (w : World) (user : CurrentUser)
    (hcu : (getCurrentUser w).result = .normal (some user)) :
    (loadStudentRegistrations w).queries = [studentRegistrationsQuery user.id] := by
  have hq := getCurrentUser_queries w
  cases hrun : getCurrentUser w with
  | mk t res =>
    rw [hrun] at hcu hq
    simp only at hcu hq
    subst hcu
    rcases Call.failed_or_rows (w.selectRegistrations (studentRegistrationsQuery user.id)) with
      h | ⟨rows, h⟩
    · rw [loadStudentRegistrations_fails w t user hrun h]
      simp only [Run.queries, List.filterMap_append, hq]
      rfl
    · rw [loadStudentRegistrations_rows w t user rows hrun h]
      simp only [Run.queries, List.filterMap_append, hq]
      by_cases hlen : rows.length = 0
      · simp [hlen, Effect.selected, statsEffects_selected]
      · cases hre : registeredEvents rows with
        | none => simp [hlen, Effect.selected]
        | some events =>
          simp [hlen, Effect.selected, statsEffects_selected, filterMap_selected_cards]

/-- The reads of `loadOrganizerEvents` for a signed-in user. -/
theorem loadOrganizerEvents_queries (w : World) (user : CurrentUser)
    (hcu : (getCurrentUser w).result = .normal (some user)) :
    (loadOrganizerEvents w).queries = [organizerEventsQuery user.id] := by
  have hq := getCurrentUser_queries w
  cases hrun : getCurrentUser w with
  | mk t res =>
    rw [hrun] at hcu hq
    simp only at hcu hq
    subst hcu
    rcases Call.failed_or_rows (w.selectEvents (organizerEventsQuery user.id)) with
      h | ⟨rows, h⟩
    · rw [loadOrganizerEvents_fails w t user hrun h]
      simp only [Run.queries, List.filterMap_append, hq]
      rfl
    · rw [loadOrganizerEvents_rows w t user rows hrun h]
      simp only [Run.queries, List.filterMap_append, hq]
      by_cases hlen : rows.length = 0
      · simp [hlen, Effect.selected, statsEffects_selected]
      · simp [hlen, Effect.selected, statsEffects_selected, filterMap_selected_cards]

/-- The result of `getCurrentUser` is a user or none. -/
theorem getCurrentUser_result (w : World) :
    ∃ cu, (getCurrentUser w).result = .normal cu := by
  rcases getCurrentUser_cases w with h | h | ⟨id, h⟩ | ⟨id, profile, h⟩ <;> rw [h] <;>
    exact ⟨_, rfl⟩

/-- C13 fails for `loadFacultyEvents`: called without an argument on a data service
that answers its first read, it issues a second read of `events`, which has no
filter on the status. -/
theorem loadFacultyEvents_stats_query_counterexample :
    (loadFacultyEventsDefault (worldWithEvents (.str "faculty") [sampleEvent])).queries =
      [facultyEventsQuery "pending", facultyStatsQuery] ∧
    facultyStatsQuery.table = "events" ∧ facultyStatsQuery.filters = [] := by
  decide

/-- C13 as amended. Every read of `loadStudentRegistrations` is the read of the
registrations whose `user_id` is the id of the current user, every read of
`loadOrganizerEvents` is the read of the events whose `organizer_id` is that id, and
with no user both functions do nothing beyond `getCurrentUser`. Called without an
argument, `loadFacultyEvents` first reads the events whose status is 'pending', builds
its cards from the rows of that read only, and issues one more read, the read of
`updateFacultyStats`, which has no filter. -/
theorem dashboard_reads_scoped (w : World) :
    (∀ q ∈ (loadStudentRegistrations w).queries, ∃ user,
      (getCurrentUser w).result = .normal (some user) ∧ q.table = "registrations" ∧
      q.filters = [.eq "user_id" user.id]) ∧
    (∀ q ∈ (loadOrganizerEvents w).queries, ∃ user,
      (getCurrentUser w).result = .normal (some user) ∧ q.table = "events" ∧
      q.filters = [.eq "organizer_id" user.id]) ∧
    ((getCurrentUser w).result = .normal none →
      loadStudentRegistrations w = ⟨(getCurrentUser w).trace, .normal ()⟩ ∧
      loadOrganizerEvents w = ⟨(getCurrentUser w).trace, .normal ()⟩) ∧
    (∀ q ∈ (loadFacultyEventsDefault w).queries,
      (q.table = "events" ∧ q.filters = [.eq "status" "pending"]) ∨ q = facultyStatsQuery) ∧
    (loadFacultyEventsDefault w).queries.head? = some (facultyEventsQuery "pending") ∧
    (∀ card ∈ (loadFacultyEventsDefault w).cards, ∃ rows event,
      w.selectEvents (facultyEventsQuery "pending") = .returns (.success rows) ∧
      event ∈ rows ∧ card = ("eventsGrid", .faculty event "pending")) := by
  refine ⟨?_, ?_, ?_, ?_, ?_, ?_⟩
  · intro q hq
    obtain ⟨cu, hcu⟩ := getCurrentUser_result w
    cases cu with
    | none =>
      cases hrun : getCurrentUser w with
      | mk t res =>
        rw [hrun] at hcu
        simp only at hcu
        subst hcu
        have hnone := getCurrentUser_queries w
        rw [hrun] at hnone
        rw [loadStudentRegistrations_no_user w t hrun] at hq
        simp only [Run.queries] at hq
        rw [hnone] at hq
        simp at hq
    | some user =>
      rw [loadStudentRegistrations_queries w user hcu] at hq
      simp only [List.mem_singleton] at hq
      subst hq
      exact ⟨user, hcu, rfl, rfl⟩
  · intro q hq
    obtain ⟨cu, hcu⟩ := getCurrentUser_result w
    cases cu with
    | none =>
      cases hrun : getCurrentUser w with
      | mk t res =>
        rw [hrun] at hcu
        simp only at hcu
        subst hcu
        have hnone := getCurrentUser_queries w
        rw [hrun] at hnone
        rw [loadOrganizerEvents_no_user w t hrun] at hq
        simp only [Run.queries] at hq
        rw [hnone] at hq
        simp at hq
    | some user =>
      rw [loadOrganizerEvents_queries w user hcu] at hq
      simp only [List.mem_singleton] at hq
      subst hq
      exact ⟨user, hcu, rfl, rfl⟩
  · intro hnone
    cases hrun : getCurrentUser w with
    | mk t res =>
      rw [hrun] at hnone
      simp only at hnone
      subst hnone
      exact ⟨loadStudentRegistrations_no_user w t hrun, loadOrganizerEvents_no_user w t hrun⟩
  · intro q hq
    unfold loadFacultyEventsDefault at hq
    rcases Call.failed_or_rows (w.selectEvents (facultyEventsQuery "pending")) with
      h | ⟨rows, h⟩
    · rw [(loadFacultyEvents_queries w "pending").1 h] at hq
      simp only [List.mem_singleton] at hq
      subst hq
      exact Or.inl ⟨rfl, rfl⟩
    · rw [((loadFacultyEvents_queries w "pending").2 rows h).1] at hq
      simp only [List.mem_cons, List.mem_singleton, List.mem_nil_iff, or_false] at hq
      rcases hq with rfl | rfl
      · exact Or.inl ⟨rfl, rfl⟩
      · exact Or.inr rfl
  · unfold loadFacultyEventsDefault
    rcases Call.failed_or_rows (w.selectEvents (facultyEventsQuery "pending")) with
      h | ⟨rows, h⟩
    · rw [(loadFacultyEvents_queries w "pending").1 h]; rfl
    · rw [((loadFacultyEvents_queries w "pending").2 rows h).1]; rfl
  · intro card hcard
    unfold loadFacultyEventsDefault at hcard
    rcases Call.failed_or_rows (w.selectEvents (facultyEventsQuery "pending")) with
      h | ⟨rows, h⟩
    · rw [loadFacultyEvents_fails w "pending" h] at hcard
      simp [Run.cards, Effect.card] at hcard
    · rw [((loadFacultyEvents_queries w "pending").2 rows h).2] at hcard
      simp only [List.mem_map] at hcard
      obtain ⟨event, hmem, rfl⟩ := hcard
      exact ⟨rows, event, h, hmem, rfl⟩

/-- C13 as amended, at a signed-in student. -/
theorem dashboard_reads_scoped_witness :
    ∃ user, (getCurrentUser (worldWithRole (.str "student"))).result = .normal (some user) ∧
      (studentRegistrationsQuery "u1").table = "registrations" ∧
      (studentRegistrationsQuery "u1").filters = [.eq "user_id" user.id] :=
  (dashboard_reads_scoped (worldWithRole (.str "student"))).1
    (studentRegistrationsQuery "u1") (by decide)

/-! ### viewEventDetails -/

theorem viewEventDetails_fails (w : World) (eventId : String)
    (h : (w.selectEvent (eventDetailsQuery eventId)).failed = true) :
    viewEventDetails w eventId =
      ⟨[.select (eventDetailsQuery eventId), .consoleError "View event details error:",
        .alert "Failed to load event details"], .normal ()⟩ := by
  cases hq : w.selectEvent (eventDetailsQuery eventId) with
  | raises e => simp [viewEventDetails, hq, await, Run.tryCatch, Run.andThen, Run.emit, bind]
  | returns resp =>
    cases resp with
    | success rows => simp [hq, Call.failed, SingleResponse.error] at h
    | failure err =>
      simp [viewEventDetails, hq, SingleResponse.error, await, Run.tryCatch, Run.andThen,
        Run.emit, Run.throw, bind]

theorem viewEventDetails_no_user (w : World) (eventId : String) (event : EventRow)
    (t : List Effect) (h : w.selectEvent (eventDetailsQuery eventId) = .returns (.success event))
    (hcu : getCurrentUser w = ⟨t, .normal none⟩) :
    viewEventDetails w eventId =
      ⟨.select (eventDetailsQuery eventId) :: (t ++ [.showEventModal event .loginToRegister]),
        .normal ()⟩ := by
  simp [viewEventDetails, h, hcu, lookupRegistration, isStudent, showEventModal,
    SingleResponse.error, SingleResponse.data, await, Run.tryCatch, Run.andThen, Run.emit, bind,
    pure, Run.ret]

theorem viewEventDetails_no_profile (w : World) (eventId : String) (event : EventRow)
    (t : List Effect) (id : String)
    (h : w.selectEvent (eventDetailsQuery eventId) = .returns (.success event))
    (hcu : getCurrentUser w = ⟨t, .normal (some ⟨id, none⟩)⟩) :
    viewEventDetails w eventId =
      ⟨.select (eventDetailsQuery eventId) :: (t ++ [.consoleError "View event details error:",
        .alert "Failed to load event details"]), .normal ()⟩ := by
  simp [viewEventDetails, h, hcu, lookupRegistration, isStudent, SingleResponse.error,
    SingleResponse.data, await, Run.tryCatch, Run.andThen, Run.emit, Run.throw, bind]

theorem viewEventDetails_other_role (w : World) (eventId : String) (event : EventRow)
    (t : List Effect) (id : String) (profile : Profile)
    (h : w.selectEvent (eventDetailsQuery eventId) = .returns (.success event))
    (hcu : getCurrentUser w = ⟨t, .normal (some ⟨id, some profile⟩)⟩)
    (hr : profile.role ≠ .str "student") :
    viewEventDetails w eventId =
      ⟨.select (eventDetailsQuery eventId) :: (t ++ [.showEventModal event .onlyStudents]),
        .normal ()⟩ := by
  simp [viewEventDetails, h, hcu, hr, lookupRegistration, isStudent, showEventModal,
    SingleResponse.error, SingleResponse.data, await, Run.tryCatch, Run.andThen, Run.emit, bind,
    pure, Run.ret]

theorem viewEventDetails_lookup_raises (w : World) (eventId : String) (event : EventRow)
    (t : List Effect) (id : String) (profile : Profile) (e : JsError)
    (h : w.selectEvent (eventDetailsQuery eventId) = .returns (.success event))
    (hcu : getCurrentUser w = ⟨t, .normal (some ⟨id, some profile⟩)⟩)
    (hr : profile.role = .str "student")
    (hl : w.selectRegistration (registrationLookupQuery eventId id) = .raises e) :
    viewEventDetails w eventId =
      ⟨.select (eventDetailsQuery eventId) :: (t ++
        [.select (registrationLookupQuery eventId id),
         .consoleError "View event details error:", .alert "Failed to load event details"]),
        .normal ()⟩ := by
  simp [viewEventDetails, h, hcu, hr, hl, lookupRegistration, isStudent, SingleResponse.error,
    SingleResponse.data, await, Run.tryCatch, Run.andThen, Run.emit, Run.throw, bind, pure,
    Run.ret]

theorem viewEventDetails_lookup_returns (w : World) (eventId : String) (event : EventRow)
    (t : List Effect) (id : String) (profile : Profile)
    (rresp : SingleResponse RegistrationRow)
    (h : w.selectEvent (eventDetailsQuery eventId) = .returns (.success event))
    (hcu : getCurrentUser w = ⟨t, .normal (some ⟨id, some profile⟩)⟩)
    (hr : profile.role = .str "student")
    (hl : w.selectRegistration (registrationLookupQuery eventId id) = .returns rresp) :
    viewEventDetails w eventId =
      ⟨.select (eventDetailsQuery eventId) :: (t ++
        [.select (registrationLookupQuery eventId id),
         .showEventModal event
           (if rresp.data.isSome then .alreadyRegistered else .registerNow event.id)]),
        .normal ()⟩ := by
  by_cases hd : rresp.data.isSome = true
  · simp [viewEventDetails, h, hcu, hr, hl, hd, lookupRegistration, isStudent, showEventModal,
      SingleResponse.error, SingleResponse.data, await, Run.tryCatch, Run.andThen, Run.emit,
      bind, pure, Run.ret]
  · simp [viewEventDetails, h, hcu, hr, hl, hd, lookupRegistration, isStudent, showEventModal,
      SingleResponse.error, SingleResponse.data, await, Run.tryCatch, Run.andThen, Run.emit,
      bind, pure, Run.ret]

set_option maxRecDepth 20000 in
/-- C15. The student `u1` has a registration for the event `e1` (a row with
`event_id` e1 and `user_id` u1, which the query of `loadStudentRegistrations` finds),
but `viewEventDetails('e1')` looks the registration up by `event_id` and
`student_id`, finds no row, and the modal shows 'Register Now', not the disabled
'Already Registered' button. -/
theorem viewEventDetails_registered_student_register_now :
    (viewEventDetails (worldWithRegistrations [sampleRegistration]) "e1").footers =
      [.registerNow "e1"] ∧
    (viewEventDetails (worldWithRegistrations [sampleRegistration]) "e1").queries =
      [eventDetailsQuery "e1", registrationLookupQuery "e1" "u1"] ∧
    (registrationLookupQuery "e1" "u1").filters =
      [.eq "event_id" "e1", .eq "student_id" "u1"] ∧
    sampleRegistration.event_id = "e1" ∧ sampleRegistration.user_id = "u1" ∧
    (worldWithRegistrations [sampleRegistration]).selectRegistrations
      (studentRegistrationsQuery "u1") = .returns (.success [sampleRegistration]) := by
  decide

/-! ### unregisterFromEvent, approveEvent and rejectEvent -/

/-- A write either failed or returned without error. -/
theorem Call.failedStatus_or_ok (c : Call StatusResponse) :
    c.failedStatus = true ∨ ∃ resp, c = .returns resp ∧ resp.error = none := by
  cases c with
  | raises e => exact Or.inl rfl
  | returns resp =>
    cases he : resp.error with
    | none => exact Or.inr ⟨resp, rfl, he⟩
    | some e => exact Or.inl (by simp [Call.failedStatus, he])

theorem unregisterFromEvent_declined (w : World) (registrationId : String)
    (hc : w.confirm unregisterQuestion = false) :
    unregisterFromEvent w registrationId = ⟨[.confirm unregisterQuestion], .normal ()⟩ := by
  simp [unregisterFromEvent, hc, Run.andThen, Run.emit, bind, pure, Run.ret]

theorem unregisterFromEvent_fails (w : World) (registrationId : String)
    (hc : w.confirm unregisterQuestion = true)
    (h : (w.mutate (unregisterMutation registrationId)).failedStatus = true) :
    unregisterFromEvent w registrationId =
      ⟨[.confirm unregisterQuestion, .mutate (unregisterMutation registrationId),
        .consoleError "Unregister error:", .alert "Failed to cancel registration"],
        .normal ()⟩ := by
  cases hm : w.mutate (unregisterMutation registrationId) with
  | raises e =>
    simp [unregisterFromEvent, hc, hm, await, Run.tryCatch, Run.andThen, Run.emit, bind]
  | returns resp =>
    cases he : resp.error with
    | none => simp [hm, Call.failedStatus, he] at h
    | some e =>
      simp [unregisterFromEvent, hc, hm, he, await, Run.tryCatch, Run.andThen, Run.emit,
        Run.throw, bind]

theorem unregisterFromEvent_ok (w : World) (registrationId : String) (resp : StatusResponse)
    (hc : w.confirm unregisterQuestion = true)
    (hm : w.mutate (unregisterMutation registrationId) = .returns resp)
    (he : resp.error = none) :
    unregisterFromEvent w registrationId =
      ⟨[.confirm unregisterQuestion, .mutate (unregisterMutation registrationId),
        .alert "Registration cancelled successfully", .call "loadStudentRegistrations"],
        .normal ()⟩ := by
  simp [unregisterFromEvent, hc, hm, he, await, Run.tryCatch, Run.andThen, Run.emit, bind]

theorem approveEvent_declined (w : World) (eventId : String)
    (hc : w.confirm "Approve this event?" = false) :
    approveEvent w eventId = ⟨[.confirm "Approve this event?"], .normal ()⟩ := by
  simp [approveEvent, hc, Run.andThen, Run.emit, bind, pure, Run.ret]

theorem approveEvent_fails (w : World) (eventId : String)
    (hc : w.confirm "Approve this event?" = true)
    (h : (w.mutate (statusMutation "approved" eventId)).failedStatus = true) :
    approveEvent w eventId =
      ⟨[.confirm "Approve this event?", .mutate (statusMutation "approved" eventId),
        .consoleError "Approve event error:", .alert "Failed to approve event"],
        .normal ()⟩ := by
  cases hm : w.mutate (statusMutation "approved" eventId) with
  | raises e => simp [approveEvent, hc, hm, await, Run.tryCatch, Run.andThen, Run.emit, bind]
  | returns resp =>
    cases he : resp.error with
    | none => simp [hm, Call.failedStatus, he] at h
    | some e =>
      simp [approveEvent, hc, hm, he, await, Run.tryCatch, Run.andThen, Run.emit, Run.throw,
        bind]

theorem approveEvent_ok (w : World) (eventId : String) (resp : StatusResponse)
    (hc : w.confirm "Approve this event?" = true)
    (hm : w.mutate (statusMutation "approved" eventId) = .returns resp)
    (he : resp.error = none) :
    approveEvent w eventId =
      ⟨[.confirm "Approve this event?", .mutate (statusMutation "approved" eventId),
        .alert "Event approved successfully", .call "loadFacultyEvents(pending)"],
        .normal ()⟩ := by
  simp [approveEvent, hc, hm, he, await, Run.tryCatch, Run.andThen, Run.emit, bind]

theorem rejectEvent_declined (w : World) (eventId : String)
    (hc : w.confirm "Reject this event?" = false) :
    rejectEvent w eventId = ⟨[.confirm "Reject this event?"], .normal ()⟩ := by
  simp [rejectEvent, hc, Run.andThen, Run.emit, bind, pure, Run.ret]

theorem rejectEvent_fails (w : World) (eventId : String)
    (hc : w.confirm "Reject this event?" = true)
    (h : (w.mutate (statusMutation "rejected" eventId)).failedStatus = true) :
    rejectEvent w eventId =
      ⟨[.confirm "Reject this event?", .mutate (statusMutation "rejected" eventId),
        .consoleError "Reject event error:", .alert "Failed to reject event"],
        .normal ()⟩ := by
  cases hm : w.mutate (statusMutation "rejected" eventId) with
  | raises e => simp [rejectEvent, hc, hm, await, Run.tryCatch, Run.andThen, Run.emit, bind]
  | returns resp =>
    cases he : resp.error with
    | none => simp [hm, Call.failedStatus, he] at h
    | some e =>
      simp [rejectEvent, hc, hm, he, await, Run.tryCatch, Run.andThen, Run.emit, Run.throw,
        bind]

theorem rejectEvent_ok (w : World) (eventId : String) (resp : StatusResponse)
    (hc : w.confirm "Reject this event?" = true)
    (hm : w.mutate (statusMutation "rejected" eventId) = .returns resp)
    (he : resp.error = none) :
    rejectEvent w eventId =
      ⟨[.confirm "Reject this event?", .mutate (statusMutation "rejected" eventId),
        .alert "Event rejected", .call "loadFacultyEvents(pending)"], .normal ()⟩ := by
  simp [rejectEvent, hc, hm, he, await, Run.tryCatch, Run.andThen, Run.emit, bind]

/-- The writes of `approveEvent`: none when the user declines, else the one update to
'approved' filtered by the id. -/
theorem approveEvent_mutations (w : World) (eventId : String) :
    (approveEvent w eventId).mutations =
      if w.confirm "Approve this event?" then [statusMutation "approved" eventId] else [] := by
  cases hc : w.confirm "Approve this event?" with
  | false => rw [approveEvent_declined w eventId hc]; rfl
  | true =>
    rcases Call.failedStatus_or_ok (w.mutate (statusMutation "approved" eventId)) with
      h | ⟨resp, hm, he⟩
    · rw [approveEvent_fails w eventId hc h]; rfl
    · rw [approveEvent_ok w eventId resp hc hm he]; rfl

/-- The writes of `rejectEvent`: none when the user declines, else the one update to
'rejected' filtered by the id. -/
theorem rejectEvent_mutations (w : World) (eventId : String) :
    (rejectEvent w eventId).mutations =
      if w.confirm "Reject this event?" then [statusMutation "rejected" eventId] else [] := by
  cases hc : w.confirm "Reject this event?" with
  | false => rw [rejectEvent_declined w eventId hc]; rfl
  | true =>
    rcases Call.failedStatus_or_ok (w.mutate (statusMutation "rejected" eventId)) with
      h | ⟨resp, hm, he⟩
    · rw [rejectEvent_fails w eventId hc h]; rfl
    · rw [rejectEvent_ok w eventId resp hc hm he]; rfl

/-- What the delete of `unregisterFromEvent` does to a table: it removes the rows
with the given id, whoever owns them. -/
theorem unregisterMutation_apply (registrationId : String) (rows : List RegistrationRow) :
    (unregisterMutation registrationId).applyToRegistrations rows =
      rows.filter fun r => r.id ≠ registrationId := by
  unfold Mutation.applyToRegistrations unregisterMutation
  simp only [List.all_cons, List.all_nil, Bool.and_true, Filter.holdsRegistration,
    RegistrationRow.column]
  apply List.filter_congr
  intro r _
  by_cases hid : r.id = registrationId <;> simp [hid]

/-- C17 fails: for an identifier that no registration has, and for a registration
that another user owns, `unregisterFromEvent` reports 'Registration cancelled
successfully' when the delete returns without error; its delete removes nothing in
the first case and the row of the other user in the second. -/
theorem unregisterFromEvent_absent_counterexample :
    (unregisterFromEvent (worldWithRole (.str "student")) "r9").alerts =
      ["Registration cancelled successfully"] ∧
    (unregisterMutation "r9").applyToRegistrations [sampleRegistration] =
      [sampleRegistration] ∧
    (unregisterFromEvent (worldWithRole (.str "student")) "r2").alerts =
      ["Registration cancelled successfully"] ∧
    (unregisterMutation "r2").applyToRegistrations
      [{ sampleRegistration with id := "r2", user_id := "u2" }] = [] := by
  decide

/-- C17 as amended. Once the user has confirmed, `unregisterFromEvent` requests one
delete on `registrations` filtered by the id only, which removes the rows with that
id whoever owns them; it reports 'Registration cancelled successfully' whenever the
delete returns without error and 'Failed to cancel registration' when the delete
rejects or returns an error; it never throws. -/
theorem unregisterFromEvent_reports (w : World) (registrationId : String)
    (hc : w.confirm unregisterQuestion = true) :
    (unregisterFromEvent w registrationId).mutations =
      [⟨"registrations", .delete, [.eq "id" registrationId]⟩] ∧
    (∀ rows, (unregisterMutation registrationId).applyToRegistrations rows =
      rows.filter fun r => r.id ≠ registrationId) ∧
    (∀ resp, w.mutate (unregisterMutation registrationId) = .returns resp →
      resp.error = none →
      (unregisterFromEvent w registrationId).alerts =
        ["Registration cancelled successfully"]) ∧
    ((w.mutate (unregisterMutation registrationId)).failedStatus = true →
      (unregisterFromEvent w registrationId).alerts = ["Failed to cancel registration"]) ∧
    (unregisterFromEvent w registrationId).result = .normal () := by
  refine ⟨?_, fun rows => unregisterMutation_apply registrationId rows, ?_, ?_, ?_⟩
  · rcases Call.failedStatus_or_ok (w.mutate (unregisterMutation registrationId)) with
      h | ⟨resp, hm, he⟩
    · rw [unregisterFromEvent_fails w registrationId hc h]; rfl
    · rw [unregisterFromEvent_ok w registrationId resp hc hm he]; rfl
  · intro resp hm he
    rw [unregisterFromEvent_ok w registrationId resp hc hm he]; rfl
  · intro h
    rw [unregisterFromEvent_fails w registrationId hc h]; rfl
  · rcases Call.failedStatus_or_ok (w.mutate (unregisterMutation registrationId)) with
      h | ⟨resp, hm, he⟩
    · rw [unregisterFromEvent_fails w registrationId hc h]
    · rw [unregisterFromEvent_ok w registrationId resp hc hm he]

/-- C17 as amended, at a student who cancels the registration `r1`. -/
theorem unregisterFromEvent_reports_witness :
    (unregisterFromEvent (worldWithRole (.str "student")) "r1").alerts =
      ["Registration cancelled successfully"] :=
  (unregisterFromEvent_reports (worldWithRole (.str "student")) "r1" (by decide)).2.2.1
    ⟨none⟩ rfl rfl

/-! ### Failures of remote calls and what the user is shown -/

theorem handleLogout_fails (w : World) (h : w.signOut.failedStatus = true) :
    handleLogout w =
      ⟨[.signOut, .consoleError "Logout error:", .alert "An error occurred during logout"],
        .normal ()⟩ := by
  cases hs : w.signOut with
  | raises e => simp [handleLogout, hs, await, Run.tryCatch, Run.andThen, Run.emit, bind]
  | returns resp =>
    cases he : resp.error with
    | none => simp [hs, Call.failedStatus, he] at h
    | some e =>
      simp [handleLogout, hs, he, await, Run.tryCatch, Run.andThen, Run.emit, Run.throw, bind]

theorem handleLogout_ok (w : World) (resp : StatusResponse) (hs : w.signOut = .returns resp)
    (he : resp.error = none) :
    handleLogout w = ⟨[.signOut, .setLocationHref (.str "index.html")], .normal ()⟩ := by
  simp [handleLogout, hs, he, await, Run.tryCatch, Run.andThen, Run.emit, bind]

/-- A failed sign-up makes `handleSignup` throw, with nothing shown to the user. -/
theorem handleSignup_fails (w : World) (name email password role : String)
    (h : (∃ e, w.signUp email password name role = .raises e) ∨
      ∃ resp e, w.signUp email password name role = .returns resp ∧ resp.error = some e) :
    ∃ e, handleSignup w name email password role =
      ⟨[.signUp email password name role], .throw e⟩ := by
  rcases h with ⟨e, hs⟩ | ⟨resp, e, hs, he⟩
  · exact ⟨e, by simp [handleSignup, hs, await, Run.andThen, bind]⟩
  · exact ⟨e, by simp [handleSignup, hs, he, await, Run.andThen, Run.throw, bind]⟩

theorem setIfPresent_run (w : World) (elementId prop value : String) :
    setIfPresent w elementId prop value =
      ⟨if w.hasElement elementId then [.setDom elementId prop value] else [], .normal ()⟩ := by
  by_cases h : w.hasElement elementId = true <;> simp [setIfPresent, h, Run.emit, pure, Run.ret]

/-- Whatever the backend answers, `checkAuthState` shows the user no message and
does not throw. -/
theorem checkAuthState_silent (w : World) :
    (checkAuthState w).userMessages = [] ∧ (checkAuthState w).result = .normal () := by
  unfold checkAuthState Run.userMessages
  cases hs : w.getSession with
  | raises e =>
    simp [await, Run.tryCatch, Run.andThen, Run.emit, bind, Effect.isUserMessage]
  | returns resp =>
    cases hn : resp.session with
    | none =>
      simp only [await, Run.tryCatch, Run.andThen, bind, hn, setIfPresent_run]
      constructor
      · simp only [List.filter_append]
        split_ifs <;> simp [Effect.isUserMessage]
      · trivial
    | some session =>
      cases hp : w.selectProfile "role, full_name" session.user.id with
      | raises e =>
        simp [await, Run.tryCatch, Run.andThen, Run.emit, bind, hn, hp, Effect.isUserMessage]
      | returns presp =>
        cases presp with
        | failure err =>
          simp only [await, Run.tryCatch, Run.andThen, bind, hn, hp, setIfPresent_run,
            SingleResponse.data, Run.emit, pure, Run.ret]
          constructor
          · split_ifs <;> simp [Effect.isUserMessage, Run.andThen]
          · split_ifs <;> rfl
        | success profile =>
          simp only [await, Run.tryCatch, Run.andThen, bind, hn, hp, setIfPresent_run,
            SingleResponse.data, Run.emit, pure, Run.ret]
          constructor
          · split_ifs <;> simp [Effect.isUserMessage, Run.andThen]
          · split_ifs <;> rfl

theorem viewEventRegistrations_fails (w : World) (eventId : String)
    (h : (w.selectRegistrations (eventRegistrationsQuery eventId)).failed = true) :
    viewEventRegistrations w eventId =
      ⟨[.select (eventRegistrationsQuery eventId), .consoleError "View registrations error:",
        .alert "Failed to load registrations"], .normal ()⟩ := by
  cases hq : w.selectRegistrations (eventRegistrationsQuery eventId) with
  | raises e =>
    simp [viewEventRegistrations, hq, await, Run.tryCatch, Run.andThen, Run.emit, bind]
  | returns resp =>
    cases resp with
    | success rows => simp [hq, Call.failed, SingleResponse.error] at h
    | failure err =>
      simp [viewEventRegistrations, hq, SingleResponse.error, await, Run.tryCatch, Run.andThen,
        Run.emit, Run.throw, bind]

theorem viewEventRegistrations_title_fails (w : World) (eventId : String)
    (rows : List RegistrationRow)
    (hq : w.selectRegistrations (eventRegistrationsQuery eventId) = .returns (.success rows))
    (h : (w.selectEvent (eventTitleQuery eventId)).failed = true) :
    viewEventRegistrations w eventId =
      ⟨[.select (eventRegistrationsQuery eventId), .select (eventTitleQuery eventId),
        .consoleError "View registrations error:", .alert "Failed to load registrations"],
        .normal ()⟩ := by
  cases he : w.selectEvent (eventTitleQuery eventId) with
  | raises e =>
    simp [viewEventRegistrations, hq, he, SingleResponse.error, await, Run.tryCatch,
      Run.andThen, Run.emit, bind]
  | returns resp =>
    cases resp with
    | success event => simp [he, Call.failed, SingleResponse.error] at h
    | failure err =>
      simp [viewEventRegistrations, hq, he, SingleResponse.error, SingleResponse.data, await,
        Run.tryCatch, Run.andThen, Run.emit, Run.throw, bind]

theorem viewEventRegistrations_shown (w : World) (eventId : String) (rows : List RegistrationRow)
    (event : EventRow)
    (hq : w.selectRegistrations (eventRegistrationsQuery eventId) = .returns (.success rows))
    (he : w.selectEvent (eventTitleQuery eventId) = .returns (.success event)) :
    viewEventRegistrations w eventId =
      ⟨[.select (eventRegistrationsQuery eventId), .select (eventTitleQuery eventId),
        .showRegistrationsModal event.title rows], .normal ()⟩ := by
  simp [viewEventRegistrations, hq, he, SingleResponse.error, SingleResponse.data, await,
    Run.tryCatch, Run.andThen, Run.emit, bind]

/-- Whatever the backend answers, `handleLogin` itself shows the user no message. -/
theorem handleLogin_userMessages (w : World) (email password : String) :
    (handleLogin w email password).userMessages = [] := by
  cases hs : w.signInWithPassword email password with
  | raises e => rw [handleLogin_signIn_raises w email password e hs]; rfl
  | returns resp =>
    cases he : resp.error with
    | some e => rw [handleLogin_auth_error w email password resp e hs he]; rfl
    | none =>
      cases hu : resp.user with
      | none => rw [handleLogin_no_user w email password resp hs he hu]; rfl
      | some user =>
        cases hp : w.selectProfile "role, full_name" user.id with
        | raises e =>
          rw [handleLogin_profile_raises w email password resp user e hs he hu hp]; rfl
        | returns presp =>
          cases hpe : presp.error with
          | some err =>
            rw [handleLogin_profile_error w email password resp user presp err hs he hu hp hpe]
            simp [Run.userMessages, Effect.isUserMessage]
          | none =>
            obtain ⟨profile, _, hrun⟩ :=
              handleLogin_profile_ok w email password resp user presp hs he hu hp hpe
            rw [hrun]
            simp [Run.userMessages, Effect.isUserMessage]

theorem createEventErrorText_ne_empty (e : JsError) : createEventErrorText e ≠ "" := by
  unfold createEventErrorText
  cases e.message with
  | none => decide
  | some m =>
    by_cases hm : m = ""
    · simp [hm]
    · simp [hm]

/-- A failed upload makes the poster step throw. -/
theorem uploadPoster_upload_fails (w : World) (file : File)
    (hsize : file.size ≤ 5 * 1024 * 1024)
    (h : (w.storageUpload (uploadPath w file "posters") file).failedStatus = true) :
    ∃ e, (uploadPoster w (some file)).result = .throw e := by
  have hnot : ¬ file.size > 5 * 1024 * 1024 := Nat.not_lt.mpr hsize
  unfold uploadPath at h
  unfold uploadPoster uploadFile
  simp only [hnot, if_false, bind, Run.andThen]
  cases hu : w.storageUpload
      ("posters" ++ "/" ++ (w.randomToken ++ "_" ++ w.now ++ "." ++ fileExtension file.name))
      file with
  | raises err => exact ⟨err, by simp only [await]⟩
  | returns resp =>
    cases hr : resp.error with
    | none => rw [hu] at h; simp [Call.failedStatus, hr] at h
    | some err =>
      exact ⟨JsError.error ("Upload failed: " ++ messageText err.message),
        by simp only [await, hr, Run.throw]⟩

/-- The form error that `createEvent` shows when the insert fails. -/
theorem createEvent_insert_fails_formErrors (w : World) (form : EventForm) (user : CurrentUser)
    (posterUrl : Option String)
    (hcu : (getCurrentUser w).result = .normal (some user))
    (hup : (uploadPoster w form.poster).result = .normal posterUrl)
    (h : (w.insertEvent (eventRecord user.id form posterUrl)).failed = true) :
    ∃ e, (createEvent w form).formErrors = [createEventErrorText e] := by
  have hti := getCurrentUser_formErrors w
  have hui := uploadPoster_formErrors w form.poster
  cases hrun : getCurrentUser w with
  | mk t res =>
    rw [hrun] at hcu hti
    simp only at hcu hti
    subst hcu
    cases hprun : uploadPoster w form.poster with
    | mk tu ures =>
      rw [hprun] at hup hui
      simp only at hup hui
      subst hup
      cases hi : w.insertEvent (eventRecord user.id form posterUrl) with
      | raises e =>
        refine ⟨e, ?_⟩
        rw [createEvent_insert_raises w form t tu user posterUrl e hrun hprun hi]
        simp only [Run.formErrors, List.filterMap_append, hti, hui]
        simp [createEventPrologue, createEventCatch, createEventEpilogue, Effect.formErrorText]
      | returns resp =>
        cases he : resp.error with
        | none => rw [hi] at h; simp [Call.failed, he] at h
        | some e =>
          refine ⟨e, ?_⟩
          rw [createEvent_insert_error w form t tu user posterUrl resp e hrun hprun hi he]
          simp only [Run.formErrors, List.filterMap_append, hti, hui]
          simp [createEventPrologue, createEventCatch, createEventEpilogue,
            Effect.formErrorText]

theorem getCurrentUser_alerts (w : World) : (getCurrentUser w).alerts = [] := by
  rcases getCurrentUser_cases w with h | h | ⟨id, h⟩ | ⟨id, profile, h⟩ <;> rw [h] <;> rfl

/-- A failed `register_student` call of a student leads to one alert, which is not
the success message. -/
theorem registerForEvent_failed_call_alert (w : World) (eventId : String)
    (user : CurrentUser) (profile : Profile)
    (hcu : (getCurrentUser w).result = .normal (some user))
    (hp : user.profile = some profile) (hr : profile.role = .str "student")
    (h : (w.rpcRegisterStudent eventId user.id).failedStatus = true) :
    ∃ msg, (registerForEvent w eventId).alerts = [msg] ∧
      msg ≠ "Successfully registered for the event!" := by
  cases hc : w.rpcRegisterStudent eventId user.id with
  | raises e =>
    have hal := getCurrentUser_alerts w
    obtain ⟨uid, uprofile⟩ := user
    simp only at hp hc
    subst hp
    cases hrun : getCurrentUser w with
    | mk t res =>
      rw [hrun] at hcu hal
      simp only at hcu
      subst hcu
      refine ⟨"Failed to register for event. Please try again.", ?_, by decide⟩
      rw [registerForEvent_rpc_raises w eventId t uid profile e hrun hr hc]
      simp only [Run.alerts] at hal ⊢
      rw [List.filterMap_append, hal]
      rfl
  | returns resp =>
    cases he : resp.error with
    | none => rw [hc] at h; simp [Call.failedStatus, he] at h
    | some error =>
      have hal := registerForEvent_returned_error_alerts w eventId user profile resp error
        hcu hp hr hc he
      rw [hal]
      refine ⟨_, rfl, ?_⟩
      split_ifs <;> decide

/-- When a call of `checkAuthAndRole` rejects, the user is shown no message: the
exception is logged and the page goes to the login page. -/
theorem checkAuthAndRole_raises_quiet (w : World) (requiredRole : JsValue)
    (h : (∃ e, w.getSession = .raises e) ∨
      ∃ resp session e, w.getSession = .returns resp ∧ resp.session = some session ∧
        w.selectProfile "role, full_name" session.user.id = .raises e) :
    (checkAuthAndRole w requiredRole).userMessages = [] ∧
    (checkAuthAndRole w requiredRole).navigations = [.str "login.html"] ∧
    (checkAuthAndRole w requiredRole).result = .normal () := by
  rcases h with ⟨e, hs⟩ | ⟨resp, session, e, hs, hn, hp⟩
  · rw [checkAuthAndRole_session_raises w requiredRole e hs]
    exact ⟨rfl, rfl, rfl⟩
  · rw [checkAuthAndRole_profile_raises w requiredRole resp session e hs hn hp]
    exact ⟨rfl, rfl, rfl⟩

/-- When the first read of `loadFacultyEvents` returns rows, the user is shown no
message, whatever becomes of the read of `updateFacultyStats`. -/
theorem loadFacultyEvents_rows_userMessages (w : World) (filter : String)
    (rows : List EventRow)
    (h : w.selectEvents (facultyEventsQuery filter) = .returns (.success rows)) :
    (loadFacultyEvents w filter).userMessages = [] := by
  rw [loadFacultyEvents_rows w filter rows h]
  simp only [Run.userMessages, List.filter_append, (updateFacultyStats_quiet w).2.2.2]
  have hspinner : Effect.isUserMessage (.setDom "eventsGrid" "innerHTML"
      "<div class=\"loading-spinner\">Loading events...</div>") = false := by decide
  by_cases hlen : rows.length = 0
  · simp [hlen, List.filter, hspinner, Effect.isUserMessage, jsIncludes, includesChars,
      startsWithChars]
  · simp [hlen, List.filter, hspinner, Effect.isUserMessage, jsIncludes, includesChars,
      startsWithChars, filterMap_userMessage_cards]

/-- An error that the registration lookup of `viewEventDetails` returns is dropped:
the modal is shown with 'Register Now' and the user is shown no message. -/
theorem viewEventDetails_lookup_error_dropped (w : World) (eventId : String)
    (event : EventRow) (user : CurrentUser) (profile : Profile) (err : JsError)
    (h : w.selectEvent (eventDetailsQuery eventId) = .returns (.success event))
    (hcu : (getCurrentUser w).result = .normal (some user))
    (hp : user.profile = some profile) (hr : profile.role = .str "student")
    (hl : w.selectRegistration (registrationLookupQuery eventId user.id) =
      .returns (.failure err)) :
    (viewEventDetails w eventId).userMessages = [] ∧
    (viewEventDetails w eventId).footers = [.registerNow event.id] ∧
    (viewEventDetails w eventId).result = .normal () := by
  have hgm := getCurrentUser_userMessages w
  have hgf : (getCurrentUser w).trace.filterMap Effect.footer = [] := by
    rw [List.filterMap_eq_nil_iff]
    intro e he
    rcases getCurrentUser_trace w e he with rfl | ⟨id, rfl⟩ | rfl <;> rfl
  obtain ⟨uid, uprofile⟩ := user
  simp only at hp hl
  subst hp
  cases hrun : getCurrentUser w with
  | mk t res =>
    rw [hrun] at hcu hgm hgf
    simp only at hcu hgm hgf
    subst hcu
    rw [viewEventDetails_lookup_returns w eventId event t uid profile (.failure err) h hrun hr
      hl]
    refine ⟨?_, ?_, rfl⟩
    · simp only [Run.userMessages, List.filter_cons, List.filter_append, hgm]
      simp [Effect.isUserMessage]
    · simp only [Run.footers, List.filterMap_cons, List.filterMap_append, hgf]
      simp [Effect.footer, SingleResponse.data]

/-- A failed sign-up makes `handleSignup` throw and shows the user no message. -/
theorem handleSignup_failed (w : World) (name email password role : String)
    (h : (w.signUp email password name role).failedAuth = true) :
    (handleSignup w name email password role).userMessages = [] ∧
    ∃ e, (handleSignup w name email password role).result = .throw e := by
  have hcases : (∃ e, w.signUp email password name role = .raises e) ∨
      ∃ resp e, w.signUp email password name role = .returns resp ∧ resp.error = some e := by
    cases hs : w.signUp email password name role with
    | raises e => exact Or.inl ⟨e, rfl⟩
    | returns resp =>
      cases he : resp.error with
      | none => rw [hs] at h; simp [Call.failedAuth, he] at h
      | some e => exact Or.inr ⟨resp, e, rfl, he⟩
  obtain ⟨e, hrun⟩ := handleSignup_fails w name email password role hcases
  rw [hrun]
  exact ⟨rfl, e, rfl⟩

/-- A failed sign-in and a failed profile lookup make `handleLogin` throw. -/
theorem handleLogin_failed (w : World) (email password : String)
    (h : (w.signInWithPassword email password).failedAuth = true ∨
      ∃ resp user, w.signInWithPassword email password = .returns resp ∧
        resp.error = none ∧ resp.user = some user ∧
        (w.selectProfile "role, full_name" user.id).failed = true) :
    ∃ e, (handleLogin w email password).result = .throw e := by
  rcases h with h | ⟨resp, user, hs, he, hu, hp⟩
  · cases hs : w.signInWithPassword email password with
    | raises e => exact ⟨e, by rw [handleLogin_signIn_raises w email password e hs]⟩
    | returns resp =>
      cases he : resp.error with
      | none => rw [hs] at h; simp [Call.failedAuth, he] at h
      | some e => exact ⟨e, by rw [handleLogin_auth_error w email password resp e hs he]⟩
  · cases hq : w.selectProfile "role, full_name" user.id with
    | raises e =>
      exact ⟨e, by rw [handleLogin_profile_raises w email password resp user e hs he hu hq]⟩
    | returns presp =>
      cases hpe : presp.error with
      | none => rw [hq] at hp; simp [Call.failed, hpe] at hp
      | some err =>
        exact ⟨_, by
          rw [handleLogin_profile_error w email password resp user presp err hs he hu hq hpe]⟩

/-- A failed poster removal in `deleteEvent` is logged only: the one message shown
is the success message. -/
theorem deleteEvent_removal_fails_messages (w : World) (eventId posterUrl : String)
    (resp : StatusResponse) (hc : w.confirm deleteEventQuestion = true)
    (hd : w.deleteEventRow eventId = .returns resp) (he : resp.error = none)
    (hp : posterUrl ≠ "") (hr : (w.storageRemove posterUrl).failedStatus = true) :
    (deleteEvent w eventId posterUrl).userMessages = [.alert "Event deleted successfully"] := by
  have hcases : (∃ e, w.storageRemove posterUrl = .raises e) ∨
      ∃ rresp e, w.storageRemove posterUrl = .returns rresp ∧ rresp.error = some e := by
    cases hs : w.storageRemove posterUrl with
    | raises e => exact Or.inl ⟨e, rfl⟩
    | returns rresp =>
      cases hre : rresp.error with
      | none => rw [hs] at hr; simp [Call.failedStatus, hre] at hr
      | some e => exact Or.inr ⟨rresp, e, rfl, hre⟩
  rw [deleteEvent_poster_removal_fails w eventId posterUrl resp hc hd he hp hcases]
  rfl

/-- C11 fails: when `getSession` rejects, `checkAuthState` only logs, and
`checkAuthAndRole` only logs and goes to the login page; when the read of
`updateFacultyStats` rejects, `loadFacultyEvents` only logs; when the registration
lookup of `viewEventDetails` returns an error, the error is dropped. In none of these
runs is the user shown a message. -/
theorem silent_failures_counterexample :
    checkAuthState worldSessionRaises =
      ⟨[.getSession, .consoleError "Auth state check error:"], .normal ()⟩ ∧
    checkAuthAndRole worldSessionRaises (.str "student") =
      ⟨[.getSession, .consoleError "Auth and role check error:",
        .setLocationHref (.str "login.html")], .normal ()⟩ ∧
    (loadFacultyEvents worldStatsFails "pending").userMessages = [] ∧
    Effect.consoleError "Update stats error:" ∈ (loadFacultyEvents worldStatsFails "pending").trace ∧
    (viewEventDetails (worldWithRegistrations []) "e1").userMessages = [] ∧
    ((worldWithRegistrations []).selectRegistration (registrationLookupQuery "e1" "u1")).failed
      = true := by
  decide

/-- C11 as amended. A failure (a rejection or an error result) of these calls leads
to a message for the user: the sign-out of `handleLogout`; the read of `loadEvents`,
of `searchAndFilterEvents`, of `loadStudentRegistrations`, of `loadOrganizerEvents`
and the first read of `loadFacultyEvents` (markup of class `error-message` in the
grid); the event lookup of `viewEventDetails`, the `register_student` call of
`registerForEvent`, the delete of `unregisterFromEvent`, the row deletion of
`deleteEvent`, the two reads of `viewEventRegistrations`, the update of
`approveEvent` and of `rejectEvent`, and a profile lookup of `checkAuthAndRole` that
returns an error (an alert); the poster upload and the insert of `createEvent` (the
form error). These failures do not lead to a message: `getCurrentUser`,
`checkAuthState` and `handleLogin` never show the user a message; a failed poster
removal of `deleteEvent` leaves the success message alone; a call of
`checkAuthAndRole` that rejects leads to the login page without a message; a failed
statistics read of `loadFacultyEvents` (the read of `updateFacultyStats`, made after
the first read returned rows) shows no message; an error returned by the registration
lookup of `viewEventDetails` is dropped and the modal shows 'Register Now'; a failed
sign-up makes `handleSignup` throw without a message, and a failed sign-in or profile
lookup makes `handleLogin` throw. -/
theorem failures_shown_to_user (w : World) :
    (w.signOut.failedStatus = true →
      (handleLogout w).alerts = ["An error occurred during logout"]) ∧
    ((w.selectEvents loadEventsQuery).failed = true →
      (loadEvents w).userMessages =
        [.setDom "eventsGrid" "innerHTML"
          "<div class=\"error-message\">Failed to load events. Please try again later.</div>"]) ∧
    (∀ searchTerm category, (w.selectEvents (searchQuery searchTerm category)).failed = true →
      (searchAndFilterEvents w searchTerm category).userMessages =
        [.setDom "eventsGrid" "innerHTML"
          "<div class=\"error-message\">Search failed. Please try again.</div>"]) ∧
    (∀ eventId, (w.selectEvent (eventDetailsQuery eventId)).failed = true →
      (viewEventDetails w eventId).alerts = ["Failed to load event details"]) ∧
    (∀ eventId user profile, (getCurrentUser w).result = .normal (some user) →
      user.profile = some profile → profile.role = .str "student" →
      (w.rpcRegisterStudent eventId user.id).failedStatus = true →
      ∃ msg, (registerForEvent w eventId).alerts = [msg] ∧
        msg ≠ "Successfully registered for the event!") ∧
    (∀ user, (getCurrentUser w).result = .normal (some user) →
      (w.selectRegistrations (studentRegistrationsQuery user.id)).failed = true →
      (loadStudentRegistrations w).userMessages =
        [.setDom "registeredEventsGrid" "innerHTML"
          "<div class=\"error-message\">Failed to load registrations</div>"]) ∧
    (∀ registrationId, w.confirm unregisterQuestion = true →
      (w.mutate (unregisterMutation registrationId)).failedStatus = true →
      (unregisterFromEvent w registrationId).alerts = ["Failed to cancel registration"]) ∧
    (∀ user, (getCurrentUser w).result = .normal (some user) →
      (w.selectEvents (organizerEventsQuery user.id)).failed = true →
      (loadOrganizerEvents w).userMessages =
        [.setDom "myEventsGrid" "innerHTML"
          "<div class=\"error-message\">Failed to load events</div>"]) ∧
    (∀ form user, (getCurrentUser w).result = .normal (some user) →
      (∀ file, form.poster = some file → file.size ≤ 5 * 1024 * 1024 →
        (w.storageUpload (uploadPath w file "posters") file).failedStatus = true →
        ∃ text, (createEvent w form).formErrors = [text] ∧ text ≠ "") ∧
      (∀ posterUrl, (uploadPoster w form.poster).result = .normal posterUrl →
        (w.insertEvent (eventRecord user.id form posterUrl)).failed = true →
        ∃ text, (createEvent w form).formErrors = [text] ∧ text ≠ "")) ∧
    (∀ eventId posterUrl, w.confirm deleteEventQuestion = true →
      (w.deleteEventRow eventId).failedStatus = true →
      (deleteEvent w eventId posterUrl).alerts = ["Failed to delete event"]) ∧
    (∀ eventId, (w.selectRegistrations (eventRegistrationsQuery eventId)).failed = true →
      (viewEventRegistrations w eventId).alerts = ["Failed to load registrations"]) ∧
    (∀ eventId rows,
      w.selectRegistrations (eventRegistrationsQuery eventId) = .returns (.success rows) →
      (w.selectEvent (eventTitleQuery eventId)).failed = true →
      (viewEventRegistrations w eventId).alerts = ["Failed to load registrations"]) ∧
    (∀ filter, (w.selectEvents (facultyEventsQuery filter)).failed = true →
      (loadFacultyEvents w filter).userMessages =
        [.setDom "eventsGrid" "innerHTML"
          "<div class=\"error-message\">Failed to load events</div>"]) ∧
    (∀ eventId, w.confirm "Approve this event?" = true →
      (w.mutate (statusMutation "approved" eventId)).failedStatus = true →
      (approveEvent w eventId).alerts = ["Failed to approve event"]) ∧
    (∀ eventId, w.confirm "Reject this event?" = true →
      (w.mutate (statusMutation "rejected" eventId)).failedStatus = true →
      (rejectEvent w eventId).alerts = ["Failed to reject event"]) ∧
    (∀ requiredRole resp session err, w.getSession = .returns resp →
      resp.session = some session →
      w.selectProfile "role, full_name" session.user.id = .returns (.failure err) →
      (checkAuthAndRole w requiredRole).alerts = ["Failed to verify user role"]) ∧
    (getCurrentUser w).userMessages = [] ∧
    (checkAuthState w).userMessages = [] ∧
    (∀ email password, (handleLogin w email password).userMessages = []) ∧
    (∀ eventId posterUrl resp, w.confirm deleteEventQuestion = true →
      w.deleteEventRow eventId = .returns resp → resp.error = none → posterUrl ≠ "" →
      (w.storageRemove posterUrl).failedStatus = true →
      (deleteEvent w eventId posterUrl).userMessages =
        [.alert "Event deleted successfully"]) ∧
    (∀ requiredRole,
      ((∃ e, w.getSession = .raises e) ∨
        ∃ resp session e, w.getSession = .returns resp ∧ resp.session = some session ∧
          w.selectProfile "role, full_name" session.user.id = .raises e) →
      (checkAuthAndRole w requiredRole).userMessages = [] ∧
      (checkAuthAndRole w requiredRole).navigations = [.str "login.html"] ∧
      (checkAuthAndRole w requiredRole).result = .normal ()) ∧
    (∀ filter rows, w.selectEvents (facultyEventsQuery filter) = .returns (.success rows) →
      (w.selectEvents facultyStatsQuery).failed = true →
      (loadFacultyEvents w filter).queries = [facultyEventsQuery filter, facultyStatsQuery] ∧
      (loadFacultyEvents w filter).userMessages = []) ∧
    (∀ eventId event user profile err,
      w.selectEvent (eventDetailsQuery eventId) = .returns (.success event) →
      (getCurrentUser w).result = .normal (some user) →
      user.profile = some profile → profile.role = .str "student" →
      w.selectRegistration (registrationLookupQuery eventId user.id) =
        .returns (.failure err) →
      (viewEventDetails w eventId).userMessages = [] ∧
      (viewEventDetails w eventId).footers = [.registerNow event.id] ∧
      (viewEventDetails w eventId).result = .normal ()) ∧
    (∀ name email password role, (w.signUp email password name role).failedAuth = true →
      (handleSignup w name email password role).userMessages = [] ∧
      ∃ e, (handleSignup w name email password role).result = .throw e) ∧
    (∀ email password,
      ((w.signInWithPassword email password).failedAuth = true ∨
        ∃ resp user, w.signInWithPassword email password = .returns resp ∧
          resp.error = none ∧ resp.user = some user ∧
          (w.selectProfile "role, full_name" user.id).failed = true) →
      ∃ e, (handleLogin w email password).result = .throw e) := by
  have hgm := getCurrentUser_userMessages w
  refine ⟨?_, ?_, ?_, ?_, ?_, ?_, ?_, ?_, ?_, ?_, ?_, ?_, ?_, ?_, ?_, ?_, hgm,
    (checkAuthState_silent w).1, handleLogin_userMessages w,
    fun eventId posterUrl resp hc hd he hp hr =>
      deleteEvent_removal_fails_messages w eventId posterUrl resp hc hd he hp hr,
    fun requiredRole h => checkAuthAndRole_raises_quiet w requiredRole h,
    fun filter rows h _ =>
      ⟨((loadFacultyEvents_queries w filter).2 rows h).1,
        loadFacultyEvents_rows_userMessages w filter rows h⟩,
    fun eventId event user profile err h hcu hp hr hl =>
      viewEventDetails_lookup_error_dropped w eventId event user profile err h hcu hp hr hl,
    fun name email password role h => handleSignup_failed w name email password role h,
    fun email password h => handleLogin_failed w email password h⟩
  · intro h
    rw [handleLogout_fails w h]; rfl
  · intro h
    rw [loadEvents_fails w h]; decide
  · intro searchTerm category h
    rw [searchAndFilterEvents_fails w searchTerm category h]
    simp only [Run.userMessages, List.filter, Effect.isUserMessage]
    decide
  · intro eventId h
    rw [viewEventDetails_fails w eventId h]; rfl
  · intro eventId user profile hcu hp hr h
    exact registerForEvent_failed_call_alert w eventId user profile hcu hp hr h
  · intro user hcu h
    cases hrun : getCurrentUser w with
    | mk t res =>
      rw [hrun] at hcu hgm
      simp only at hcu hgm
      subst hcu
      rw [loadStudentRegistrations_fails w t user hrun h]
      simp only [Run.userMessages, List.filter_append, hgm, List.nil_append]
      simp only [List.filter, Effect.isUserMessage]
      decide
  · intro registrationId hc h
    rw [unregisterFromEvent_fails w registrationId hc h]; rfl
  · intro user hcu h
    cases hrun : getCurrentUser w with
    | mk t res =>
      rw [hrun] at hcu hgm
      simp only at hcu hgm
      subst hcu
      rw [loadOrganizerEvents_fails w t user hrun h]
      simp only [Run.userMessages, List.filter_append, hgm, List.nil_append]
      simp only [List.filter, Effect.isUserMessage]
      decide
  · intro form user hcu
    constructor
    · intro file hposter hsize h
      obtain ⟨e, he⟩ := uploadPoster_upload_fails w file hsize h
      refine ⟨createEventErrorText e, ?_, createEventErrorText_ne_empty e⟩
      exact (createEvent_formErrors w form).2 user e hcu (by rw [hposter]; exact he)
    · intro posterUrl hup h
      obtain ⟨e, he⟩ := createEvent_insert_fails_formErrors w form user posterUrl hcu hup h
      exact ⟨createEventErrorText e, he, createEventErrorText_ne_empty e⟩
  · intro eventId posterUrl hc h
    cases hd : w.deleteEventRow eventId with
    | raises e => rw [deleteEvent_row_raises w eventId posterUrl e hc hd]; rfl
    | returns resp =>
      cases he : resp.error with
      | none => rw [hd] at h; simp [Call.failedStatus, he] at h
      | some e => rw [deleteEvent_row_error w eventId posterUrl resp e hc hd he]; rfl
  · intro eventId h
    rw [viewEventRegistrations_fails w eventId h]; rfl
  · intro eventId rows hq h
    rw [viewEventRegistrations_title_fails w eventId rows hq h]; rfl
  · intro filter h
    rw [loadFacultyEvents_fails w filter h]
    simp only [Run.userMessages, List.filter, Effect.isUserMessage]
    decide
  · intro eventId hc h
    rw [approveEvent_fails w eventId hc h]; rfl
  · intro eventId hc h
    rw [rejectEvent_fails w eventId hc h]; rfl
  · intro requiredRole resp session err hs hn hp
    rw [checkAuthAndRole_profile_failure w requiredRole resp session err hs hn hp]; rfl

/-- C11 as amended, at a backend on which the sign-out returns an error. -/
theorem failures_shown_to_user_witness :
    (handleLogout worldSignOutFails).alerts = ["An error occurred during logout"] :=
  (failures_shown_to_user worldSignOutFails).1 (by decide)

/-! ### The capacity of an event, written and read -/

/-- The seats lines print the `capacity` of the row, whatever its
`max_participants`. -/
theorem seats_of_stored_row (id : String) (record : EventInsert) :
    createEventCardSeats (storedRow id record) = "undefined seats available" ∧
    showEventModalSeats (storedRow id record) = "undefined seats" ∧
    (storedRow id record).max_participants = storedNumber record.max_participants := by
  refine ⟨?_, ?_, rfl⟩ <;> rfl

/-- The seats lines print the number of a row that has a `capacity`. -/
theorem seats_of_capacity (event : EventRow) (c : Int) (h : event.capacity = .number c) :
    createEventCardSeats event = toString c ++ " seats available" ∧
    showEventModalSeats event = toString c ++ " seats" := by
  simp [createEventCardSeats, showEventModalSeats, capacityText, h]

set_option maxRecDepth 20000 in
/-- C21. From the form capacity '40' an organizer's `createEvent` inserts a record
with `max_participants` 40 and no `capacity`; for the row kept for that record the
card of `createEventCard` shows 'undefined seats available' and the modal of
`showEventModal` shows 'undefined seats', not 40. -/
theorem createEvent_capacity_not_displayed :
    (createEvent (worldWithRole (.str "organizer")) (sampleForm "40" none)).inserts =
      [eventRecord "u1" (sampleForm "40" none) none] ∧
    (eventRecord "u1" (sampleForm "40" none) none).max_participants = .finite false 40 ∧
    createEventCardSeats (storedRow "e9" (eventRecord "u1" (sampleForm "40" none) none)) =
      "undefined seats available" ∧
    showEventModalSeats (storedRow "e9" (eventRecord "u1" (sampleForm "40" none) none)) =
      "undefined seats" ∧
    createEventCardSeats (storedRow "e9" (eventRecord "u1" (sampleForm "40" none) none)) ≠
      "40 seats available" := by
  decide

/-! ### Declined confirmation dialogs -/

/-- C22. When the user declines the confirmation dialog, each of
`unregisterFromEvent`, `deleteEvent`, `approveEvent` and `rejectEvent` returns
normally and its only effect is the dialog itself: no remote call, no alert, no call
of a reload function, no change of the page. -/
theorem declined_confirmation_no_effect (w : World) (id posterUrl : String) :
    (w.confirm unregisterQuestion = false →
      unregisterFromEvent w id = ⟨[.confirm unregisterQuestion], .normal ()⟩) ∧
    (w.confirm deleteEventQuestion = false →
      deleteEvent w id posterUrl = ⟨[.confirm deleteEventQuestion], .normal ()⟩) ∧
    (w.confirm "Approve this event?" = false →
      approveEvent w id = ⟨[.confirm "Approve this event?"], .normal ()⟩) ∧
    (w.confirm "Reject this event?" = false →
      rejectEvent w id = ⟨[.confirm "Reject this event?"], .normal ()⟩) :=
  ⟨unregisterFromEvent_declined w id, deleteEvent_declined w id posterUrl,
    approveEvent_declined w id, rejectEvent_declined w id⟩

/-- C22, at a user who declines the deletion of the event `e1`. -/
theorem declined_confirmation_no_effect_witness :
    deleteEvent worldDeclines "e1" "posters/a.png" =
      ⟨[.confirm deleteEventQuestion], .normal ()⟩ :=
  (declined_confirmation_no_effect worldDeclines "e1" "posters/a.png").2.1 rfl

/-! ### The counts of updateFacultyStats -/

/-- The count of `countStatus` is the number of rows with the status. -/
theorem countStatus_some (status : String) (rows : List EventRow) :
    countStatus status (some rows) = rows.countP fun e => e.status = status := by
  simp [countStatus, List.countP_eq_length_filter]

/-- When every status is one of the three, the three counts add up to the number of
rows. -/
theorem status_counts_sum (rows : List EventRow)
    (h : ∀ e ∈ rows, e.status = "pending" ∨ e.status = "approved" ∨ e.status = "rejected") :
    (rows.countP fun e => e.status = "pending") + (rows.countP fun e => e.status = "approved") +
      (rows.countP fun e => e.status = "rejected") = rows.length := by
  induction rows with
  | nil => rfl
  | cons e rest ih =>
    have hrest := ih fun x hx => h x (List.mem_cons_of_mem _ hx)
    have he := h e (List.mem_cons_self _ _)
    simp only [List.countP_cons, List.length_cons]
    rcases he with he | he | he <;> simp [he] <;> omega

/-- C23. When the query of `updateFacultyStats` returns a list of events, the three
counts it displays are the numbers of events with status 'pending', 'approved' and
'rejected', and they add up to the length of the list when every status is one of
the three; when the query returns no data, the three counts it displays are 0. -/
theorem updateFacultyStats_counts (w : World) (resp : SingleResponse (List EventRow))
    (h : w.selectEvents facultyStatsQuery = .returns resp) :
    (∀ rows, resp.data = some rows →
      updateFacultyStats w =
        ⟨[.select facultyStatsQuery,
          .setNumber "pendingCount" (rows.countP fun e => e.status = "pending"),
          .setNumber "approvedCount" (rows.countP fun e => e.status = "approved"),
          .setNumber "rejectedCount" (rows.countP fun e => e.status = "rejected")],
          .normal ()⟩ ∧
      ((∀ e ∈ rows, e.status = "pending" ∨ e.status = "approved" ∨ e.status = "rejected") →
        (rows.countP fun e => e.status = "pending") +
          (rows.countP fun e => e.status = "approved") +
          (rows.countP fun e => e.status = "rejected") = rows.length)) ∧
    (resp.data = none →
      updateFacultyStats w =
        ⟨[.select facultyStatsQuery, .setNumber "pendingCount" 0,
          .setNumber "approvedCount" 0, .setNumber "rejectedCount" 0], .normal ()⟩) := by
  constructor
  · intro rows hrows
    refine ⟨?_, status_counts_sum rows⟩
    rw [updateFacultyStats_returns w resp h, hrows, countStatus_some, countStatus_some,
      countStatus_some]
  · intro hnone
    rw [updateFacultyStats_returns w resp h, hnone]
    rfl

/-- C23, at a data service that returns one approved event. -/
theorem updateFacultyStats_counts_witness :
    updateFacultyStats (worldWithEvents (.str "faculty") [sampleEvent]) =
      ⟨[.select facultyStatsQuery,
        .setNumber "pendingCount" ([sampleEvent].countP fun e => e.status = "pending"),
        .setNumber "approvedCount" ([sampleEvent].countP fun e => e.status = "approved"),
        .setNumber "rejectedCount" ([sampleEvent].countP fun e => e.status = "rejected")],
        .normal ()⟩ ∧
    ((∀ e ∈ [sampleEvent],
        e.status = "pending" ∨ e.status = "approved" ∨ e.status = "rejected") →
      ([sampleEvent].countP fun e => e.status = "pending") +
        ([sampleEvent].countP fun e => e.status = "approved") +
        ([sampleEvent].countP fun e => e.status = "rejected") = [sampleEvent].length) :=
  (updateFacultyStats_counts (worldWithEvents (.str "faculty") [sampleEvent])
    (.success [sampleEvent]) rfl).1 [sampleEvent] rfl

/-! ### The statuses that the client writes -/

theorem getCurrentUser_statusesWritten (w : World) :
    (getCurrentUser w).trace.filterMap Effect.statusWritten = [] := by
  rw [List.filterMap_eq_nil_iff]
  intro e he
  rcases getCurrentUser_trace w e he with rfl | ⟨id, rfl⟩ | rfl <;> rfl

theorem uploadPoster_statusesWritten (w : World) (poster : Option File) :
    (uploadPoster w poster).trace.filterMap Effect.statusWritten = [] := by
  rw [List.filterMap_eq_nil_iff]
  intro e he
  obtain ⟨path, file, rfl, _, _⟩ := uploadPoster_trace w poster e he
  rfl

theorem statsEffects_statusWritten (w : World) (first second : String) (a b : Nat) :
    (statsEffects w first second a b).filterMap Effect.statusWritten = [] := by
  unfold statsEffects
  split_ifs <;> rfl

theorem filterMap_statusWritten_cards (gridId : String) (cards : List Card) :
    (cards.map (Effect.appendCard gridId)).filterMap Effect.statusWritten = [] := by
  induction cards with
  | nil => rfl
  | cons c cs ih => simp [Effect.statusWritten, ih]

/-- The run of `getCurrentUser`, with its result a user or none. -/
theorem getCurrentUser_run (w : World) :
    ∃ t cu, getCurrentUser w = ⟨t, .normal cu⟩ ∧ t.filterMap Effect.statusWritten = [] := by
  have hq := getCurrentUser_statusesWritten w
  rcases getCurrentUser_cases w with h | h | ⟨id, h⟩ | ⟨id, profile, h⟩ <;>
    rw [h] at hq ⊢ <;> exact ⟨_, _, rfl, hq⟩

theorem handleLogin_statusesWritten (w : World) (email password : String) :
    (handleLogin w email password).statusesWritten = [] := by
  cases hs : w.signInWithPassword email password with
  | raises e => rw [handleLogin_signIn_raises w email password e hs]; rfl
  | returns resp =>
    cases he : resp.error with
    | some e => rw [handleLogin_auth_error w email password resp e hs he]; rfl
    | none =>
      cases hu : resp.user with
      | none => rw [handleLogin_no_user w email password resp hs he hu]; rfl
      | some user =>
        cases hp : w.selectProfile "role, full_name" user.id with
        | raises e =>
          rw [handleLogin_profile_raises w email password resp user e hs he hu hp]; rfl
        | returns presp =>
          cases hpe : presp.error with
          | some err =>
            rw [handleLogin_profile_error w email password resp user presp err hs he hu hp hpe]
            rfl
          | none =>
            obtain ⟨profile, _, hrun⟩ :=
              handleLogin_profile_ok w email password resp user presp hs he hu hp hpe
            rw [hrun]
            rfl

theorem handleSignup_statusesWritten (w : World) (name email password role : String) :
    (handleSignup w name email password role).statusesWritten = [] := by
  unfold handleSignup Run.statusesWritten
  cases hs : w.signUp email password name role with
  | raises e => simp [await, Run.andThen, bind, Effect.statusWritten]
  | returns resp =>
    cases he : resp.error with
    | some e => simp [await, Run.andThen, Run.throw, bind, he, Effect.statusWritten]
    | none =>
      cases hu : resp.user with
      | none => simp [await, Run.andThen, Run.throw, bind, he, hu, Effect.statusWritten]
      | some u =>
        simp [await, Run.andThen, Run.emit, bind, he, hu, Effect.statusWritten]

theorem handleLogout_statusesWritten (w : World) : (handleLogout w).statusesWritten = [] := by
  rcases Call.failedStatus_or_ok w.signOut with h | ⟨resp, hs, he⟩
  · rw [handleLogout_fails w h]; rfl
  · rw [handleLogout_ok w resp hs he]; rfl

theorem checkAuthState_statusesWritten (w : World) :
    (checkAuthState w).statusesWritten = [] := by
  unfold checkAuthState Run.statusesWritten
  cases hs : w.getSession with
  | raises e =>
    simp [await, Run.tryCatch, Run.andThen, Run.emit, bind, Effect.statusWritten]
  | returns resp =>
    cases hn : resp.session with
    | none =>
      simp only [await, Run.tryCatch, Run.andThen, bind, hn, setIfPresent_run]
      simp only [List.filterMap_append]
      split_ifs <;> simp [Effect.statusWritten]
    | some session =>
      cases hp : w.selectProfile "role, full_name" session.user.id with
      | raises e =>
        simp [await, Run.tryCatch, Run.andThen, Run.emit, bind, hn, hp, Effect.statusWritten]
      | returns presp =>
        cases presp with
        | failure err =>
          simp only [await, Run.tryCatch, Run.andThen, bind, hn, hp, setIfPresent_run,
            SingleResponse.data, Run.emit, pure, Run.ret]
          split_ifs <;> simp [Effect.statusWritten, Run.andThen]
        | success profile =>
          simp only [await, Run.tryCatch, Run.andThen, bind, hn, hp, setIfPresent_run,
            SingleResponse.data, Run.emit, pure, Run.ret]
          split_ifs <;> simp [Effect.statusWritten, Run.andThen]

theorem checkAuthAndRole_statusesWritten (w : World) (requiredRole : JsValue) :
    (checkAuthAndRole w requiredRole).statusesWritten = [] := by
  cases hs : w.getSession with
  | raises e => rw [checkAuthAndRole_session_raises w requiredRole e hs]; rfl
  | returns resp =>
    cases hn : resp.session with
    | none => rw [checkAuthAndRole_no_session w requiredRole resp hs hn]; rfl
    | some session =>
      cases hp : w.selectProfile "role, full_name" session.user.id with
      | raises e =>
        rw [checkAuthAndRole_profile_raises w requiredRole resp session e hs hn hp]; rfl
      | returns presp =>
        cases presp with
        | failure err =>
          rw [checkAuthAndRole_profile_failure w requiredRole resp session err hs hn hp]; rfl
        | success profile =>
          by_cases hr : profile.role = requiredRole
          · rw [checkAuthAndRole_right_role w requiredRole resp session profile hs hn hp hr]
            simp only [Run.statusesWritten]
            split_ifs <;> rfl
          · rw [checkAuthAndRole_wrong_role w requiredRole resp session profile hs hn hp hr]
            rfl

theorem loadEvents_statusesWritten (w : World) : (loadEvents w).statusesWritten = [] := by
  rcases Call.failed_or_rows (w.selectEvents loadEventsQuery) with h | ⟨rows, h⟩
  · rw [loadEvents_fails w h]; rfl
  · rw [loadEvents_rows w rows h]
    by_cases hlen : rows.length = 0
    · simp [Run.statusesWritten, hlen, Effect.statusWritten]
    · simp [Run.statusesWritten, hlen, Effect.statusWritten, filterMap_statusWritten_cards]

theorem searchAndFilterEvents_statusesWritten (w : World) (searchTerm category : String) :
    (searchAndFilterEvents w searchTerm category).statusesWritten = [] := by
  rcases Call.failed_or_rows (w.selectEvents (searchQuery searchTerm category)) with
    h | ⟨rows, h⟩
  · rw [searchAndFilterEvents_fails w searchTerm category h]; rfl
  · rw [searchAndFilterEvents_rows w searchTerm category rows h]
    by_cases hlen : rows.length = 0
    · simp [Run.statusesWritten, hlen, Effect.statusWritten]
    · simp [Run.statusesWritten, hlen, Effect.statusWritten, filterMap_statusWritten_cards]

theorem viewEventDetails_statusesWritten (w : World) (eventId : String) :
    (viewEventDetails w eventId).statusesWritten = [] := by
  rcases Call.failed_or_rows (w.selectEvent (eventDetailsQuery eventId)) with h | ⟨event, h⟩
  · rw [viewEventDetails_fails w eventId h]; rfl
  · obtain ⟨t, cu, hcu, ht⟩ := getCurrentUser_run w
    cases cu with
    | none =>
      rw [viewEventDetails_no_user w eventId event t h hcu]
      simp [Run.statusesWritten, ht, Effect.statusWritten]
    | some user =>
      obtain ⟨id, profile⟩ := user
      cases profile with
      | none =>
        rw [viewEventDetails_no_profile w eventId event t id h hcu]
        simp [Run.statusesWritten, ht, Effect.statusWritten]
      | some profile =>
        by_cases hr : profile.role = .str "student"
        · cases hl : w.selectRegistration (registrationLookupQuery eventId id) with
          | raises e =>
            rw [viewEventDetails_lookup_raises w eventId event t id profile e h hcu hr hl]
            simp [Run.statusesWritten, ht, Effect.statusWritten]
          | returns rresp =>
            rw [viewEventDetails_lookup_returns w eventId event t id profile rresp h hcu hr hl]
            simp [Run.statusesWritten, ht, Effect.statusWritten]
        · rw [viewEventDetails_other_role w eventId event t id profile h hcu hr]
          simp [Run.statusesWritten, ht, Effect.statusWritten]

theorem registerForEvent_statusesWritten (w : World) (eventId : String) :
    (registerForEvent w eventId).statusesWritten = [] := by
  obtain ⟨t, cu, hcu, ht⟩ := getCurrentUser_run w
  cases cu with
  | none =>
    rw [registerForEvent_no_user w eventId t hcu]
    simp [Run.statusesWritten, ht, Effect.statusWritten]
  | some user =>
    obtain ⟨id, profile⟩ := user
    cases profile with
    | none =>
      rw [registerForEvent_no_profile w eventId t id hcu]
      simp [Run.statusesWritten, ht, Effect.statusWritten]
    | some profile =>
      by_cases hr : profile.role = .str "student"
      · cases hc : w.rpcRegisterStudent eventId id with
        | raises e =>
          rw [registerForEvent_rpc_raises w eventId t id profile e hcu hr hc]
          simp [Run.statusesWritten, ht, Effect.statusWritten]
        | returns resp =>
          cases he : resp.error with
          | some error =>
            rw [registerForEvent_rpc_error w eventId t id profile resp error hcu hr hc he]
            simp only [Run.statusesWritten, List.filterMap_append, ht]
            split_ifs <;> rfl
          | none =>
            rw [registerForEvent_rpc_ok w eventId t id profile resp hcu hr hc he]
            simp only [Run.statusesWritten, List.filterMap_append, ht]
            split_ifs <;> rfl
      · rw [registerForEvent_other_role w eventId t id profile hcu hr]
        simp [Run.statusesWritten, ht, Effect.statusWritten]

theorem loadStudentRegistrations_statusesWritten (w : World) :
    (loadStudentRegistrations w).statusesWritten = [] := by
  obtain ⟨t, cu, hcu, ht⟩ := getCurrentUser_run w
  cases cu with
  | none => rw [loadStudentRegistrations_no_user w t hcu]; exact ht
  | some user =>
    rcases Call.failed_or_rows (w.selectRegistrations (studentRegistrationsQuery user.id)) with
      h | ⟨rows, h⟩
    · rw [loadStudentRegistrations_fails w t user hcu h]
      simp [Run.statusesWritten, ht, Effect.statusWritten]
    · rw [loadStudentRegistrations_rows w t user rows hcu h]
      simp only [Run.statusesWritten, List.filterMap_append, ht]
      by_cases hlen : rows.length = 0
      · simp [hlen, Effect.statusWritten, statsEffects_statusWritten]
      · cases hre : registeredEvents rows with
        | none => simp [hlen, Effect.statusWritten]
        | some events =>
          simp [hlen, Effect.statusWritten, statsEffects_statusWritten,
            filterMap_statusWritten_cards]

theorem loadOrganizerEvents_statusesWritten (w : World) :
    (loadOrganizerEvents w).statusesWritten = [] := by
  obtain ⟨t, cu, hcu, ht⟩ := getCurrentUser_run w
  cases cu with
  | none => rw [loadOrganizerEvents_no_user w t hcu]; exact ht
  | some user =>
    rcases Call.failed_or_rows (w.selectEvents (organizerEventsQuery user.id)) with
      h | ⟨rows, h⟩
    · rw [loadOrganizerEvents_fails w t user hcu h]
      simp [Run.statusesWritten, ht, Effect.statusWritten]
    · rw [loadOrganizerEvents_rows w t user rows hcu h]
      simp only [Run.statusesWritten, List.filterMap_append, ht]
      by_cases hlen : rows.length = 0
      · simp [hlen, Effect.statusWritten, statsEffects_statusWritten]
      · simp [hlen, Effect.statusWritten, statsEffects_statusWritten,
          filterMap_statusWritten_cards]

theorem updateFacultyStats_statusesWritten (w : World) :
    (updateFacultyStats w).trace.filterMap Effect.statusWritten = [] := by
  cases h : w.selectEvents facultyStatsQuery with
  | raises e => rw [updateFacultyStats_raises w e h]; rfl
  | returns resp => rw [updateFacultyStats_returns w resp h]; rfl

theorem loadFacultyEvents_statusesWritten (w : World) (filter : String) :
    (loadFacultyEvents w filter).statusesWritten = [] := by
  rcases Call.failed_or_rows (w.selectEvents (facultyEventsQuery filter)) with h | ⟨rows, h⟩
  · rw [loadFacultyEvents_fails w filter h]; rfl
  · rw [loadFacultyEvents_rows w filter rows h]
    simp only [Run.statusesWritten, List.filterMap_append, updateFacultyStats_statusesWritten]
    by_cases hlen : rows.length = 0
    · simp [hlen, Effect.statusWritten]
    · simp [hlen, Effect.statusWritten, filterMap_statusWritten_cards]

theorem unregisterFromEvent_statusesWritten (w : World) (registrationId : String) :
    (unregisterFromEvent w registrationId).statusesWritten = [] := by
  cases hc : w.confirm unregisterQuestion with
  | false => rw [unregisterFromEvent_declined w registrationId hc]; rfl
  | true =>
    rcases Call.failedStatus_or_ok (w.mutate (unregisterMutation registrationId)) with
      h | ⟨resp, hm, he⟩
    · rw [unregisterFromEvent_fails w registrationId hc h]; rfl
    · rw [unregisterFromEvent_ok w registrationId resp hc hm he]; rfl

theorem createEvent_statusesWritten (w : World) (form : EventForm) :
    ∀ s ∈ (createEvent w form).statusesWritten, s = "approved" := by
  obtain ⟨t, cu, hcu, ht⟩ := getCurrentUser_run w
  have hui := uploadPoster_statusesWritten w form.poster
  cases cu with
  | none =>
    rw [createEvent_no_user w form t hcu]
    simp [Run.statusesWritten, ht, createEventPrologue, createEventCatch, createEventEpilogue,
      Effect.statusWritten]
  | some user =>
    cases hup : uploadPoster w form.poster with
    | mk tu ures =>
      rw [hup] at hui
      simp only at hui
      cases ures with
      | throw e =>
        rw [createEvent_poster_throws w form t tu user e hcu hup]
        simp [Run.statusesWritten, ht, hui, createEventPrologue, createEventCatch,
          createEventEpilogue, Effect.statusWritten]
      | normal posterUrl =>
        cases hi : w.insertEvent (eventRecord user.id form posterUrl) with
        | raises e =>
          rw [createEvent_insert_raises w form t tu user posterUrl e hcu hup hi]
          simp [Run.statusesWritten, ht, hui, createEventPrologue, createEventCatch,
            createEventEpilogue, Effect.statusWritten, eventRecord]
        | returns resp =>
          cases he : resp.error with
          | some e =>
            rw [createEvent_insert_error w form t tu user posterUrl resp e hcu hup hi he]
            simp [Run.statusesWritten, ht, hui, createEventPrologue, createEventCatch,
              createEventEpilogue, Effect.statusWritten, eventRecord]
          | none =>
            rw [createEvent_insert_ok w form t tu user posterUrl resp hcu hup hi he]
            simp [Run.statusesWritten, ht, hui, createEventPrologue, createEventEpilogue,
              Effect.statusWritten, eventRecord]

theorem deleteEvent_statusesWritten (w : World) (eventId posterUrl : String) :
    (deleteEvent w eventId posterUrl).statusesWritten = [] := by
  cases hc : w.confirm deleteEventQuestion with
  | false => rw [deleteEvent_declined w eventId posterUrl hc]; rfl
  | true =>
    cases hd : w.deleteEventRow eventId with
    | raises e => rw [deleteEvent_row_raises w eventId posterUrl e hc hd]; rfl
    | returns resp =>
      cases he : resp.error with
      | some e => rw [deleteEvent_row_error w eventId posterUrl resp e hc hd he]; rfl
      | none =>
        by_cases hp : posterUrl = ""
        · subst hp
          rw [deleteEvent_no_poster w eventId resp hc hd he]; rfl
        · cases hr : w.storageRemove posterUrl with
          | raises e =>
            rw [deleteEvent_poster_removal_fails w eventId posterUrl resp hc hd he hp
              (Or.inl ⟨e, hr⟩)]
            rfl
          | returns rresp =>
            cases hre : rresp.error with
            | some e =>
              rw [deleteEvent_poster_removal_fails w eventId posterUrl resp hc hd he hp
                (Or.inr ⟨rresp, e, hr, hre⟩)]
              rfl
            | none =>
              rw [deleteEvent_poster_removed w eventId posterUrl resp rresp hc hd he hp hr hre]
              rfl

theorem viewEventRegistrations_statusesWritten (w : World) (eventId : String) :
    (viewEventRegistrations w eventId).statusesWritten = [] := by
  rcases Call.failed_or_rows (w.selectRegistrations (eventRegistrationsQuery eventId)) with
    h | ⟨rows, hq⟩
  · rw [viewEventRegistrations_fails w eventId h]; rfl
  · rcases Call.failed_or_rows (w.selectEvent (eventTitleQuery eventId)) with h | ⟨event, he⟩
    · rw [viewEventRegistrations_title_fails w eventId rows hq h]; rfl
    · rw [viewEventRegistrations_shown w eventId rows event hq he]; rfl

theorem approveEvent_statusesWritten (w : World) (eventId : String) :
    (approveEvent w eventId).statusesWritten =
      if w.confirm "Approve this event?" then ["approved"] else [] := by
  cases hc : w.confirm "Approve this event?" with
  | false => rw [approveEvent_declined w eventId hc]; rfl
  | true =>
    rcases Call.failedStatus_or_ok (w.mutate (statusMutation "approved" eventId)) with
      h | ⟨resp, hm, he⟩
    · rw [approveEvent_fails w eventId hc h]; rfl
    · rw [approveEvent_ok w eventId resp hc hm he]; rfl

theorem rejectEvent_statusesWritten (w : World) (eventId : String) :
    (rejectEvent w eventId).statusesWritten =
      if w.confirm "Reject this event?" then ["rejected"] else [] := by
  cases hc : w.confirm "Reject this event?" with
  | false => rw [rejectEvent_declined w eventId hc]; rfl
  | true =>
    rcases Call.failedStatus_or_ok (w.mutate (statusMutation "rejected" eventId)) with
      h | ⟨resp, hm, he⟩
    · rw [rejectEvent_fails w eventId hc h]; rfl
    · rw [rejectEvent_ok w eventId resp hc hm he]; rfl

theorem uploadFile_statusesWritten (w : World) (file : File) (folder : String) :
    (uploadFile w file folder).statusesWritten = [] := by
  simp only [Run.statusesWritten, (uploadFile_run w file folder).1]
  rfl

theorem deleteFile_statusesWritten (w : World) (filePath : String) :
    (deleteFile w filePath).statusesWritten = [] := by
  unfold deleteFile Run.statusesWritten
  cases hs : w.storageRemove filePath with
  | raises e => simp [await, Run.andThen, bind, Effect.statusWritten]
  | returns resp =>
    cases he : resp.error with
    | some e => simp [await, Run.andThen, Run.throw, bind, he, Effect.statusWritten]
    | none => simp [await, Run.andThen, bind, he, pure, Run.ret, Effect.statusWritten]

set_option maxRecDepth 20000 in
/-- C16 fails: on a backend on which the event e1 is already rejected, `approveEvent`
reads nothing, requests the update of the status of e1 to 'approved', filtered by the
id only, and reports 'Event approved successfully': its run is the run for a pending
event. Likewise `rejectEvent` for an event that is already approved. -/
theorem approveEvent_decided_event_counterexample :
    (worldWithStatus "rejected").selectEvent (eventDetailsQuery "e1") =
      .returns (.success { sampleEvent with status := "rejected" }) ∧
    approveEvent (worldWithStatus "rejected") "e1" =
      ⟨[.confirm "Approve this event?",
        .mutate ⟨"events", .update "status" "approved", [.eq "id" "e1"]⟩,
        .alert "Event approved successfully", .call "loadFacultyEvents(pending)"],
        .normal ()⟩ ∧
    approveEvent (worldWithStatus "rejected") "e1" =
      approveEvent (worldWithStatus "pending") "e1" ∧
    (worldWithStatus "approved").selectEvent (eventDetailsQuery "e1") =
      .returns (.success { sampleEvent with status := "approved" }) ∧
    rejectEvent (worldWithStatus "approved") "e1" =
      ⟨[.confirm "Reject this event?",
        .mutate ⟨"events", .update "status" "rejected", [.eq "id" "e1"]⟩,
        .alert "Event rejected", .call "loadFacultyEvents(pending)"], .normal ()⟩ ∧
    rejectEvent (worldWithStatus "approved") "e1" =
      rejectEvent (worldWithStatus "pending") "e1" := by
  decide

/-- C16 as amended. Once the user has confirmed, `approveEvent` requests exactly one
write, the update of the status to 'approved' filtered by the id of the event only,
and `rejectEvent` the update to 'rejected'; neither reads anything, and each reports
success when its update returns without error. The run of either function depends on
the backend through the answer to the confirmation and the answer to the update
only, so it is the same whatever the current status of the event. No exported
operation of the client asks for the status 'pending': `createEvent` writes
'approved' only, `approveEvent` 'approved', `rejectEvent` 'rejected', and every other
operation writes no status. -/
theorem status_updates_by_id_only (w : World) (eventId : String) :
    (w.confirm "Approve this event?" = true →
      (approveEvent w eventId).mutations =
        [⟨"events", .update "status" "approved", [.eq "id" eventId]⟩] ∧
      (approveEvent w eventId).queries = []) ∧
    (w.confirm "Reject this event?" = true →
      (rejectEvent w eventId).mutations =
        [⟨"events", .update "status" "rejected", [.eq "id" eventId]⟩] ∧
      (rejectEvent w eventId).queries = []) ∧
    (∀ resp, w.confirm "Approve this event?" = true →
      w.mutate ⟨"events", .update "status" "approved", [.eq "id" eventId]⟩ = .returns resp →
      resp.error = none →
      (approveEvent w eventId).alerts = ["Event approved successfully"]) ∧
    (∀ resp, w.confirm "Reject this event?" = true →
      w.mutate ⟨"events", .update "status" "rejected", [.eq "id" eventId]⟩ = .returns resp →
      resp.error = none →
      (rejectEvent w eventId).alerts = ["Event rejected"]) ∧
    (∀ v : World, v.confirm = w.confirm → v.mutate = w.mutate →
      approveEvent v eventId = approveEvent w eventId ∧
      rejectEvent v eventId = rejectEvent w eventId) ∧
    (approveEvent w eventId).statusesWritten =
      (if w.confirm "Approve this event?" then ["approved"] else []) ∧
    (rejectEvent w eventId).statusesWritten =
      (if w.confirm "Reject this event?" then ["rejected"] else []) ∧
    (∀ form, ∀ s ∈ (createEvent w form).statusesWritten, s = "approved") ∧
    (∀ name email password role,
      (handleSignup w name email password role).statusesWritten = []) ∧
    (∀ email password, (handleLogin w email password).statusesWritten = []) ∧
    (handleLogout w).statusesWritten = [] ∧
    (checkAuthState w).statusesWritten = [] ∧
    (∀ requiredRole, (checkAuthAndRole w requiredRole).statusesWritten = []) ∧
    (getCurrentUser w).statusesWritten = [] ∧
    (loadEvents w).statusesWritten = [] ∧
    (∀ searchTerm category,
      (searchAndFilterEvents w searchTerm category).statusesWritten = []) ∧
    (∀ id, (viewEventDetails w id).statusesWritten = []) ∧
    (∀ id, (registerForEvent w id).statusesWritten = []) ∧
    (loadStudentRegistrations w).statusesWritten = [] ∧
    (∀ registrationId, (unregisterFromEvent w registrationId).statusesWritten = []) ∧
    (loadOrganizerEvents w).statusesWritten = [] ∧
    (∀ id posterUrl, (deleteEvent w id posterUrl).statusesWritten = []) ∧
    (∀ id, (viewEventRegistrations w id).statusesWritten = []) ∧
    (∀ filter, (loadFacultyEvents w filter).statusesWritten = []) ∧
    (∀ file folder, (uploadFile w file folder).statusesWritten = []) ∧
    (∀ filePath, (deleteFile w filePath).statusesWritten = []) := by
  have hqa : (approveEvent w eventId).queries = [] := by
    cases hc : w.confirm "Approve this event?" with
    | false => rw [approveEvent_declined w eventId hc]; rfl
    | true =>
      rcases Call.failedStatus_or_ok (w.mutate (statusMutation "approved" eventId)) with
        h | ⟨resp, hm, he⟩
      · rw [approveEvent_fails w eventId hc h]; rfl
      · rw [approveEvent_ok w eventId resp hc hm he]; rfl
  have hqr : (rejectEvent w eventId).queries = [] := by
    cases hc : w.confirm "Reject this event?" with
    | false => rw [rejectEvent_declined w eventId hc]; rfl
    | true =>
      rcases Call.failedStatus_or_ok (w.mutate (statusMutation "rejected" eventId)) with
        h | ⟨resp, hm, he⟩
      · rw [rejectEvent_fails w eventId hc h]; rfl
      · rw [rejectEvent_ok w eventId resp hc hm he]; rfl
  refine ⟨?_, ?_, ?_, ?_, ?_, approveEvent_statusesWritten w eventId,
    rejectEvent_statusesWritten w eventId, createEvent_statusesWritten w,
    handleSignup_statusesWritten w, handleLogin_statusesWritten w,
    handleLogout_statusesWritten w, checkAuthState_statusesWritten w,
    checkAuthAndRole_statusesWritten w, getCurrentUser_statusesWritten w,
    loadEvents_statusesWritten w, searchAndFilterEvents_statusesWritten w,
    viewEventDetails_statusesWritten w, registerForEvent_statusesWritten w,
    loadStudentRegistrations_statusesWritten w, unregisterFromEvent_statusesWritten w,
    loadOrganizerEvents_statusesWritten w, deleteEvent_statusesWritten w,
    viewEventRegistrations_statusesWritten w, loadFacultyEvents_statusesWritten w,
    uploadFile_statusesWritten w, deleteFile_statusesWritten w⟩
  · intro hc
    refine ⟨?_, hqa⟩
    rw [approveEvent_mutations, hc]
    rfl
  · intro hc
    refine ⟨?_, hqr⟩
    rw [rejectEvent_mutations, hc]
    rfl
  · intro resp hc hm he
    rw [approveEvent_ok w eventId resp hc hm he]; rfl
  · intro resp hc hm he
    rw [rejectEvent_ok w eventId resp hc hm he]; rfl
  · intro v hc hm
    constructor
    · unfold approveEvent
      rw [hc, hm]
    · unfold rejectEvent
      rw [hc, hm]

/-- C16 as amended, at a faculty member who approves the event e1 on a backend on
which e1 is already rejected. -/
theorem status_updates_by_id_only_witness :
    (approveEvent (worldWithStatus "rejected") "e1").mutations =
      [⟨"events", .update "status" "approved", [.eq "id" "e1"]⟩] ∧
    (approveEvent (worldWithStatus "rejected") "e1").queries = [] :=
  (status_updates_by_id_only (worldWithStatus "rejected") "e1").1 (by decide)

/-! ### The Number that parseInt returns -/

/-- Below 2^53 every natural number is a Number. -/
theorem roundToNumber_exact (n : Nat) (h : n < 2 ^ 53) : roundToNumber n = some n := by
  unfold roundToNumber
  rw [if_pos h]

theorem excessBits_small (fuel n : Nat) (h : n < 2 ^ 53) : excessBits fuel n = 0 := by
  cases fuel with
  | zero => rfl
  | succ f =>
    unfold excessBits
    rw [if_pos h]

theorem excessBits_large (fuel n : Nat) (h : ¬ n < 2 ^ 53) :
    excessBits (fuel + 1) n = excessBits fuel (n / 2) + 1 := by
  rw [excessBits, if_neg h]

/-- Halving as often as `excessBits` says brings `n` below 2^53, and not further than
needed. -/
theorem excessBits_spec (fuel n : Nat) (h : n ≤ fuel) :
    n >>> excessBits fuel n < 2 ^ 53 ∧
    (2 ^ 53 ≤ n → 2 ^ 52 ≤ n >>> excessBits fuel n ∧ 1 ≤ excessBits fuel n) := by
  induction fuel generalizing n with
  | zero =>
    have h0 : n = 0 := by omega
    subst h0
    exact ⟨by decide, fun h2 => absurd h2 (by decide)⟩
  | succ fuel ih =>
    by_cases hn : n < 2 ^ 53
    · rw [excessBits_small _ n hn, Nat.shiftRight_zero]
      exact ⟨hn, fun h2 => absurd hn (Nat.not_lt.mpr h2)⟩
    · rw [excessBits_large fuel n hn]
      have hpos : 1 ≤ n := by
        have : (0:Nat) < 2 ^ 53 := by decide
        omega
      have hhalf : n / 2 ≤ fuel := by omega
      obtain ⟨h1, h2⟩ := ih (n / 2) hhalf
      have hshift : n >>> (excessBits fuel (n / 2) + 1) =
          (n / 2) >>> excessBits fuel (n / 2) := by
        rw [Nat.add_comm, Nat.shiftRight_add, Nat.shiftRight_succ, Nat.shiftRight_zero]
      rw [hshift]
      refine ⟨h1, fun _ => ⟨?_, by omega⟩⟩
      by_cases hq : 2 ^ 53 ≤ n / 2
      · exact (h2 hq).1
      · rw [excessBits_small fuel (n / 2) (Nat.lt_of_not_le hq), Nat.shiftRight_zero]
        have e53 : (2:Nat) ^ 53 = 2 * 2 ^ 52 := by decide
        omega


/-- What `roundToNumber` returns is a Number next to `n`: a mantissa of at most 53
bits times a power of two, below 2^1024, equal to `n` below 2^53 and otherwise at
most half a unit in the last place away from `n`, with an even mantissa when `n` is
halfway between two Numbers. -/
theorem roundToNumber_nearest (n v : Nat) (h : roundToNumber n = some v) :
    ∃ mantissa shift, v = mantissa * 2 ^ shift ∧ mantissa ≤ 2 ^ 53 ∧ v < 2 ^ 1024 ∧
      (n < 2 ^ 53 → v = n) ∧
      (2 ^ 53 ≤ n → 2 ^ 52 * 2 ^ shift ≤ n ∧ n < 2 ^ 53 * 2 ^ shift) ∧
      2 * (v - n) ≤ 2 ^ shift ∧ 2 * (n - v) ≤ 2 ^ shift ∧
      (2 ^ 53 ≤ n → (2 * (v - n) = 2 ^ shift ∨ 2 * (n - v) = 2 ^ shift) →
        mantissa % 2 = 0) := by
  by_cases hn : n < 2 ^ 53
  · rw [roundToNumber_exact n hn] at h
    injection h with h
    subst h
    refine ⟨n, 0, by simp, Nat.le_of_lt hn, ?_, fun _ => rfl,
      fun h2 => absurd hn (Nat.not_lt.mpr h2), by simp, by simp,
      fun h2 => absurd hn (Nat.not_lt.mpr h2)⟩
    have key : ∀ a b : Nat, a < b → (2 : Nat) ^ a < 2 ^ b := fun a b hab =>
      Nat.pow_lt_pow_right (by decide) hab
    exact Nat.lt_trans hn (key 53 1024 (by decide))
  · have hge : 2 ^ 53 ≤ n := Nat.not_lt.mp hn
    obtain ⟨hm1, hm2⟩ := excessBits_spec n n (Nat.le_refl n)
    obtain ⟨hm2, hs⟩ := hm2 hge
    unfold roundToNumber at h
    rw [if_neg hn] at h
    generalize excessBits n n = s at h hm1 hm2 hs
    simp only [] at h
    rw [Nat.shiftRight_eq_div_pow n s] at h hm1 hm2
    simp only [Nat.shiftLeft_eq, Nat.one_mul] at h
    have hP : 2 ^ s = 2 * 2 ^ (s - 1) := by
      obtain ⟨k, rfl⟩ : ∃ k, s = k + 1 := ⟨s - 1, by omega⟩
      simp [pow_succ, Nat.mul_comm]
    have hdm := Nat.div_add_mod n (2 ^ s)
    have hr : n % 2 ^ s < 2 ^ s := Nat.mod_lt _ (by positivity)
    have hcomm : 2 ^ s * (n / 2 ^ s) = n / 2 ^ s * 2 ^ s := Nat.mul_comm _ _
    have hlow : 2 ^ 52 * 2 ^ s ≤ n / 2 ^ s * 2 ^ s := Nat.mul_le_mul_right _ hm2
    have hhigh : (n / 2 ^ s + 1) * 2 ^ s ≤ 2 ^ 53 * 2 ^ s :=
      Nat.mul_le_mul_right _ hm1
    have hsucc : (n / 2 ^ s + 1) * 2 ^ s = n / 2 ^ s * 2 ^ s + 2 ^ s := by ring
    have hfin : ∀ k x : Nat, x >>> k = 0 → x < 2 ^ k := fun k x hx =>
      (Nat.div_eq_zero_iff (Nat.two_pow_pos k)).mp (Nat.shiftRight_eq_div_pow x k ▸ hx)
    by_cases hup : n - n / 2 ^ s * 2 ^ s > 2 ^ (s - 1) ∨
        n - n / 2 ^ s * 2 ^ s = 2 ^ (s - 1) ∧ n / 2 ^ s % 2 = 1
    · rw [if_pos hup] at h
      by_cases hov : ((n / 2 ^ s + 1) * 2 ^ s) >>> 1024 = 0
      · rw [if_pos hov] at h
        injection h with h
        have hv : v < 2 ^ 1024 := h ▸ hfin 1024 _ hov
        refine ⟨n / 2 ^ s + 1, s, h.symm, hm1, hv, fun h2 => absurd h2 hn,
          fun _ => ⟨by omega, by omega⟩, by omega, by omega, ?_⟩
        intro _ htie
        rcases hup with hup | ⟨_, hodd⟩
        · omega
        · omega
      · rw [if_neg hov] at h
        exact absurd h (by simp)
    · rw [if_neg hup] at h
      by_cases hov : (n / 2 ^ s * 2 ^ s) >>> 1024 = 0
      · rw [if_pos hov] at h
        injection h with h
        have hv : v < 2 ^ 1024 := h ▸ hfin 1024 _ hov
        refine ⟨n / 2 ^ s, s, h.symm, Nat.le_of_lt hm1, hv, fun h2 => absurd h2 hn,
          fun _ => ⟨by omega, by omega⟩, by omega, by omega, ?_⟩
        intro _ htie
        have hrest : n - n / 2 ^ s * 2 ^ s = 2 ^ (s - 1) := by omega
        have hodd : ¬ (n / 2 ^ s % 2 = 1) := fun hodd => hup (Or.inr ⟨hrest, hodd⟩)
        omega
      · rw [if_neg hov] at h
        exact absurd h (by simp)

/-! ### Evaluations of the string helpers -/

theorem parseInt_samples :
    parseInt "42" = .finite false 42 ∧ parseInt "  -7px" = .finite true 7 ∧
    parseInt "0x1F" = .finite false 31 ∧ parseInt "" = .nan ∧ parseInt "abc" = .nan ∧
    parseInt "0" = .finite false 0 ∧ parseInt "-0" = .finite true 0 ∧
    parseInt "12.5" = .finite false 12 ∧ parseInt "12abc" = .finite false 12 ∧
    parseInt "40 seats" = .finite false 40 ∧ parseInt "0x" = .nan ∧
    parseInt "+" = .nan := by
  decide

/-- Beyond 2^53 the result of `parseInt` is the nearest Number, a tie going to the
even mantissa: 2^53 + 1 gives 2^53 and 2^53 + 3 gives 2^53 + 4. -/
theorem parseInt_rounds :
    parseInt "9007199254740992" = .finite false 9007199254740992 ∧
    parseInt "9007199254740993" = .finite false 9007199254740992 ∧
    parseInt "9007199254740994" = .finite false 9007199254740994 ∧
    parseInt "9007199254740995" = .finite false 9007199254740996 ∧
    parseInt "-9007199254740993" = .finite true 9007199254740992 ∧
    parseInt "100000000000000000000000" = .finite false 99999999999999991611392 := by
  decide

set_option maxRecDepth 100000 in
/-- A field of 400 digits is read as an infinity, and the largest finite Number is
2^1024 - 2^971. -/
theorem parseInt_overflows :
    parseInt "9999999999999999999999999999999999999999999999999999999999999999999999999999999999999999999999999999999999999999999999999999999999999999999999999999999999999999999999999999999999999999999999999999999999999999999999999999999999999999999999999999999999999999999999999999999999999999999999999999999999999999999999999999999999999999999999999999999999999999999999999999999999999999999999999999999999999999" = .infinity false ∧
    parseInt "-9999999999999999999999999999999999999999999999999999999999999999999999999999999999999999999999999999999999999999999999999999999999999999999999999999999999999999999999999999999999999999999999999999999999999999999999999999999999999999999999999999999999999999999999999999999999999999999999999999999999999999999999999999999999999999999999999999999999999999999999999999999999999999999999999999999999999999" = .infinity true ∧
    roundToNumber (1 <<< 1024 - 1 <<< 970 - 1) = some (1 <<< 1024 - 1 <<< 971) ∧
    roundToNumber (1 <<< 1024 - 1 <<< 970) = none := by
  decide

theorem string_helper_samples :
    fileExtension "poster.final.png" = "png" ∧ fileExtension "poster" = "poster" ∧
    jsTrim "  a b \n" = "a b" ∧
    jsIncludes "ERROR: event_full (P0001)" "event_full" = true ∧
    jsIncludes "event_not_found" "event_full" = false := by
  decide

theorem getDashboardUrl_samples :
    getDashboardUrl (.str "student") = .str "student-dashboard.html" ∧
    getDashboardUrl (.str "organizer") = .str "organizer-dashboard.html" ∧
    getDashboardUrl (.str "faculty") = .str "faculty-dashboard.html" ∧
    getDashboardUrl (.str "admin") = .str "index.html" ∧
    getDashboardUrl .null = .str "index.html" ∧
    getDashboardUrl .undefined = .str "index.html" := by
  decide

end Campus
